import Mathlib

/-! W83781D hardware-monitoring driver: register access and calibration engine

A shallow embedding of `kernel/chips/w83781d.c` (lm_sensors).  Pure macros become
functions on `Int`/`Nat`, the bus primitives become operations on an explicit world
(device state plus the trace of port and SMBus cycles issued so far), and the driver
routines thread that world together with the per-chip `w83781d_data` record.

Conventions
* `int`/`long` expressions are `Int` with C truncating division (`Int.tdiv`); a product
  of arbitrary `int` arguments is wrapped to 32 bits (`to_int`);
* `unsigned` expressions are `Nat` reduced modulo `2 ^ 32` where the code can wrap;
* `u8`/`u16` stores reduce modulo `256`/`65536`;
* a C division whose divisor is zero makes the function return `none`.
-/

namespace W83781D

/-! ## Register map (lines 53-126 of the source) -/

/-- Length of the ISA address segment. -/
def W83781D_EXTENT : Nat := 8

/-- Offset of the ISA address register relative to the base address. -/
def W83781D_ADDR_REG_OFFSET : Nat := 5

/-- Offset of the ISA data register relative to the base address. -/
def W83781D_DATA_REG_OFFSET : Nat := 6

/-- Upper-limit register of voltage channel `nr`. -/
def W83781D_REG_IN_MAX (nr : Nat) : Nat :=
  if nr < 7 then 0x2b + nr * 2 else 0x554 + ((nr - 7) * 2)

/-- Lower-limit register of voltage channel `nr`. -/
def W83781D_REG_IN_MIN (nr : Nat) : Nat :=
  if nr < 7 then 0x2c + nr * 2 else 0x555 + ((nr - 7) * 2)

/-- Reading register of voltage channel `nr`. -/
def W83781D_REG_IN (nr : Nat) : Nat :=
  if nr < 7 then 0x20 + nr else 0x550 + nr - 7

def W83781D_REG_FAN_MIN (nr : Nat) : Nat := 0x3a + nr
def W83781D_REG_FAN (nr : Nat) : Nat := 0x27 + nr

def W83781D_REG_TEMP2 : Nat := 0x0150
def W83781D_REG_TEMP3 : Nat := 0x0250
def W83781D_REG_TEMP2_HYST : Nat := 0x153
def W83781D_REG_TEMP3_HYST : Nat := 0x253
def W83781D_REG_TEMP2_CONFIG : Nat := 0x152
def W83781D_REG_TEMP3_CONFIG : Nat := 0x252
def W83781D_REG_TEMP2_OVER : Nat := 0x155
def W83781D_REG_TEMP3_OVER : Nat := 0x255

def W83781D_REG_TEMP : Nat := 0x27
def W83781D_REG_TEMP_OVER : Nat := 0x39
def W83781D_REG_TEMP_HYST : Nat := 0x3A
def W83781D_REG_TEMP_CONFIG : Nat := 0x52
def W83781D_REG_BANK : Nat := 0x4E

def W83781D_REG_CONFIG : Nat := 0x40
def W83781D_REG_ALARM1 : Nat := 0x41
def W83781D_REG_ALARM2 : Nat := 0x42
def W83781D_REG_ALARM3 : Nat := 0x450

def W83781D_REG_BEEP_CONFIG : Nat := 0x4D
def W83781D_REG_BEEP_INTS1 : Nat := 0x56
def W83781D_REG_BEEP_INTS2 : Nat := 0x57
def W83781D_REG_BEEP_INTS3 : Nat := 0x453

def W83781D_REG_VID_FANDIV : Nat := 0x47

def W83781D_REG_CHIPID : Nat := 0x49
def W83781D_REG_WCHIPID : Nat := 0x58
def W83781D_REG_CHIPMAN : Nat := 0x4F
def W83781D_REG_PIN : Nat := 0x4B

def W83781D_REG_PWM1 : Nat := 0x5B
def W83781D_REG_PWM2 : Nat := 0x5A
def W83781D_REG_PWM3 : Nat := 0x5E
def W83781D_REG_PWM4 : Nat := 0x5F
def W83781D_REG_PWMCLK12 : Nat := 0x5C
def W83781D_REG_PWMCLK34 : Nat := 0x45C

/-- The table `regpwm[]`. -/
def regpwm : List Nat :=
  [W83781D_REG_PWM1, W83781D_REG_PWM2, W83781D_REG_PWM3, W83781D_REG_PWM4]

/-- Register of PWM output `nr` (1-based): `regpwm[(nr) - 1]`. -/
def W83781D_REG_PWM (nr : Nat) : Nat := regpwm.getD (nr - 1) 0

def W83781D_REG_SCFG1 : Nat := 0x5D

/-- The table `BIT_SCFG1[]`. -/
def BIT_SCFG1 : List Nat := [0x02, 0x04, 0x08]

def W83781D_REG_SCFG2 : Nat := 0x59

/-- The table `BIT_SCFG2[]`. -/
def BIT_SCFG2 : List Nat := [0x10, 0x04, 0x08]

def W83781D_DEFAULT_BETA : Nat := 3435

def W83781D_WCHIPID : Nat := 0x10
def W83782D_WCHIPID : Nat := 0x30
def W83783S_WCHIPID : Nat := 0x40

/-! ## Conversions (lines 129-166) -/

/-- Voltage to register: `(((val) * 10 + 8)/16)`, in `int` arithmetic. -/
def IN_TO_REG (val : Int) (_nr : Nat) : Int := (val * 10 + 8).tdiv 16

/-- Register to voltage: `(((val) * 16) / 10)`. -/
def IN_FROM_REG (val : Int) (_nr : Nat) : Int := (val * 16).tdiv 10

/-- Fan speed to register.  All arithmetic is `unsigned` (modulo `2 ^ 32`); the
division traps when `rpm * divisor` wraps to zero, which is reported as `none`. -/
def FAN_TO_REG (rpm divisor : Nat) : Option Nat :=
  if rpm = 0 then some 255
  else
    let d := (rpm * divisor) % 2 ^ 32
    if d = 0 then none
    else
      let val := ((1350000 + d / 2) % 2 ^ 32) / d
      let val := if val > 255 then 255 else val
      some (val % 256)

/-- The value of an `int` expression: 32 bits, two's complement, results wrap. -/
def to_int (x : Int) : Int := (x + 2 ^ 31) % 2 ^ 32 - 2 ^ 31

/-- Register to fan speed:
`((val)==0?-1:(val)==255?0:1350000/((val)*(div)))`, in `int` arithmetic: the product
`(val)*(div)` wraps to 32 bits, and the division traps when the product is zero, which
is reported as `none`. -/
def FAN_FROM_REG (val div : Int) : Option Int :=
  if val = 0 then some (-1)
  else if val = 255 then some 0
  else
    let p := to_int (val * div)
    if p = 0 then none else some ((1350000 : Int).tdiv p)

/-- Primary temperature to register:
`(((val)<0?(((val)-5)/10)&0xff:((val)+5)/10) & 0xff)`.  The mask of a two's
complement `int` with `0xff` is the remainder modulo 256. -/
def TEMP_TO_REG (val : Int) : Int :=
  (if val < 0 then ((val - 5).tdiv 10) % 256 else (val + 5).tdiv 10) % 256

/-- Register to primary temperature: `(((val)>0x80?(val)-0x100:(val))*10)`. -/
def TEMP_FROM_REG (val : Int) : Int :=
  (if val > 0x80 then val - 0x100 else val) * 10

/-- Additional temperature to register: `(((((val) + 2) / 5) << 7) & 0xff80)`.
The shift of a two's complement `int` is multiplication by 128 and the mask with
`0xff80` clears the low seven bits of the remainder modulo `65536`. -/
def TEMP_ADD_TO_REG (val : Int) : Int :=
  let x := ((val + 2).tdiv 5 * 128) % 65536
  x - x % 128

/-- Register to additional temperature: `(((val) >> 7) * 5)`. -/
def TEMP_ADD_FROM_REG (val : Int) : Int := (val / 128) * 5

/-- VID code to voltage:
`((val)==0x1f?0:(val)>=0x10?510-(val)*10:(val)>=0x06?0:205-(val)*5)`. -/
def VID_FROM_REG (val : Int) : Int :=
  if val = 0x1f then 0 else if val ≥ 0x10 then 510 - val * 10
  else if val ≥ 0x06 then 0 else 205 - val * 5

def ALARMS_FROM_REG (val : Int) : Int := val
def PWM_FROM_REG (val : Int) : Int := val
def PWM_TO_REG (val : Int) : Int := val % 256
def BEEPS_FROM_REG (val : Int) : Int := val
def BEEPS_TO_REG (val : Int) : Int := val % 65536

def BEEP_ENABLE_TO_REG (val : Int) : Int := val
def BEEP_ENABLE_FROM_REG (val : Int) : Int := if val ≠ 0 then 1 else 0

/-- Divisor code to divisor: `(1 << (val))`. -/
def DIV_FROM_REG (val : Nat) : Int := ((1 <<< val : Nat) : Int)

/-- Divisor to divisor code: `((val)==8?3:(val)==4?2:(val)==1?0:1)`. -/
def DIV_TO_REG (val : Int) : Int :=
  if val = 8 then 3 else if val = 4 then 2 else if val = 1 then 0 else 1

/-! ## Bus transport

The driver reaches the chip either through two ISA ports (an address register and
a data register) or through SMBus byte transactions.  The hardware is a parameter:
any device state `σ` with a response to each primitive.  Transport faults are not
modelled; every read delivers a byte. -/

/-- One physical cycle issued by the driver, as written in the source. -/
inductive BusCycle where
  | outb_p (value port : Nat)
  | inb_p (port : Nat)
  | smbus_write_byte_data (addr command value : Nat)
  | smbus_read_byte_data (addr command : Nat)
  deriving DecidableEq, Repr

/-- The hardware behind the primitives. -/
structure Device (σ : Type) where
  outb_p : Nat → Nat → σ → σ
  inb_p : Nat → σ → Nat × σ
  smbus_write_byte_data : Nat → Nat → Nat → σ → σ
  smbus_read_byte_data : Nat → Nat → σ → Nat × σ

/-- Device state together with every cycle issued so far, oldest first. -/
structure World (σ : Type) where
  dev : σ
  trace : List BusCycle

/-- The fields of `struct i2c_client` / `struct isa_client` the driver uses:
`i2c_is_isa_client(client)`, the ISA base address and the SMBus address. -/
structure i2c_client where
  is_isa : Bool
  isa_addr : Nat
  addr : Nat
  deriving DecidableEq, Repr

variable {σ : Type}

/-- The port write `outb_p(value, port)`; the value is an `unsigned char`. -/
def outb_p (D : Device σ) (value port : Nat) (w : World σ) : World σ :=
  { dev := D.outb_p (value % 256) port w.dev,
    trace := w.trace ++ [BusCycle.outb_p (value % 256) port] }

/-- The port read `inb_p(port)`; the result is an `unsigned char`. -/
def inb_p (D : Device σ) (port : Nat) (w : World σ) : Nat × World σ :=
  ((D.inb_p port w.dev).1 % 256,
   { dev := (D.inb_p port w.dev).2, trace := w.trace ++ [BusCycle.inb_p port] })

/-- Modelled from the spec: `smbus.h` is not among the sources; the serial
transport is byte-oriented ("a single call performs an atomic addressed byte
transaction"), so the register offset (`command`) and the value are bytes and wider
arguments are truncated to their low eight bits. -/
def smbus_write_byte_data (D : Device σ) (addr command value : Nat) (w : World σ) :
    World σ :=
  { dev := D.smbus_write_byte_data addr (command % 256) (value % 256) w.dev,
    trace := w.trace ++ [BusCycle.smbus_write_byte_data addr (command % 256) (value % 256)] }

/-- Modelled from the spec: `smbus.h` is not among the sources; the serial
transport delivers one byte from the byte-sized offset `command` (wider arguments
are truncated to their low eight bits). -/
def smbus_read_byte_data (D : Device σ) (addr command : Nat) (w : World σ) :
    Nat × World σ :=
  ((D.smbus_read_byte_data addr (command % 256) w.dev).1 % 256,
   { dev := (D.smbus_read_byte_data addr (command % 256) w.dev).2,
     trace := w.trace ++ [BusCycle.smbus_read_byte_data addr (command % 256)] })

/-! ## Register addressing protocol (lines 940-1039) -/

/-- The classification computed at the top of both access routines. -/
def word_sized (reg : Nat) : Bool :=
  ((reg &&& 0xff00) == 0x100 || (reg &&& 0xff00) == 0x200) &&
    ((reg &&& 0x00ff) == 0x50 || (reg &&& 0x00ff) == 0x53 || (reg &&& 0x00ff) == 0x55)

/-- The routine `w83781d_read_value(client, reg)`; `reg` is a `u16`.  The
semaphore `down`/`up` pair has no effect on a single thread of control. -/
def w83781d_read_value (D : Device σ) (client : i2c_client) (reg : Nat) (w : World σ) :
    Nat × World σ :=
  if client.is_isa then
    let w1 :=
      if reg &&& 0xff00 ≠ 0 then
        outb_p D (reg >>> 8) (client.isa_addr + W83781D_DATA_REG_OFFSET)
          (outb_p D W83781D_REG_BANK (client.isa_addr + W83781D_ADDR_REG_OFFSET) w)
      else w
    let w2 := outb_p D (reg &&& 0xff) (client.isa_addr + W83781D_ADDR_REG_OFFSET) w1
    let r1 := inb_p D (client.isa_addr + W83781D_DATA_REG_OFFSET) w2
    let r2 :=
      if word_sized reg then
        let w3 := outb_p D ((reg &&& 0xff) + 1)
                    (client.isa_addr + W83781D_ADDR_REG_OFFSET) r1.2
        let r := inb_p D (client.isa_addr + W83781D_DATA_REG_OFFSET) w3
        ((r1.1 <<< 8) + r.1, r.2)
      else r1
    let w4 :=
      if reg &&& 0xff00 ≠ 0 then
        outb_p D 0 (client.isa_addr + W83781D_DATA_REG_OFFSET)
          (outb_p D W83781D_REG_BANK (client.isa_addr + W83781D_ADDR_REG_OFFSET) r2.2)
      else r2.2
    (r2.1, w4)
  else
    let w1 :=
      if reg &&& 0xff00 ≠ 0 then
        smbus_write_byte_data D client.addr W83781D_REG_BANK (reg >>> 8) w
      else w
    let r1 := smbus_read_byte_data D client.addr reg w1
    let r2 :=
      if word_sized reg then
        let r := smbus_read_byte_data D client.addr reg r1.2
        ((r1.1 <<< 8) + r.1, r.2)
      else r1
    let w4 :=
      if reg &&& 0xff00 ≠ 0 then
        smbus_write_byte_data D client.addr W83781D_REG_BANK 0 r2.2
      else r2.2
    (r2.1, w4)

/-- The routine `w83781d_write_value(client, reg, value)`; `reg` and `value` are
`u16`. -/
def w83781d_write_value (D : Device σ) (client : i2c_client) (reg value : Nat)
    (w : World σ) : World σ :=
  if client.is_isa then
    let w1 :=
      if reg &&& 0xff00 ≠ 0 then
        outb_p D (reg >>> 8) (client.isa_addr + W83781D_DATA_REG_OFFSET)
          (outb_p D W83781D_REG_BANK (client.isa_addr + W83781D_ADDR_REG_OFFSET) w)
      else w
    let w2 := outb_p D (reg &&& 0xff) (client.isa_addr + W83781D_ADDR_REG_OFFSET) w1
    let w3 :=
      if word_sized reg then
        outb_p D ((reg &&& 0xff) + 1) (client.isa_addr + W83781D_ADDR_REG_OFFSET)
          (outb_p D (value >>> 8) (client.isa_addr + W83781D_DATA_REG_OFFSET) w2)
      else w2
    let w4 := outb_p D (value &&& 0xff) (client.isa_addr + W83781D_DATA_REG_OFFSET) w3
    if reg &&& 0xff00 ≠ 0 then
      outb_p D 0 (client.isa_addr + W83781D_DATA_REG_OFFSET)
        (outb_p D W83781D_REG_BANK (client.isa_addr + W83781D_ADDR_REG_OFFSET) w4)
    else w4
  else
    let w1 :=
      if reg &&& 0xff00 ≠ 0 then
        smbus_write_byte_data D client.addr W83781D_REG_BANK (reg >>> 8) w
      else w
    let w2 :=
      if word_sized reg then
        smbus_write_byte_data D client.addr (reg + 1) (value &&& 0xff)
          (smbus_write_byte_data D client.addr reg (value >>> 8) w1)
      else smbus_write_byte_data D client.addr reg (value &&& 0xff) w1
    if reg &&& 0xff00 ≠ 0 then
      smbus_write_byte_data D client.addr W83781D_REG_BANK 0 w2
    else w2

/-! ## Observing the transport

The properties speak about logical transport operations (a byte read or written at a
register offset) and about the banked register that such an operation reaches. -/

/-- One logical transport operation at a register offset. -/
inductive BusOp where
  | read (offset : Nat)
  | write (offset byte : Nat)
  deriving DecidableEq, Repr

/-- The register offset of an operation. -/
def BusOp.reg : BusOp → Nat
  | BusOp.read o => o
  | BusOp.write o _ => o

/-- Decoding of physical cycles into logical operations for one client.  On the
ISA bus a write to the address port latches the offset and a cycle on the data
port transfers a byte at the latched offset; an SMBus transaction carries its
offset.  `latch` is the content of the address register before the cycles. -/
def logical (client : i2c_client) : Nat → List BusCycle → List BusOp
  | _, [] => []
  | latch, BusCycle.outb_p value port :: rest =>
      if port = client.isa_addr + W83781D_ADDR_REG_OFFSET then logical client value rest
      else if port = client.isa_addr + W83781D_DATA_REG_OFFSET then
        BusOp.write latch value :: logical client latch rest
      else logical client latch rest
  | latch, BusCycle.inb_p port :: rest =>
      if port = client.isa_addr + W83781D_DATA_REG_OFFSET then
        BusOp.read latch :: logical client latch rest
      else logical client latch rest
  | latch, BusCycle.smbus_write_byte_data _ command value :: rest =>
      BusOp.write command value :: logical client latch rest
  | latch, BusCycle.smbus_read_byte_data _ command :: rest =>
      BusOp.read command :: logical client latch rest

/-- Resolution of the bank: a write to the bank-select register `0x4E` selects the
bank for the operations that follow and is itself not a data access; every other
operation reaches the register `bank * 256 + offset`. -/
def banked : Nat → List BusOp → List BusOp
  | _, [] => []
  | bank, BusOp.read o :: rest => BusOp.read (bank * 256 + o) :: banked bank rest
  | bank, BusOp.write o v :: rest =>
      if o = W83781D_REG_BANK then banked v rest
      else BusOp.write (bank * 256 + o) v :: banked bank rest

/-- The cycles a routine added to the trace: those of `w2` after those of `w1`. -/
def issued (w1 w2 : World σ) : List BusCycle := w2.trace.drop w1.trace.length

/-- The logical operations a routine issued (the address latch content on entry
is immaterial for the driver routines, each of which latches before it transfers). -/
def bus_ops (client : i2c_client) (w1 w2 : World σ) : List BusOp :=
  logical client 0 (issued w1 w2)

/-- The banked register accesses a routine issued, the chip resting in bank 0 on
entry. -/
def reg_accesses (client : i2c_client) (w1 w2 : World σ) : List BusOp :=
  banked 0 (bus_ops client w1 w2)

/-! ## Initial limits (lines 168-264) -/

def W83781D_INIT_IN_0 (vid : Int) : Int := if vid = 350 then 280 else vid
def W83781D_INIT_IN_1 (vid : Int) : Int := if vid = 350 then 280 else vid
def W83781D_INIT_IN_2 : Int := 330
def W83781D_INIT_IN_3 : Int := ((500 : Int) * 100).tdiv 168
def W83781D_INIT_IN_4 : Int := ((1200 : Int) * 10).tdiv 38
def W83781D_INIT_IN_5 : Int := ((-1200 : Int) * -604).tdiv 2100
def W83781D_INIT_IN_6 : Int := ((-500 : Int) * -604).tdiv 909
def W83781D_INIT_IN_7 : Int := ((500 : Int) * 100).tdiv 168
def W83781D_INIT_IN_8 : Int := 330
def W83782D_INIT_IN_5 : Int := (((-1200 : Int) + 1491) * 100).tdiv 514
def W83782D_INIT_IN_6 : Int := (((-500 : Int) + 771) * 100).tdiv 314

def W83781D_INIT_IN_PERCENTAGE : Int := 10

/-- The shape shared by all `W83781D_INIT_IN_MIN_n` macros:
`(x - x * W83781D_INIT_IN_PERCENTAGE / 100)`. -/
def INIT_IN_MIN (x : Int) : Int := x - (x * W83781D_INIT_IN_PERCENTAGE).tdiv 100

/-- The shape shared by all `W83781D_INIT_IN_MAX_n` macros:
`(x + x * W83781D_INIT_IN_PERCENTAGE / 100)`. -/
def INIT_IN_MAX (x : Int) : Int := x + (x * W83781D_INIT_IN_PERCENTAGE).tdiv 100

def W83781D_INIT_IN_MIN_0 (vid : Int) : Int := INIT_IN_MIN (W83781D_INIT_IN_0 vid)
def W83781D_INIT_IN_MAX_0 (vid : Int) : Int := INIT_IN_MAX (W83781D_INIT_IN_0 vid)
def W83781D_INIT_IN_MIN_1 (vid : Int) : Int := INIT_IN_MIN (W83781D_INIT_IN_1 vid)
def W83781D_INIT_IN_MAX_1 (vid : Int) : Int := INIT_IN_MAX (W83781D_INIT_IN_1 vid)
def W83781D_INIT_IN_MIN_2 : Int := INIT_IN_MIN W83781D_INIT_IN_2
def W83781D_INIT_IN_MAX_2 : Int := INIT_IN_MAX W83781D_INIT_IN_2
def W83781D_INIT_IN_MIN_3 : Int := INIT_IN_MIN W83781D_INIT_IN_3
def W83781D_INIT_IN_MAX_3 : Int := INIT_IN_MAX W83781D_INIT_IN_3
def W83781D_INIT_IN_MIN_4 : Int := INIT_IN_MIN W83781D_INIT_IN_4
def W83781D_INIT_IN_MAX_4 : Int := INIT_IN_MAX W83781D_INIT_IN_4
def W83781D_INIT_IN_MIN_5 : Int := INIT_IN_MIN W83781D_INIT_IN_5
def W83781D_INIT_IN_MAX_5 : Int := INIT_IN_MAX W83781D_INIT_IN_5
def W83781D_INIT_IN_MIN_6 : Int := INIT_IN_MIN W83781D_INIT_IN_6
def W83781D_INIT_IN_MAX_6 : Int := INIT_IN_MAX W83781D_INIT_IN_6
def W83781D_INIT_IN_MIN_7 : Int := INIT_IN_MIN W83781D_INIT_IN_7
def W83781D_INIT_IN_MAX_7 : Int := INIT_IN_MAX W83781D_INIT_IN_7
def W83781D_INIT_IN_MIN_8 : Int := INIT_IN_MIN W83781D_INIT_IN_8
def W83781D_INIT_IN_MAX_8 : Int := INIT_IN_MAX W83781D_INIT_IN_8

def W83782D_INIT_IN_MIN_5_TMP : Int :=
  (((-1200 : Int) * (100 + W83781D_INIT_IN_PERCENTAGE)) + (1491 * 100)).tdiv 514
def W83782D_INIT_IN_MIN_5 : Int :=
  if W83782D_INIT_IN_MIN_5_TMP > 0 then W83782D_INIT_IN_MIN_5_TMP else 0
def W83782D_INIT_IN_MAX_5 : Int :=
  (((-1200 : Int) * (100 - W83781D_INIT_IN_PERCENTAGE)) + (1491 * 100)).tdiv 514
def W83782D_INIT_IN_MIN_6_TMP : Int :=
  (((-500 : Int) * (100 + W83781D_INIT_IN_PERCENTAGE)) + (771 * 100)).tdiv 314
def W83782D_INIT_IN_MIN_6 : Int :=
  if W83782D_INIT_IN_MIN_6_TMP > 0 then W83782D_INIT_IN_MIN_6_TMP else 0
def W83782D_INIT_IN_MAX_6 : Int :=
  (((-500 : Int) * (100 - W83781D_INIT_IN_PERCENTAGE)) + (771 * 100)).tdiv 314

def W83781D_INIT_FAN_MIN_1 : Nat := 3000
def W83781D_INIT_FAN_MIN_2 : Nat := 3000
def W83781D_INIT_FAN_MIN_3 : Nat := 3000

def W83781D_INIT_TEMP_OVER : Int := 600
def W83781D_INIT_TEMP_HYST : Int := 500
def W83781D_INIT_TEMP2_OVER : Int := 600
def W83781D_INIT_TEMP2_HYST : Int := 500
def W83781D_INIT_TEMP3_OVER : Int := 600
def W83781D_INIT_TEMP3_HYST : Int := 500

/-! ## Per-chip data (lines 290-323) -/

/-- The record `struct w83781d_data` without its two semaphores and `sysctl_id`.
Arrays are maps from the index; `in_` stands for the field `in`. -/
structure w83781d_data where
  valid : Nat
  last_updated : Nat
  in_ : Nat → Nat
  in_max : Nat → Nat
  in_min : Nat → Nat
  fan : Nat → Nat
  fan_min : Nat → Nat
  temp : Nat
  temp_over : Nat
  temp_hyst : Nat
  temp_add : Nat → Nat
  temp_add_over : Nat → Nat
  temp_add_hyst : Nat → Nat
  fan_div : Nat → Nat
  vid : Nat
  alarms : Nat
  beeps : Nat
  beep_enable : Nat
  wchipid : Nat
  pwm : Nat → Nat
  sens : Nat → Nat

/-- Conversion of an `int` argument to the `u16` parameter of
`w83781d_write_value`. -/
def to_u16 (x : Int) : Nat := (x % 65536).toNat

/-- The kernel constants the refresh depends on: the tick rate `HZ` and the width
of `unsigned long` (the type of `jiffies` and `last_updated`). -/
structure Kernel where
  HZ : Nat
  BITS_PER_LONG : Nat

/-! ## Chip initialisation (lines 1042-1184) -/

/-- The sensor-type loop of `w83781d_init_client` (lines 1060-1071), from index
`i` on; `tmp` is the byte read from `W83781D_REG_SCFG1`. -/
def init_sens (D : Device σ) (client : i2c_client) (tmp : Nat) :
    Nat → Nat → w83781d_data × World σ → w83781d_data × World σ
  | 0, _, s => s
  | fuel + 1, i, s =>
    if i ≤ 3 then
      let s1 : w83781d_data × World σ :=
        if tmp &&& BIT_SCFG1.getD (i - 1) 0 = 0 then
          ({ s.1 with sens := Function.update s.1.sens (i - 1) W83781D_DEFAULT_BETA }, s.2)
        else
          let r := w83781d_read_value D client W83781D_REG_TEMP s.2
          if r.1 &&& BIT_SCFG2.getD (i - 1) 0 ≠ 0 then
            ({ s.1 with sens := Function.update s.1.sens (i - 1) 1 }, r.2)
          else
            ({ s.1 with sens := Function.update s.1.sens (i - 1) 2 }, r.2)
      if s1.1.wchipid = W83783S_WCHIPID ∧ i = 2 then s1
      else init_sens D client tmp fuel (i + 1) s1
    else s

/-- Lines 1052-1072: reset, VID decoding and sensor types.  Returns the decoded
`vid` with the state. -/
def init_probe (D : Device σ) (client : i2c_client) (data : w83781d_data)
    (w : World σ) : Int × w83781d_data × World σ :=
  let wchipid := data.wchipid
  let w1 := w83781d_write_value D client W83781D_REG_CONFIG 0x80 w
  let r1 := w83781d_read_value D client W83781D_REG_VID_FANDIV w1
  let vid := r1.1 &&& 0x0f
  let r2 := w83781d_read_value D client W83781D_REG_CHIPID r1.2
  let vid := vid ||| ((r2.1 &&& 0x01) <<< 4)
  let vid := VID_FROM_REG (vid : Nat)
  if wchipid ≠ W83781D_WCHIPID then
    let r3 := w83781d_read_value D client W83781D_REG_SCFG1 r2.2
    (vid, init_sens D client (r3.1 % 256) 4 1 (data, r3.2))
  else (vid, data, r2.2)

/-- Lines 1099-1152: the voltage limits. -/
def init_in (D : Device σ) (client : i2c_client) (wchipid : Nat) (vid : Int)
    (w : World σ) : World σ :=
  let w := w83781d_write_value D client (W83781D_REG_IN_MIN 0)
    (to_u16 (IN_TO_REG (W83781D_INIT_IN_MIN_0 vid) 0)) w
  let w := w83781d_write_value D client (W83781D_REG_IN_MAX 0)
    (to_u16 (IN_TO_REG (W83781D_INIT_IN_MAX_0 vid) 0)) w
  let w :=
    if wchipid ≠ W83783S_WCHIPID then
      w83781d_write_value D client (W83781D_REG_IN_MAX 1)
        (to_u16 (IN_TO_REG (W83781D_INIT_IN_MAX_1 vid) 1))
        (w83781d_write_value D client (W83781D_REG_IN_MIN 1)
          (to_u16 (IN_TO_REG (W83781D_INIT_IN_MIN_1 vid) 1)) w)
    else w
  let w := w83781d_write_value D client (W83781D_REG_IN_MIN 2)
    (to_u16 (IN_TO_REG W83781D_INIT_IN_MIN_2 2)) w
  let w := w83781d_write_value D client (W83781D_REG_IN_MAX 2)
    (to_u16 (IN_TO_REG W83781D_INIT_IN_MAX_2 2)) w
  let w := w83781d_write_value D client (W83781D_REG_IN_MIN 3)
    (to_u16 (IN_TO_REG W83781D_INIT_IN_MIN_3 3)) w
  let w := w83781d_write_value D client (W83781D_REG_IN_MAX 3)
    (to_u16 (IN_TO_REG W83781D_INIT_IN_MAX_3 3)) w
  let w := w83781d_write_value D client (W83781D_REG_IN_MIN 4)
    (to_u16 (IN_TO_REG W83781D_INIT_IN_MIN_4 4)) w
  let w := w83781d_write_value D client (W83781D_REG_IN_MAX 4)
    (to_u16 (IN_TO_REG W83781D_INIT_IN_MAX_4 4)) w
  let w :=
    if wchipid = W83781D_WCHIPID then
      w83781d_write_value D client (W83781D_REG_IN_MAX 5)
        (to_u16 (IN_TO_REG W83781D_INIT_IN_MAX_5 5))
        (w83781d_write_value D client (W83781D_REG_IN_MIN 5)
          (to_u16 (IN_TO_REG W83781D_INIT_IN_MIN_5 5)) w)
    else
      w83781d_write_value D client (W83781D_REG_IN_MAX 5)
        (to_u16 (IN_TO_REG W83782D_INIT_IN_MAX_5 5))
        (w83781d_write_value D client (W83781D_REG_IN_MIN 5)
          (to_u16 (IN_TO_REG W83782D_INIT_IN_MIN_5 5)) w)
  let w :=
    if wchipid = W83781D_WCHIPID then
      w83781d_write_value D client (W83781D_REG_IN_MAX 6)
        (to_u16 (IN_TO_REG W83781D_INIT_IN_MAX_6 6))
        (w83781d_write_value D client (W83781D_REG_IN_MIN 6)
          (to_u16 (IN_TO_REG W83781D_INIT_IN_MIN_6 6)) w)
    else
      w83781d_write_value D client (W83781D_REG_IN_MAX 6)
        (to_u16 (IN_TO_REG W83782D_INIT_IN_MAX_6 6))
        (w83781d_write_value D client (W83781D_REG_IN_MIN 6)
          (to_u16 (IN_TO_REG W83782D_INIT_IN_MIN_6 6)) w)
  if wchipid = W83782D_WCHIPID then
    let w := w83781d_write_value D client (W83781D_REG_IN_MIN 7)
      (to_u16 (IN_TO_REG W83781D_INIT_IN_MIN_7 7)) w
    let w := w83781d_write_value D client (W83781D_REG_IN_MAX 7)
      (to_u16 (IN_TO_REG W83781D_INIT_IN_MAX_7 7)) w
    let w := w83781d_write_value D client (W83781D_REG_IN_MIN 8)
      (to_u16 (IN_TO_REG W83781D_INIT_IN_MIN_8 8)) w
    w83781d_write_value D client (W83781D_REG_IN_MAX 8)
      (to_u16 (IN_TO_REG W83781D_INIT_IN_MAX_8 8)) w
  else w

/-- Lines 1153-1158: the fan limits; `none` if a conversion traps. -/
def init_fan (D : Device σ) (client : i2c_client) (w : World σ) : Option (World σ) :=
  match FAN_TO_REG W83781D_INIT_FAN_MIN_1 2, FAN_TO_REG W83781D_INIT_FAN_MIN_2 2,
      FAN_TO_REG W83781D_INIT_FAN_MIN_3 2 with
  | some m1, some m2, some m3 =>
    let w := w83781d_write_value D client (W83781D_REG_FAN_MIN 1) m1 w
    let w := w83781d_write_value D client (W83781D_REG_FAN_MIN 2) m2 w
    some (w83781d_write_value D client (W83781D_REG_FAN_MIN 3) m3 w)
  | _, _, _ => none

/-- Lines 1160-1183: the temperature limits and the start of monitoring. -/
def init_temp (D : Device σ) (client : i2c_client) (wchipid : Nat) (w : World σ) :
    World σ :=
  let w := w83781d_write_value D client W83781D_REG_TEMP_OVER
    (to_u16 (TEMP_TO_REG W83781D_INIT_TEMP_OVER)) w
  let w := w83781d_write_value D client W83781D_REG_TEMP_HYST
    (to_u16 (TEMP_TO_REG W83781D_INIT_TEMP_HYST)) w
  let w := w83781d_write_value D client W83781D_REG_TEMP_CONFIG 0x00 w
  let w := w83781d_write_value D client W83781D_REG_TEMP2_OVER
    (to_u16 (TEMP_ADD_TO_REG W83781D_INIT_TEMP2_OVER)) w
  let w := w83781d_write_value D client W83781D_REG_TEMP2_HYST
    (to_u16 (TEMP_ADD_TO_REG W83781D_INIT_TEMP2_HYST)) w
  let w := w83781d_write_value D client W83781D_REG_TEMP2_CONFIG 0x00 w
  let w :=
    if wchipid ≠ W83783S_WCHIPID then
      let w := w83781d_write_value D client W83781D_REG_TEMP3_OVER
        (to_u16 (TEMP_ADD_TO_REG W83781D_INIT_TEMP3_OVER)) w
      let w := w83781d_write_value D client W83781D_REG_TEMP3_HYST
        (to_u16 (TEMP_ADD_TO_REG W83781D_INIT_TEMP3_HYST)) w
      w83781d_write_value D client W83781D_REG_TEMP3_CONFIG 0x00 w
    else w
  let r := w83781d_read_value D client W83781D_REG_CONFIG w
  w83781d_write_value D client W83781D_REG_CONFIG ((r.1 &&& 0xf7) ||| 0x01) r.2

/-- The routine `w83781d_init_client(client)`; `W83781D_RT` is undefined, so the
RT-table block is not compiled. -/
def w83781d_init_client (D : Device σ) (client : i2c_client) (data : w83781d_data)
    (w : World σ) : Option (w83781d_data × World σ) :=
  let wchipid := data.wchipid
  let p := init_probe D client data w
  let w1 := init_in D client wchipid p.1 p.2.2
  match init_fan D client w1 with
  | some w2 => some (p.2.1, init_temp D client wchipid w2)
  | none => none

/-! ## Snapshot refresh (lines 1186-1252) -/

/-- The voltage loop (lines 1199-1207) from index `i` on. -/
def update_in (D : Device σ) (client : i2c_client) :
    Nat → Nat → w83781d_data × World σ → w83781d_data × World σ
  | 0, _, s => s
  | fuel + 1, i, s =>
    if i ≤ 8 then
      if s.1.wchipid = W83783S_WCHIPID ∧ i = 1 then update_in D client fuel (i + 1) s
      else
        let r1 := w83781d_read_value D client (W83781D_REG_IN i) s.2
        let d1 := { s.1 with in_ := Function.update s.1.in_ i (r1.1 % 256) }
        let r2 := w83781d_read_value D client (W83781D_REG_IN_MIN i) r1.2
        let d2 := { d1 with in_min := Function.update d1.in_min i (r2.1 % 256) }
        let r3 := w83781d_read_value D client (W83781D_REG_IN_MAX i) r2.2
        let d3 := { d2 with in_max := Function.update d2.in_max i (r3.1 % 256) }
        if d3.wchipid ≠ W83782D_WCHIPID ∧ i = 6 then (d3, r3.2)
        else update_in D client fuel (i + 1) (d3, r3.2)
    else s

/-- The fan loop (lines 1208-1211) from index `i` on. -/
def update_fan (D : Device σ) (client : i2c_client) :
    Nat → Nat → w83781d_data × World σ → w83781d_data × World σ
  | 0, _, s => s
  | fuel + 1, i, s =>
    if i ≤ 3 then
      let r1 := w83781d_read_value D client (W83781D_REG_FAN i) s.2
      let d1 := { s.1 with fan := Function.update s.1.fan (i - 1) (r1.1 % 256) }
      let r2 := w83781d_read_value D client (W83781D_REG_FAN_MIN i) r1.2
      let d2 := { d1 with fan_min := Function.update d1.fan_min (i - 1) (r2.1 % 256) }
      update_fan D client fuel (i + 1) (d2, r2.2)
    else s

/-- The PWM loop (lines 1213-1219) from index `i` on. -/
def update_pwm (D : Device σ) (client : i2c_client) :
    Nat → Nat → w83781d_data × World σ → w83781d_data × World σ
  | 0, _, s => s
  | fuel + 1, i, s =>
    if i ≤ 4 then
      let r := w83781d_read_value D client (W83781D_REG_PWM i) s.2
      let d := { s.1 with pwm := Function.update s.1.pwm (i - 1) (r.1 % 256) }
      if (d.wchipid = W83783S_WCHIPID ∨
          (d.wchipid = W83782D_WCHIPID ∧ client.is_isa = true)) ∧ i = 2 then (d, r.2)
      else update_pwm D client fuel (i + 1) (d, r.2)
    else s

/-- Lines 1221-1229: the three temperature channels. -/
def update_temp (D : Device σ) (client : i2c_client)
    (s : w83781d_data × World σ) : w83781d_data × World σ :=
  let r1 := w83781d_read_value D client W83781D_REG_TEMP s.2
  let r2 := w83781d_read_value D client W83781D_REG_TEMP_OVER r1.2
  let r3 := w83781d_read_value D client W83781D_REG_TEMP_HYST r2.2
  let r4 := w83781d_read_value D client W83781D_REG_TEMP2 r3.2
  let r5 := w83781d_read_value D client W83781D_REG_TEMP2_OVER r4.2
  let r6 := w83781d_read_value D client W83781D_REG_TEMP2_HYST r5.2
  let r7 := w83781d_read_value D client W83781D_REG_TEMP3 r6.2
  let r8 := w83781d_read_value D client W83781D_REG_TEMP3_OVER r7.2
  let r9 := w83781d_read_value D client W83781D_REG_TEMP3_HYST r8.2
  ({ s.1 with
      temp := r1.1 % 256
      temp_over := r2.1 % 256
      temp_hyst := r3.1 % 256
      temp_add :=
        Function.update (Function.update s.1.temp_add 0 (r4.1 % 65536)) 1 (r7.1 % 65536)
      temp_add_over :=
        Function.update (Function.update s.1.temp_add_over 0 (r5.1 % 65536)) 1
          (r8.1 % 65536)
      temp_add_hyst :=
        Function.update (Function.update s.1.temp_add_hyst 0 (r6.1 % 65536)) 1
          (r9.1 % 65536) }, r9.2)

/-- Lines 1230-1237: VID code and fan divisors. -/
def update_vid_fandiv (D : Device σ) (client : i2c_client)
    (s : w83781d_data × World σ) : w83781d_data × World σ :=
  let ri := w83781d_read_value D client W83781D_REG_VID_FANDIV s.2
  let i := ri.1
  let r := w83781d_read_value D client W83781D_REG_CHIPID ri.2
  let d : w83781d_data :=
    { s.1 with
      vid := (((i &&& 0x0f) % 256) ||| ((r.1 &&& 0x01) <<< 4)) % 256
      fan_div :=
        Function.update (Function.update s.1.fan_div 0 (((i >>> 4) &&& 0x03) % 256)) 1
          ((i >>> 6) % 256) }
  if d.wchipid ≠ W83782D_WCHIPID then
    let rp := w83781d_read_value D client W83781D_REG_PIN r.2
    ({ d with fan_div := Function.update d.fan_div 2 (((rp.1 >>> 6) &&& 0x03) % 256) },
      rp.2)
  else (d, r.2)

/-- Lines 1238-1242: the alarm mask.  The two calls in the sum are taken left to
right. -/
def update_alarms (D : Device σ) (client : i2c_client)
    (s : w83781d_data × World σ) : w83781d_data × World σ :=
  let ra1 := w83781d_read_value D client W83781D_REG_ALARM1 s.2
  let ra2 := w83781d_read_value D client W83781D_REG_ALARM2 ra1.2
  let d : w83781d_data := { s.1 with alarms := (ra1.1 + (ra2.1 <<< 8)) % 2 ^ 32 }
  if d.wchipid = W83782D_WCHIPID then
    let ra3 := w83781d_read_value D client W83781D_REG_ALARM3 ra2.2
    ({ d with alarms := (d.alarms ||| (ra3.1 <<< 16)) % 2 ^ 32 }, ra3.2)
  else (d, ra2.2)

/-- Lines 1243-1248: the beep state, then the time stamp and the validity flag. -/
def update_beep (D : Device σ) (client : i2c_client) (jiffies : Nat)
    (s : w83781d_data × World σ) : w83781d_data × World σ :=
  let rb2 := w83781d_read_value D client W83781D_REG_BEEP_INTS2 s.2
  let i := rb2.1
  let rb1 := w83781d_read_value D client W83781D_REG_BEEP_INTS1 rb2.2
  ({ s.1 with
      beep_enable := (i >>> 7) % 256
      beeps := (((i &&& 0x7f) <<< 8) + rb1.1) % 65536
      last_updated := jiffies
      valid := 1 }, rb1.2)

/-- The staleness test of line 1193, in `unsigned long` arithmetic:
`(jiffies - data->last_updated > HZ+HZ/2) || (jiffies < data->last_updated)
|| ! data->valid`.  Both times are below `2 ^ BITS_PER_LONG`. -/
def stale (K : Kernel) (jiffies : Nat) (data : w83781d_data) : Prop :=
  (jiffies + 2 ^ K.BITS_PER_LONG - data.last_updated) % 2 ^ K.BITS_PER_LONG >
      K.HZ + K.HZ / 2 ∨
    jiffies < data.last_updated ∨ data.valid = 0

instance (K : Kernel) (jiffies : Nat) (data : w83781d_data) :
    Decidable (stale K jiffies data) := by
  unfold stale; infer_instance

/-- The routine `w83781d_update_client(client)` at time `jiffies`; the value of
`jiffies` is taken to be the same at each of its reads within one call. -/
def w83781d_update_client (D : Device σ) (K : Kernel) (jiffies : Nat)
    (client : i2c_client) (data : w83781d_data) (w : World σ) :
    w83781d_data × World σ :=
  if stale K jiffies data then
    let s := update_in D client 10 0 (data, w)
    let s := update_fan D client 4 1 s
    let s := if s.1.wchipid ≠ W83781D_WCHIPID then update_pwm D client 5 1 s else s
    let s := update_temp D client s
    let s := update_vid_fandiv D client s
    let s := update_alarms D client s
    update_beep D client jiffies s
  else (data, w)

/-! ## Register-level view of the bus traffic -/

def bank_select (reg : Nat) : List BusOp :=
  if reg &&& 0xff00 ≠ 0 then [BusOp.write W83781D_REG_BANK (reg >>> 8 % 256)] else []

def bank_restore (reg : Nat) : List BusOp :=
  if reg &&& 0xff00 ≠ 0 then [BusOp.write W83781D_REG_BANK 0] else []

def read_data (isa : Bool) (reg : Nat) : List BusOp :=
  if word_sized reg then
    [BusOp.read (reg % 256), BusOp.read (if isa then (reg + 1) % 256 else reg % 256)]
  else [BusOp.read (reg % 256)]

def write_data (reg value : Nat) : List BusOp :=
  if word_sized reg then
    [BusOp.write (reg % 256) (value >>> 8 % 256), BusOp.write ((reg + 1) % 256) (value % 256)]
  else [BusOp.write (reg % 256) (value % 256)]

def read_accs (isa : Bool) (reg : Nat) : List BusOp :=
  if word_sized reg then [BusOp.read reg, BusOp.read (if isa then reg + 1 else reg)]
  else [BusOp.read reg]

def write_accs (reg value : Nat) : List BusOp :=
  if word_sized reg then [BusOp.write reg (value >>> 8 % 256), BusOp.write (reg + 1) (value % 256)]
  else [BusOp.write reg (value % 256)]

def Decodes (c : i2c_client) (cyc : List BusCycle) (accs : List BusOp) : Prop :=
  ∀ l rest, ∃ l', banked 0 (logical c l (cyc ++ rest)) = accs ++ banked 0 (logical c l' rest)

def Issues (c : i2c_client) (w w' : World σ) (accs : List BusOp) : Prop :=
  ∃ cyc, w'.trace = w.trace ++ cyc ∧ Decodes c cyc accs

def in_loop_channels (wchipid : Nat) : Nat → Nat → List Nat
  | 0, _ => []
  | fuel + 1, i =>
    if i ≤ 8 then
      if wchipid = W83783S_WCHIPID ∧ i = 1 then in_loop_channels wchipid fuel (i + 1)
      else if wchipid ≠ W83782D_WCHIPID ∧ i = 6 then [i]
      else i :: in_loop_channels wchipid fuel (i + 1)
    else []

def in_regs (nr : Nat) : List Nat :=
  [W83781D_REG_IN nr, W83781D_REG_IN_MIN nr, W83781D_REG_IN_MAX nr]

def fan_loop_regs : Nat → Nat → List Nat
  | 0, _ => []
  | fuel + 1, i =>
    if i ≤ 3 then W83781D_REG_FAN i :: W83781D_REG_FAN_MIN i :: fan_loop_regs fuel (i + 1)
    else []

def pwm_loop_regs (wchipid : Nat) (isa : Bool) : Nat → Nat → List Nat
  | 0, _ => []
  | fuel + 1, i =>
    if i ≤ 4 then
      if (wchipid = W83783S_WCHIPID ∨ (wchipid = W83782D_WCHIPID ∧ isa = true)) ∧ i = 2 then
        [W83781D_REG_PWM i]
      else W83781D_REG_PWM i :: pwm_loop_regs wchipid isa fuel (i + 1)
    else []

def temp_regs : List Nat :=
  [W83781D_REG_TEMP, W83781D_REG_TEMP_OVER, W83781D_REG_TEMP_HYST,
   W83781D_REG_TEMP2, W83781D_REG_TEMP2_OVER, W83781D_REG_TEMP2_HYST,
   W83781D_REG_TEMP3, W83781D_REG_TEMP3_OVER, W83781D_REG_TEMP3_HYST]

def vid_fandiv_regs (wchipid : Nat) : List Nat :=
  [W83781D_REG_VID_FANDIV, W83781D_REG_CHIPID] ++
    (if wchipid ≠ W83782D_WCHIPID then [W83781D_REG_PIN] else [])

def alarm_regs (wchipid : Nat) : List Nat :=
  [W83781D_REG_ALARM1, W83781D_REG_ALARM2] ++
    (if wchipid = W83782D_WCHIPID then [W83781D_REG_ALARM3] else [])

def beep_regs : List Nat := [W83781D_REG_BEEP_INTS2, W83781D_REG_BEEP_INTS1]

/-- The registers a refresh reads, in order. -/
def refresh_regs (wchipid : Nat) (isa : Bool) : List Nat :=
  (in_loop_channels wchipid 10 0).flatMap in_regs ++ fan_loop_regs 4 1 ++
    (if wchipid ≠ W83781D_WCHIPID then pwm_loop_regs wchipid isa 5 1 else []) ++
    temp_regs ++ vid_fandiv_regs wchipid ++ alarm_regs wchipid ++ beep_regs

/-- A register-level call of the driver. -/
inductive RegCall where
  | rd (reg : Nat)
  | wr (reg value : Nat)
  deriving DecidableEq, Repr

def call_accs (isa : Bool) : RegCall → List BusOp
  | RegCall.rd reg => read_accs isa reg
  | RegCall.wr reg value => write_accs reg value

def sens_loop_regs (wchipid tmp : Nat) : Nat → Nat → List Nat
  | 0, _ => []
  | fuel + 1, i =>
    if i ≤ 3 then
      (if tmp &&& BIT_SCFG1.getD (i - 1) 0 = 0 then [] else [W83781D_REG_TEMP]) ++
        (if wchipid = W83783S_WCHIPID ∧ i = 2 then [] else sens_loop_regs wchipid tmp fuel (i + 1))
    else []

def init_probe_calls (wchipid tmp : Nat) : List RegCall :=
  [RegCall.wr W83781D_REG_CONFIG 0x80, RegCall.rd W83781D_REG_VID_FANDIV,
    RegCall.rd W83781D_REG_CHIPID] ++
  (if wchipid ≠ W83781D_WCHIPID then
    RegCall.rd W83781D_REG_SCFG1 :: (sens_loop_regs wchipid tmp 4 1).map RegCall.rd
  else [])

def init_in_calls (wchipid : Nat) (vid : Int) : List RegCall :=
  [RegCall.wr (W83781D_REG_IN_MIN 0) (to_u16 (IN_TO_REG (W83781D_INIT_IN_MIN_0 vid) 0)),
    RegCall.wr (W83781D_REG_IN_MAX 0) (to_u16 (IN_TO_REG (W83781D_INIT_IN_MAX_0 vid) 0))] ++
  (if wchipid ≠ W83783S_WCHIPID then
    [RegCall.wr (W83781D_REG_IN_MIN 1) (to_u16 (IN_TO_REG (W83781D_INIT_IN_MIN_1 vid) 1)),
      RegCall.wr (W83781D_REG_IN_MAX 1) (to_u16 (IN_TO_REG (W83781D_INIT_IN_MAX_1 vid) 1))]
  else []) ++
  [RegCall.wr (W83781D_REG_IN_MIN 2) (to_u16 (IN_TO_REG W83781D_INIT_IN_MIN_2 2)),
    RegCall.wr (W83781D_REG_IN_MAX 2) (to_u16 (IN_TO_REG W83781D_INIT_IN_MAX_2 2)),
    RegCall.wr (W83781D_REG_IN_MIN 3) (to_u16 (IN_TO_REG W83781D_INIT_IN_MIN_3 3)),
    RegCall.wr (W83781D_REG_IN_MAX 3) (to_u16 (IN_TO_REG W83781D_INIT_IN_MAX_3 3)),
    RegCall.wr (W83781D_REG_IN_MIN 4) (to_u16 (IN_TO_REG W83781D_INIT_IN_MIN_4 4)),
    RegCall.wr (W83781D_REG_IN_MAX 4) (to_u16 (IN_TO_REG W83781D_INIT_IN_MAX_4 4))] ++
  (if wchipid = W83781D_WCHIPID then
    [RegCall.wr (W83781D_REG_IN_MIN 5) (to_u16 (IN_TO_REG W83781D_INIT_IN_MIN_5 5)),
      RegCall.wr (W83781D_REG_IN_MAX 5) (to_u16 (IN_TO_REG W83781D_INIT_IN_MAX_5 5)),
      RegCall.wr (W83781D_REG_IN_MIN 6) (to_u16 (IN_TO_REG W83781D_INIT_IN_MIN_6 6)),
      RegCall.wr (W83781D_REG_IN_MAX 6) (to_u16 (IN_TO_REG W83781D_INIT_IN_MAX_6 6))]
  else
    [RegCall.wr (W83781D_REG_IN_MIN 5) (to_u16 (IN_TO_REG W83782D_INIT_IN_MIN_5 5)),
      RegCall.wr (W83781D_REG_IN_MAX 5) (to_u16 (IN_TO_REG W83782D_INIT_IN_MAX_5 5)),
      RegCall.wr (W83781D_REG_IN_MIN 6) (to_u16 (IN_TO_REG W83782D_INIT_IN_MIN_6 6)),
      RegCall.wr (W83781D_REG_IN_MAX 6) (to_u16 (IN_TO_REG W83782D_INIT_IN_MAX_6 6))]) ++
  (if wchipid = W83782D_WCHIPID then
    [RegCall.wr (W83781D_REG_IN_MIN 7) (to_u16 (IN_TO_REG W83781D_INIT_IN_MIN_7 7)),
      RegCall.wr (W83781D_REG_IN_MAX 7) (to_u16 (IN_TO_REG W83781D_INIT_IN_MAX_7 7)),
      RegCall.wr (W83781D_REG_IN_MIN 8) (to_u16 (IN_TO_REG W83781D_INIT_IN_MIN_8 8)),
      RegCall.wr (W83781D_REG_IN_MAX 8) (to_u16 (IN_TO_REG W83781D_INIT_IN_MAX_8 8))]
  else [])

def init_fan_calls : List RegCall :=
  [RegCall.wr (W83781D_REG_FAN_MIN 1) 225, RegCall.wr (W83781D_REG_FAN_MIN 2) 225,
    RegCall.wr (W83781D_REG_FAN_MIN 3) 225]

def init_temp_limit_calls (wchipid : Nat) : List RegCall :=
  [RegCall.wr W83781D_REG_TEMP_OVER (to_u16 (TEMP_TO_REG W83781D_INIT_TEMP_OVER)),
    RegCall.wr W83781D_REG_TEMP_HYST (to_u16 (TEMP_TO_REG W83781D_INIT_TEMP_HYST)),
    RegCall.wr W83781D_REG_TEMP_CONFIG 0x00,
    RegCall.wr W83781D_REG_TEMP2_OVER (to_u16 (TEMP_ADD_TO_REG W83781D_INIT_TEMP2_OVER)),
    RegCall.wr W83781D_REG_TEMP2_HYST (to_u16 (TEMP_ADD_TO_REG W83781D_INIT_TEMP2_HYST)),
    RegCall.wr W83781D_REG_TEMP2_CONFIG 0x00] ++
  (if wchipid ≠ W83783S_WCHIPID then
    [RegCall.wr W83781D_REG_TEMP3_OVER (to_u16 (TEMP_ADD_TO_REG W83781D_INIT_TEMP3_OVER)),
      RegCall.wr W83781D_REG_TEMP3_HYST (to_u16 (TEMP_ADD_TO_REG W83781D_INIT_TEMP3_HYST)),
      RegCall.wr W83781D_REG_TEMP3_CONFIG 0x00]
  else [])

def init_temp_calls (wchipid cfg : Nat) : List RegCall :=
  init_temp_limit_calls wchipid ++
    [RegCall.rd W83781D_REG_CONFIG, RegCall.wr W83781D_REG_CONFIG ((cfg &&& 0xf7) ||| 0x01)]

def init_calls (wchipid : Nat) (vid : Int) (tmp cfg : Nat) : List RegCall :=
  init_probe_calls wchipid tmp ++ init_in_calls wchipid vid ++ init_fan_calls ++
    init_temp_calls wchipid cfg

/-- Executes a list of register calls in order, discarding what reads return. -/
def run_calls (D : Device σ) (c : i2c_client) : List RegCall → World σ → World σ
  | [], w => w
  | RegCall.rd reg :: ks, w => run_calls D c ks (w83781d_read_value D c reg w).2
  | RegCall.wr reg value :: ks, w => run_calls D c ks (w83781d_write_value D c reg value w)

/-- A call the bank decoder follows: a 16-bit address, and no data write that lands on
the bank-select offset. -/
def RegCall.ok : RegCall → Prop
  | RegCall.rd reg => reg < 65536
  | RegCall.wr reg _ => reg < 65536 ∧ reg % 256 ≠ 0x4E

/-! ## Sysctl callbacks (lines 1254-1522) -/

/-- The `operation` argument of a callback.  The constants come from `sensors.h`,
which is not among the sources; the callbacks compare the argument with these three
and ignore every other value. -/
inductive Operation where
  | SENSORS_PROC_REAL_INFO
  | SENSORS_PROC_REAL_READ
  | SENSORS_PROC_REAL_WRITE
  | other
  deriving DecidableEq, Repr

/-- What a callback works on: `*nrels_mag`, the array `results` of `long`, the record
of the client and the bus. -/
structure Sysctl (σ : Type) where
  nrels_mag : Int
  results : Nat → Int
  data : w83781d_data
  world : World σ

/-- Conversion of an `int` value to a `u8` field. -/
def to_u8 (x : Int) : Nat := (x % 256).toNat

/-- The callback `w83781d_in`; `nr` is `ctl_name - W83781D_SYSCTL_IN0`, the channel. -/
def w83781d_in (D : Device σ) (K : Kernel) (jiffies : Nat) (client : i2c_client)
    (operation : Operation) (nr : Nat) (a : Sysctl σ) : Sysctl σ :=
  match operation with
  | Operation.SENSORS_PROC_REAL_INFO => { a with nrels_mag := 2 }
  | Operation.SENSORS_PROC_REAL_READ =>
    let u := w83781d_update_client D K jiffies client a.data a.world
    { nrels_mag := 3
      results :=
        Function.update (Function.update (Function.update a.results
          0 (IN_FROM_REG (u.1.in_min nr) nr))
          1 (IN_FROM_REG (u.1.in_max nr) nr))
          2 (IN_FROM_REG (u.1.in_ nr) nr)
      data := u.1
      world := u.2 }
  | Operation.SENSORS_PROC_REAL_WRITE =>
    let s1 : w83781d_data × World σ :=
      if a.nrels_mag ≥ 1 then
        let d := { a.data with
          in_min := Function.update a.data.in_min nr (to_u8 (IN_TO_REG (a.results 0) nr)) }
        (d, w83781d_write_value D client (W83781D_REG_IN_MIN nr) (d.in_min nr) a.world)
      else (a.data, a.world)
    let s2 : w83781d_data × World σ :=
      if a.nrels_mag ≥ 2 then
        let d := { s1.1 with
          in_max := Function.update s1.1.in_max nr (to_u8 (IN_TO_REG (a.results 1) nr)) }
        (d, w83781d_write_value D client (W83781D_REG_IN_MAX nr) (d.in_max nr) s1.2)
      else s1
    { a with data := s2.1, world := s2.2 }
  | Operation.other => a

/-- The callback `w83781d_beep`.  The local `val` is not initialised when
`*nrels_mag < 1`; it is not used then. -/
def w83781d_beep (D : Device σ) (K : Kernel) (jiffies : Nat) (client : i2c_client)
    (operation : Operation) (a : Sysctl σ) : Sysctl σ :=
  match operation with
  | Operation.SENSORS_PROC_REAL_INFO => { a with nrels_mag := 0 }
  | Operation.SENSORS_PROC_REAL_READ =>
    let u := w83781d_update_client D K jiffies client a.data a.world
    { nrels_mag := 2
      results :=
        Function.update (Function.update a.results
          0 (BEEP_ENABLE_FROM_REG (u.1.beep_enable)))
          1 (BEEPS_FROM_REG (u.1.beeps))
      data := u.1
      world := u.2 }
  | Operation.SENSORS_PROC_REAL_WRITE =>
    let s1 : Nat × w83781d_data × World σ :=
      if a.nrels_mag ≥ 2 then
        let d := { a.data with beeps := to_u16 (BEEPS_TO_REG (a.results 1)) }
        (d.beeps >>> 8, d,
          w83781d_write_value D client W83781D_REG_BEEP_INTS1 (d.beeps &&& 0xff) a.world)
      else if a.nrels_mag ≥ 1 then
        let r := w83781d_read_value D client W83781D_REG_BEEP_INTS1 a.world
        (r.1 &&& 0x7f, a.data, r.2)
      else (0, a.data, a.world)
    let s2 : w83781d_data × World σ :=
      if a.nrels_mag ≥ 1 then
        let d := { s1.2.1 with beep_enable := to_u8 (BEEP_ENABLE_TO_REG (a.results 0)) }
        (d, w83781d_write_value D client W83781D_REG_BEEP_INTS2
          ((s1.1 ||| (d.beep_enable <<< 7)) % 65536) s1.2.2)
      else (s1.2.1, s1.2.2)
    { a with data := s2.1, world := s2.2 }
  | Operation.other => a

/-! ## Concrete instances -/

/-- A device without state: every read delivers 0. -/
def idle_device : Device Unit where
  outb_p := fun _ _ s => s
  inb_p := fun _ s => (0, s)
  smbus_write_byte_data := fun _ _ _ s => s
  smbus_read_byte_data := fun _ _ s => (0, s)

/-- The record of a client right after allocation (`kmalloc` and the explicit
`data->valid = 0` of the detection routine), for the given chip variant. -/
def blank_data (wchipid : Nat) : w83781d_data where
  valid := 0
  last_updated := 0
  in_ := fun _ => 0
  in_max := fun _ => 0
  in_min := fun _ => 0
  fan := fun _ => 0
  fan_min := fun _ => 0
  temp := 0
  temp_over := 0
  temp_hyst := 0
  temp_add := fun _ => 0
  temp_add_over := fun _ => 0
  temp_add_hyst := fun _ => 0
  fan_div := fun _ => 0
  vid := 0
  alarms := 0
  beeps := 0
  beep_enable := 0
  wchipid := wchipid
  pwm := fun _ => 0
  sens := fun _ => 0

/-! ## Variant gating: what the specification declares -/

/-- The voltage channels a variant declares: 0..6 on the W83781D, 0 and 2..6 on the
W83783S, 0..8 on the W83782D. -/
def in_declared (wchipid nr : Nat) : Prop :=
  (wchipid = W83781D_WCHIPID ∧ nr ≤ 6) ∨
    (wchipid = W83783S_WCHIPID ∧ nr ≤ 6 ∧ nr ≠ 1) ∨
    (wchipid = W83782D_WCHIPID ∧ nr ≤ 8)

instance (wchipid nr : Nat) : Decidable (in_declared wchipid nr) := by
  unfold in_declared; infer_instance

/-- Register `r` respects the voltage gating of the variant: if it is the reading or a
limit register of a channel, the variant declares that channel; and the bank-5 window
`0x550..0x557` belongs to the W83782D alone. -/
def voltage_gated (wchipid r : Nat) : Prop :=
  (∀ nr, nr ≤ 8 → r ∈ in_regs nr → in_declared wchipid nr) ∧
    (wchipid ≠ W83782D_WCHIPID → ¬ (0x550 ≤ r ∧ r ≤ 0x557))

instance (wchipid r : Nat) : Decidable (voltage_gated wchipid r) := by
  unfold voltage_gated; infer_instance

/-- The registers of temperature channel 3 (bank 2). -/
def temp3_regs : List Nat := [0x0250, 0x0252, 0x0253, 0x0255]

/-- The register a call addresses. -/
def RegCall.reg : RegCall → Nat
  | RegCall.rd reg => reg
  | RegCall.wr reg _ => reg

/-- Every register `w83781d_init_client` can address on a variant; the limit values
and the bytes read back do not matter for the addresses. -/
def init_regs (wchipid : Nat) : List Nat :=
  [W83781D_REG_CONFIG, W83781D_REG_VID_FANDIV, W83781D_REG_CHIPID, W83781D_REG_SCFG1,
    W83781D_REG_TEMP] ++
  (init_in_calls wchipid 0).map RegCall.reg ++ init_fan_calls.map RegCall.reg ++
  (init_temp_calls wchipid 0).map RegCall.reg

/-- The registers an access to `r` can reach: `r`, and `r + 1` when `r` is
word-sized. -/
def reach (r : Nat) : List Nat := if word_sized r then [r, r + 1] else [r]

/-! ## Argument conversions -/

/-- Conversion of an `int` value to an `unsigned` parameter (32 bits), as at a call of
`FAN_TO_REG`. -/
def to_unsigned (x : Int) : Nat := (x % 2 ^ 32).toNat

/-! ## The refresh in two parts -/

/-- A device without state whose every read delivers `0xFF`. -/
def ones_device : Device Unit where
  outb_p := fun _ _ s => s
  inb_p := fun _ s => (0xFF, s)
  smbus_write_byte_data := fun _ _ _ s => s
  smbus_read_byte_data := fun _ _ s => (0xFF, s)

/-! ## Sysctl callbacks, continued (lines 1294-1522) -/

/-- The callback `w83781d_fan`; `nr` is `ctl_name - W83781D_SYSCTL_FAN1 + 1`, the fan
number 1..3.  The `long` value and the `int` divisor become the `unsigned` arguments
of `FAN_TO_REG`; `none` if a conversion traps, in either direction. -/
def w83781d_fan (D : Device σ) (K : Kernel) (jiffies : Nat) (client : i2c_client)
    (operation : Operation) (nr : Nat) (a : Sysctl σ) : Option (Sysctl σ) :=
  match operation with
  | Operation.SENSORS_PROC_REAL_INFO => some { a with nrels_mag := 0 }
  | Operation.SENSORS_PROC_REAL_READ =>
    let u := w83781d_update_client D K jiffies client a.data a.world
    (FAN_FROM_REG (u.1.fan_min (nr - 1)) (DIV_FROM_REG (u.1.fan_div (nr - 1)))).bind
      fun x0 =>
    (FAN_FROM_REG (u.1.fan (nr - 1)) (DIV_FROM_REG (u.1.fan_div (nr - 1)))).bind
      fun x1 =>
    some
      { nrels_mag := 2
        results := Function.update (Function.update a.results 0 x0) 1 x1
        data := u.1
        world := u.2 }
  | Operation.SENSORS_PROC_REAL_WRITE =>
    if a.nrels_mag ≥ 1 then
      match FAN_TO_REG (to_unsigned (a.results 0))
          (to_unsigned (DIV_FROM_REG (a.data.fan_div (nr - 1)))) with
      | some v =>
        let d := { a.data with fan_min := Function.update a.data.fan_min (nr - 1) v }
        some { a with
          data := d
          world := w83781d_write_value D client (W83781D_REG_FAN_MIN nr)
            (d.fan_min (nr - 1)) a.world }
      | none => none
    else some a
  | Operation.other => some a

/-- The callback `w83781d_temp`. -/
def w83781d_temp (D : Device σ) (K : Kernel) (jiffies : Nat) (client : i2c_client)
    (operation : Operation) (a : Sysctl σ) : Sysctl σ :=
  match operation with
  | Operation.SENSORS_PROC_REAL_INFO => { a with nrels_mag := 1 }
  | Operation.SENSORS_PROC_REAL_READ =>
    let u := w83781d_update_client D K jiffies client a.data a.world
    { nrels_mag := 3
      results :=
        Function.update (Function.update (Function.update a.results
          0 (TEMP_FROM_REG (u.1.temp_over)))
          1 (TEMP_FROM_REG (u.1.temp_hyst)))
          2 (TEMP_FROM_REG (u.1.temp))
      data := u.1
      world := u.2 }
  | Operation.SENSORS_PROC_REAL_WRITE =>
    let s1 : w83781d_data × World σ :=
      if a.nrels_mag ≥ 1 then
        let d := { a.data with temp_over := to_u8 (TEMP_TO_REG (a.results 0)) }
        (d, w83781d_write_value D client W83781D_REG_TEMP_OVER d.temp_over a.world)
      else (a.data, a.world)
    let s2 : w83781d_data × World σ :=
      if a.nrels_mag ≥ 2 then
        let d := { s1.1 with temp_hyst := to_u8 (TEMP_TO_REG (a.results 1)) }
        (d, w83781d_write_value D client W83781D_REG_TEMP_HYST d.temp_hyst s1.2)
      else s1
    { a with data := s2.1, world := s2.2 }
  | Operation.other => a

/-- The callback `w83781d_fan_div`.  The local `old` is an `int` holding a byte. -/
def w83781d_fan_div (D : Device σ) (K : Kernel) (jiffies : Nat) (client : i2c_client)
    (operation : Operation) (a : Sysctl σ) : Sysctl σ :=
  match operation with
  | Operation.SENSORS_PROC_REAL_INFO => { a with nrels_mag := 0 }
  | Operation.SENSORS_PROC_REAL_READ =>
    let u := w83781d_update_client D K jiffies client a.data a.world
    { nrels_mag := 3
      results :=
        Function.update (Function.update (Function.update a.results
          0 (DIV_FROM_REG (u.1.fan_div 0)))
          1 (DIV_FROM_REG (u.1.fan_div 1)))
          2 (DIV_FROM_REG (u.1.fan_div 2))
      data := u.1
      world := u.2 }
  | Operation.SENSORS_PROC_REAL_WRITE =>
    let r := w83781d_read_value D client W83781D_REG_VID_FANDIV a.world
    let s1 : Nat × w83781d_data :=
      if a.nrels_mag ≥ 2 then
        let d := { a.data with
          fan_div := Function.update a.data.fan_div 1 (to_u8 (DIV_TO_REG (a.results 1))) }
        ((r.1 &&& 0x3f) ||| (d.fan_div 1 <<< 6), d)
      else (r.1, a.data)
    let s2 : w83781d_data × World σ :=
      if a.nrels_mag ≥ 1 then
        let d := { s1.2 with
          fan_div := Function.update s1.2.fan_div 0 (to_u8 (DIV_TO_REG (a.results 0))) }
        let old := (s1.1 &&& 0xcf) ||| (d.fan_div 0 <<< 4)
        (d, w83781d_write_value D client W83781D_REG_VID_FANDIV (old % 65536) r.2)
      else (s1.2, r.2)
    let s3 : w83781d_data × World σ :=
      if a.nrels_mag ≥ 3 then
        let d := { s2.1 with
          fan_div := Function.update s2.1.fan_div 2 (to_u8 (DIV_TO_REG (a.results 2))) }
        let rp := w83781d_read_value D client W83781D_REG_PIN s2.2
        (d, w83781d_write_value D client W83781D_REG_PIN rp.1 rp.2)
      else s2
    { a with data := s3.1, world := s3.2 }
  | Operation.other => a

/-- The complement `~x` of an `int` holding a small non-negative value, as a 32-bit
mask. -/
def int_not (x : Nat) : Nat := 0xffffffff ^^^ x

/-- The `switch` on `results[0]` in the `SENSORS_PROC_REAL_WRITE` arm of
`w83781d_sens`.  The local `tmp` is a `u8`. -/
def sens_switch (D : Device σ) (client : i2c_client) (nr : Nat) (value : Int)
    (s : w83781d_data × World σ) : w83781d_data × World σ :=
  let bit := BIT_SCFG2.getD (nr - 1) 0
  if value = 1 then
    let r1 := w83781d_read_value D client W83781D_REG_SCFG1 s.2
    let w1 := w83781d_write_value D client W83781D_REG_SCFG1 ((r1.1 % 256) ||| bit) r1.2
    let r2 := w83781d_read_value D client W83781D_REG_SCFG2 w1
    let w2 := w83781d_write_value D client W83781D_REG_SCFG2 ((r2.1 % 256) ||| bit) r2.2
    ({ s.1 with sens := Function.update s.1.sens (nr - 1) (to_u16 value) }, w2)
  else if value = 2 then
    let r1 := w83781d_read_value D client W83781D_REG_SCFG1 s.2
    let w1 := w83781d_write_value D client W83781D_REG_SCFG1 ((r1.1 % 256) ||| bit) r1.2
    let r2 := w83781d_read_value D client W83781D_REG_SCFG2 w1
    let w2 := w83781d_write_value D client W83781D_REG_SCFG2
      ((r2.1 % 256) &&& int_not bit) r2.2
    ({ s.1 with sens := Function.update s.1.sens (nr - 1) (to_u16 value) }, w2)
  else if value = W83781D_DEFAULT_BETA then
    let r1 := w83781d_read_value D client W83781D_REG_SCFG1 s.2
    let w1 := w83781d_write_value D client W83781D_REG_SCFG1
      ((r1.1 % 256) &&& int_not bit) r1.2
    ({ s.1 with sens := Function.update s.1.sens (nr - 1) (to_u16 value) }, w1)
  else s

/-- The callback `w83781d_sens`; `nr` is `1 + ctl_name - W83781D_SYSCTL_SENS1`, the
sensor number 1..3.  The `printk` of the default arm has no effect on the state. -/
def w83781d_sens (D : Device σ) (client : i2c_client) (operation : Operation) (nr : Nat)
    (a : Sysctl σ) : Sysctl σ :=
  match operation with
  | Operation.SENSORS_PROC_REAL_INFO => { a with nrels_mag := 0 }
  | Operation.SENSORS_PROC_REAL_READ =>
    { a with
      nrels_mag := 1
      results := Function.update a.results 0 (a.data.sens (nr - 1)) }
  | Operation.SENSORS_PROC_REAL_WRITE =>
    if a.nrels_mag ≥ 1 then
      let s := sens_switch D client nr (a.results 0) (a.data, a.world)
      { a with data := s.1, world := s.2 }
    else a
  | Operation.other => a

/-! ## Further concrete instances -/

/-- A fresh W83781D snapshot (refreshed at tick 1000) with distinct temperature limits:
over 60, hysteresis 50, current 42 degrees. -/
def sample_data : w83781d_data :=
  { blank_data W83781D_WCHIPID with
    valid := 1, last_updated := 1000, temp := 42, temp_over := 60, temp_hyst := 50 }

/-- The snapshot fields with a register of their own, as banked byte addresses: the
voltage, fan, primary-temperature and PWM registers. -/
def byte_regs : List Nat :=
  (List.range 9).flatMap (fun nr =>
    [W83781D_REG_IN nr, W83781D_REG_IN_MIN nr, W83781D_REG_IN_MAX nr]) ++
  [1, 2, 3].flatMap (fun i => [W83781D_REG_FAN i, W83781D_REG_FAN_MIN i]) ++
  [W83781D_REG_TEMP, W83781D_REG_TEMP_OVER, W83781D_REG_TEMP_HYST] ++
  [1, 2, 3, 4].map W83781D_REG_PWM

/-- The two bytes of each word-sized register of the additional temperature channels. -/
def word_regs : List Nat :=
  [W83781D_REG_TEMP2, W83781D_REG_TEMP2_HYST, W83781D_REG_TEMP2_OVER,
    W83781D_REG_TEMP3, W83781D_REG_TEMP3_HYST, W83781D_REG_TEMP3_OVER].flatMap
    (fun r => [r, r + 1])

/-! ## What the initialisation decodes and writes -/

/-- The 5-bit VID code `w83781d_init_client` assembles (lines 1054-1055) from the bytes
it reads at `0x47` and `0x49` after the reset write. -/
def vid_code (D : Device σ) (client : i2c_client) (w : World σ) : Nat :=
  let w1 := w83781d_write_value D client W83781D_REG_CONFIG 0x80 w
  let r1 := w83781d_read_value D client W83781D_REG_VID_FANDIV w1
  let r2 := w83781d_read_value D client W83781D_REG_CHIPID r1.2
  (r1.1 &&& 0x0f) ||| ((r2.1 &&& 0x01) <<< 4)

/-- The voltage limits `w83781d_init_client` passes to `w83781d_write_value` (lines
1099-1152), in order: the channel, the value for `IN_MIN` and the value for `IN_MAX`, as
the `int` results of `IN_TO_REG`. -/
def init_in_limits (wchipid : Nat) (vid : Int) : List (Nat × Int × Int) :=
  [(0, IN_TO_REG (W83781D_INIT_IN_MIN_0 vid) 0, IN_TO_REG (W83781D_INIT_IN_MAX_0 vid) 0)] ++
  (if wchipid ≠ W83783S_WCHIPID then
    [(1, IN_TO_REG (W83781D_INIT_IN_MIN_1 vid) 1, IN_TO_REG (W83781D_INIT_IN_MAX_1 vid) 1)]
  else []) ++
  [(2, IN_TO_REG W83781D_INIT_IN_MIN_2 2, IN_TO_REG W83781D_INIT_IN_MAX_2 2),
    (3, IN_TO_REG W83781D_INIT_IN_MIN_3 3, IN_TO_REG W83781D_INIT_IN_MAX_3 3),
    (4, IN_TO_REG W83781D_INIT_IN_MIN_4 4, IN_TO_REG W83781D_INIT_IN_MAX_4 4)] ++
  (if wchipid = W83781D_WCHIPID then
    [(5, IN_TO_REG W83781D_INIT_IN_MIN_5 5, IN_TO_REG W83781D_INIT_IN_MAX_5 5),
      (6, IN_TO_REG W83781D_INIT_IN_MIN_6 6, IN_TO_REG W83781D_INIT_IN_MAX_6 6)]
  else
    [(5, IN_TO_REG W83782D_INIT_IN_MIN_5 5, IN_TO_REG W83782D_INIT_IN_MAX_5 5),
      (6, IN_TO_REG W83782D_INIT_IN_MIN_6 6, IN_TO_REG W83782D_INIT_IN_MAX_6 6)]) ++
  (if wchipid = W83782D_WCHIPID then
    [(7, IN_TO_REG W83781D_INIT_IN_MIN_7 7, IN_TO_REG W83781D_INIT_IN_MAX_7 7),
      (8, IN_TO_REG W83781D_INIT_IN_MIN_8 8, IN_TO_REG W83781D_INIT_IN_MAX_8 8)]
  else [])

/-- The two write calls for one channel: `IN_MIN` first, then `IN_MAX`; the `int` values
become the `u16` argument. -/
def limit_calls (t : Nat × Int × Int) : List RegCall :=
  [RegCall.wr (W83781D_REG_IN_MIN t.1) (to_u16 t.2.1),
    RegCall.wr (W83781D_REG_IN_MAX t.1) (to_u16 t.2.2)]

/-! ## A register file behind the transports -/

/-- The state of a chip seen as a plain register file: the ISA address latch and one
byte per register offset (a single bank). -/
structure RegFile where
  latch : Nat
  regs : Nat → Nat

/-- A register file whose ISA ports are at `base + 5` and `base + 6`: a write stores the
byte at the offset, a read returns the stored byte; nothing else happens. -/
def regfile_device (base : Nat) : Device RegFile where
  outb_p := fun value port s =>
    if port = base + W83781D_ADDR_REG_OFFSET then { s with latch := value }
    else if port = base + W83781D_DATA_REG_OFFSET then
      { s with regs := Function.update s.regs s.latch value }
    else s
  inb_p := fun port s =>
    if port = base + W83781D_DATA_REG_OFFSET then (s.regs s.latch, s) else (0, s)
  smbus_write_byte_data := fun _ command value s =>
    { s with regs := Function.update s.regs command value }
  smbus_read_byte_data := fun _ command s => (s.regs command, s)

/-- The register file with every register cleared. -/
def regfile_zero : World RegFile := ⟨⟨0, fun _ => 0⟩, []⟩

/-- The sensor-type write of `value` for sensor `nr` on a cleared register file,
followed by `w83781d_init_client`; the result is the decoded `sens[nr-1]`. -/
def sens_write_then_decode (client : i2c_client) (nr : Nat) (value : Int) : Option Nat :=
  let a := w83781d_sens (regfile_device client.isa_addr) client
    Operation.SENSORS_PROC_REAL_WRITE nr
    ⟨1, fun _ => value, blank_data W83782D_WCHIPID, regfile_zero⟩
  (w83781d_init_client (regfile_device client.isa_addr) client a.data a.world).map
    (fun r => r.1.sens (nr - 1))

/-! ## Lemmas about the transport and the bulk routines -/

theorem and_0xff (x : Nat) : x &&& 0xff = x % 256 := Nat.and_pow_two_sub_one_eq_mod x 8

theorem and_0xff00 (x : Nat) : x &&& 0xff00 = x / 256 % 256 * 256 := by
  apply Nat.eq_of_testBit_eq
  intro i
  have h1 : (0xff00 : Nat) = 2 ^ 8 * (2 ^ 8 - 1) := by norm_num
  have h2 : x / 256 % 256 * 256 = 2 ^ 8 * ((x >>> 8) % 2 ^ 8) := by
    rw [Nat.shiftRight_eq_div_pow]; norm_num [Nat.mul_comm]
  rw [Nat.testBit_and, h1, h2, Nat.testBit_mul_pow_two, Nat.testBit_mul_pow_two,
    Nat.testBit_mod_two_pow, Nat.testBit_shiftRight, Nat.testBit_two_pow_sub_one]
  by_cases h8 : 8 ≤ i
  · have : 8 + (i - 8) = i := by omega
    simp [h8, this, Bool.and_comm]
  · simp [h8]

theorem word_sized_iff (reg : Nat) :
    word_sized reg = true ↔
      (reg / 256 % 256 = 1 ∨ reg / 256 % 256 = 2) ∧
        (reg % 256 = 0x50 ∨ reg % 256 = 0x53 ∨ reg % 256 = 0x55) := by
  unfold word_sized
  simp only [and_0xff00, and_0xff, Bool.and_eq_true, Bool.or_eq_true, beq_iff_eq]
  omega

theorem issued_of_append {w1 w2 : World σ} {ops : List BusCycle}
    (h : w2.trace = w1.trace ++ ops) : issued w1 w2 = ops := by
  simp [issued, h]

theorem read_value_cycles (D : Device σ) (c : i2c_client) (reg : Nat) (w : World σ) :
    ∃ cyc, (w83781d_read_value D c reg w).2.trace = w.trace ++ cyc ∧
      ∀ l rest, ∃ l', logical c l (cyc ++ rest) =
        bank_select reg ++ read_data c.is_isa reg ++ bank_restore reg ++ logical c l' rest := by
  unfold w83781d_read_value bank_select bank_restore read_data
  by_cases hisa : c.is_isa = true <;> by_cases hb : reg &&& 0xff00 = 0 <;>
    by_cases hw : word_sized reg = true <;>
    simp [hisa, hb, hw, outb_p, inb_p, smbus_read_byte_data, smbus_write_byte_data, and_0xff,
      logical, W83781D_ADDR_REG_OFFSET, W83781D_DATA_REG_OFFSET, W83781D_REG_BANK] <;>
    (intros; exact ⟨_, rfl⟩)

theorem write_value_cycles (D : Device σ) (c : i2c_client) (reg value : Nat) (w : World σ) :
    ∃ cyc, (w83781d_write_value D c reg value w).trace = w.trace ++ cyc ∧
      ∀ l rest, ∃ l', logical c l (cyc ++ rest) =
        bank_select reg ++ write_data reg value ++ bank_restore reg ++ logical c l' rest := by
  unfold w83781d_write_value bank_select bank_restore write_data
  by_cases hisa : c.is_isa = true <;> by_cases hb : reg &&& 0xff00 = 0 <;>
    by_cases hw : word_sized reg = true <;>
    simp [hisa, hb, hw, outb_p, inb_p, smbus_read_byte_data, smbus_write_byte_data, and_0xff,
      logical, W83781D_ADDR_REG_OFFSET, W83781D_DATA_REG_OFFSET, W83781D_REG_BANK] <;>
    (intros; exact ⟨_, rfl⟩)

theorem banked_read (isa : Bool) (reg : Nat) (h : reg < 65536) (X : List BusOp) :
    banked 0 (bank_select reg ++ read_data isa reg ++ bank_restore reg ++ X) =
      read_accs isa reg ++ banked 0 X := by
  unfold bank_select bank_restore read_data read_accs
  have hs : reg >>> 8 = reg / 256 := by rw [Nat.shiftRight_eq_div_pow]
  by_cases hw : word_sized reg = true
  · have hw' := (word_sized_iff reg).1 hw
    have hb : reg &&& 0xff00 ≠ 0 := by rw [and_0xff00]; omega
    have e1 : reg / 256 % 256 * 256 + reg % 256 = reg := by omega
    have e2 : reg / 256 % 256 * 256 + (reg + 1) % 256 = reg + 1 := by omega
    cases isa <;> simp [hw, hb, hs, banked, W83781D_REG_BANK, e1, e2]
  · have hw2 : word_sized reg = false := by simpa using hw
    by_cases hb : reg &&& 0xff00 = 0
    · have : reg % 256 = reg := by rw [and_0xff00] at hb; omega
      simp [hw2, hb, banked, this]
    · have e1 : reg / 256 % 256 * 256 + reg % 256 = reg := by omega
      simp [hw2, hb, hs, banked, W83781D_REG_BANK, e1]

theorem banked_write (reg value : Nat) (h : reg < 65536) (hne : reg % 256 ≠ 0x4E)
    (X : List BusOp) :
    banked 0 (bank_select reg ++ write_data reg value ++ bank_restore reg ++ X) =
      write_accs reg value ++ banked 0 X := by
  unfold bank_select bank_restore write_data write_accs
  have hs : reg >>> 8 = reg / 256 := by rw [Nat.shiftRight_eq_div_pow]
  by_cases hw : word_sized reg = true
  · have hw' := (word_sized_iff reg).1 hw
    have hb : reg &&& 0xff00 ≠ 0 := by rw [and_0xff00]; omega
    have e1 : reg / 256 % 256 * 256 + reg % 256 = reg := by omega
    have e2 : reg / 256 % 256 * 256 + (reg + 1) % 256 = reg + 1 := by omega
    have n2 : (reg + 1) % 256 ≠ 78 := by omega
    simp [hw, hb, hs, banked, W83781D_REG_BANK, e1, e2, hne, n2]
  · have hw2 : word_sized reg = false := by simpa using hw
    by_cases hb : reg &&& 0xff00 = 0
    · have : reg % 256 = reg := by rw [and_0xff00] at hb; omega
      have hne' : reg ≠ 78 := by omega
      simp [hw2, hb, banked, this, W83781D_REG_BANK, hne']
    · have e1 : reg / 256 % 256 * 256 + reg % 256 = reg := by omega
      simp [hw2, hb, hs, banked, W83781D_REG_BANK, e1, hne]

theorem Issues.refl (c : i2c_client) (w : World σ) : Issues c w w [] :=
  ⟨[], by simp, fun l rest => ⟨l, by simp⟩⟩

theorem Issues.trans {c : i2c_client} {w1 w2 w3 : World σ} {a b : List BusOp}
    (h1 : Issues c w1 w2 a) (h2 : Issues c w2 w3 b) : Issues c w1 w3 (a ++ b) := by
  obtain ⟨c1, t1, d1⟩ := h1
  obtain ⟨c2, t2, d2⟩ := h2
  refine ⟨c1 ++ c2, by rw [t2, t1, List.append_assoc], fun l rest => ?_⟩
  obtain ⟨l1, e1⟩ := d1 l (c2 ++ rest)
  obtain ⟨l2, e2⟩ := d2 l1 rest
  exact ⟨l2, by rw [List.append_assoc, e1, e2, List.append_assoc]⟩

theorem Issues.read_value (D : Device σ) (c : i2c_client) (reg : Nat) (h : reg < 65536)
    (w : World σ) : Issues c w (w83781d_read_value D c reg w).2 (read_accs c.is_isa reg) := by
  obtain ⟨cyc, ht, hd⟩ := read_value_cycles D c reg w
  refine ⟨cyc, ht, fun l rest => ?_⟩
  obtain ⟨l', e⟩ := hd l rest
  exact ⟨l', by rw [e, banked_read _ _ h]⟩

theorem Issues.write_value (D : Device σ) (c : i2c_client) (reg value : Nat) (h : reg < 65536)
    (hne : reg % 256 ≠ 0x4E) (w : World σ) :
    Issues c w (w83781d_write_value D c reg value w) (write_accs reg value) := by
  obtain ⟨cyc, ht, hd⟩ := write_value_cycles D c reg value w
  refine ⟨cyc, ht, fun l rest => ?_⟩
  obtain ⟨l', e⟩ := hd l rest
  exact ⟨l', by rw [e, banked_write _ _ h hne]⟩

theorem Issues.accesses_eq {c : i2c_client} {w w' : World σ} {a : List BusOp}
    (h : Issues c w w' a) : reg_accesses c w w' = a := by
  obtain ⟨cyc, ht, hd⟩ := h
  obtain ⟨l', e⟩ := hd 0 []
  simp [reg_accesses, bus_ops, issued_of_append ht] at e ⊢
  simpa [logical, banked] using e

theorem Issues.step_read {c : i2c_client} {w w1 : World σ} {a : List BusOp} (D : Device σ)
    (reg : Nat) (h : reg < 65536) (h1 : Issues c w w1 a) :
    Issues c w (w83781d_read_value D c reg w1).2 (a ++ read_accs c.is_isa reg) :=
  h1.trans (Issues.read_value D c reg h w1)

theorem in_regs_lt (i : Nat) (h : i ≤ 8) :
    W83781D_REG_IN i < 65536 ∧ W83781D_REG_IN_MIN i < 65536 ∧ W83781D_REG_IN_MAX i < 65536 := by
  unfold W83781D_REG_IN W83781D_REG_IN_MIN W83781D_REG_IN_MAX
  split_ifs <;> omega

theorem update_in_issues (D : Device σ) (c : i2c_client) (fuel : Nat) :
    ∀ (i : Nat) (s : w83781d_data × World σ),
      (update_in D c fuel i s).1.wchipid = s.1.wchipid ∧
      Issues c s.2 (update_in D c fuel i s).2
        (((in_loop_channels s.1.wchipid fuel i).flatMap in_regs).flatMap (read_accs c.is_isa)) := by
  induction fuel with
  | zero => intro i s; exact ⟨rfl, by simpa [update_in, in_loop_channels] using Issues.refl c s.2⟩
  | succ n ih =>
    intro i s
    rw [update_in, in_loop_channels]
    by_cases h8 : i ≤ 8
    · obtain ⟨l1, l2, l3⟩ := in_regs_lt i h8
      by_cases h1 : s.1.wchipid = W83783S_WCHIPID ∧ i = 1
      · rw [if_pos h8, if_pos h1, if_pos h8, if_pos h1]
        exact ih (i + 1) s
      · by_cases h6 : s.1.wchipid ≠ W83782D_WCHIPID ∧ i = 6
        · rw [if_pos h8, if_neg h1, if_pos h6, if_pos h8, if_neg h1, if_pos h6]
          refine ⟨rfl, ?_⟩
          have := Issues.step_read D _ l3 (Issues.step_read D _ l2
            (Issues.step_read D _ l1 (Issues.refl c s.2)))
          simpa [in_regs, List.flatMap] using this
        · rw [if_pos h8, if_neg h1, if_neg h6, if_pos h8, if_neg h1, if_neg h6]
          have step := Issues.step_read D _ l3 (Issues.step_read D _ l2
            (Issues.step_read D _ l1 (Issues.refl c s.2)))
          have := ih (i + 1) ({ s.1 with
              in_ := Function.update s.1.in_ i ((w83781d_read_value D c (W83781D_REG_IN i) s.2).1 % 256)
              in_min := Function.update s.1.in_min i ((w83781d_read_value D c (W83781D_REG_IN_MIN i) (w83781d_read_value D c (W83781D_REG_IN i) s.2).2).1 % 256)
              in_max := Function.update s.1.in_max i ((w83781d_read_value D c (W83781D_REG_IN_MAX i) (w83781d_read_value D c (W83781D_REG_IN_MIN i) (w83781d_read_value D c (W83781D_REG_IN i) s.2).2).2).1 % 256) },
            (w83781d_read_value D c (W83781D_REG_IN_MAX i) (w83781d_read_value D c (W83781D_REG_IN_MIN i) (w83781d_read_value D c (W83781D_REG_IN i) s.2).2).2).2)
          refine ⟨this.1, ?_⟩
          have := step.trans this.2
          simpa [in_regs, List.flatMap] using this
    · rw [if_neg h8, if_neg h8]
      exact ⟨rfl, by simpa using Issues.refl c s.2⟩

theorem Issues.cast {c : i2c_client} {w w' : World σ} {a b : List BusOp}
    (h : Issues c w w' a) (e : a = b) : Issues c w w' b := e ▸ h

theorem update_fan_issues (D : Device σ) (c : i2c_client) (fuel : Nat) :
    ∀ (i : Nat) (s : w83781d_data × World σ),
      (update_fan D c fuel i s).1.wchipid = s.1.wchipid ∧
      Issues c s.2 (update_fan D c fuel i s).2
        ((fan_loop_regs fuel i).flatMap (read_accs c.is_isa)) := by
  induction fuel with
  | zero => intro i s; exact ⟨rfl, by simpa [update_fan, fan_loop_regs] using Issues.refl c s.2⟩
  | succ n ih =>
    intro i s
    rw [update_fan, fan_loop_regs]
    by_cases h3 : i ≤ 3
    · rw [if_pos h3, if_pos h3]
      have l1 : W83781D_REG_FAN i < 65536 := by unfold W83781D_REG_FAN; omega
      have l2 : W83781D_REG_FAN_MIN i < 65536 := by unfold W83781D_REG_FAN_MIN; omega
      have step := Issues.step_read D _ l2 (Issues.step_read D _ l1 (Issues.refl c s.2))
      have key := fun s' => ih (i + 1) s'
      exact ⟨(key _).1.trans rfl, (step.trans (key _).2).cast (by simp [List.flatMap])⟩
    · rw [if_neg h3, if_neg h3]
      exact ⟨rfl, by simpa using Issues.refl c s.2⟩

theorem reg_pwm_lt (i : Nat) : W83781D_REG_PWM i < 65536 := by
  unfold W83781D_REG_PWM regpwm W83781D_REG_PWM1 W83781D_REG_PWM2 W83781D_REG_PWM3
    W83781D_REG_PWM4
  generalize i - 1 = k
  rcases k with _ | _ | _ | _ | _ | k <;> simp

theorem update_pwm_issues (D : Device σ) (c : i2c_client) (fuel : Nat) :
    ∀ (i : Nat) (s : w83781d_data × World σ),
      (update_pwm D c fuel i s).1.wchipid = s.1.wchipid ∧
      Issues c s.2 (update_pwm D c fuel i s).2
        ((pwm_loop_regs s.1.wchipid c.is_isa fuel i).flatMap (read_accs c.is_isa)) := by
  induction fuel with
  | zero => intro i s; exact ⟨rfl, by simpa [update_pwm, pwm_loop_regs] using Issues.refl c s.2⟩
  | succ n ih =>
    intro i s
    rw [update_pwm, pwm_loop_regs]
    have step := Issues.step_read D _ (reg_pwm_lt i) (Issues.refl c s.2)
    by_cases h4 : i ≤ 4
    · by_cases hb : (s.1.wchipid = W83783S_WCHIPID ∨
          (s.1.wchipid = W83782D_WCHIPID ∧ c.is_isa = true)) ∧ i = 2
      · rw [if_pos h4, if_pos hb, if_pos h4, if_pos hb]
        exact ⟨rfl, step.cast (by simp [List.flatMap])⟩
      · rw [if_pos h4, if_neg hb, if_pos h4, if_neg hb]
        have key := fun s' => ih (i + 1) s'
        exact ⟨(key _).1.trans rfl, (step.trans (key _).2).cast (by simp [List.flatMap])⟩
    · rw [if_neg h4, if_neg h4]
      exact ⟨rfl, by simpa using Issues.refl c s.2⟩

theorem update_temp_issues (D : Device σ) (c : i2c_client) (s : w83781d_data × World σ) :
    (update_temp D c s).1.wchipid = s.1.wchipid ∧
    Issues c s.2 (update_temp D c s).2 (temp_regs.flatMap (read_accs c.is_isa)) := by
  refine ⟨rfl, ?_⟩
  have := Issues.step_read D W83781D_REG_TEMP3_HYST (by decide)
    (Issues.step_read D W83781D_REG_TEMP3_OVER (by decide)
    (Issues.step_read D W83781D_REG_TEMP3 (by decide)
    (Issues.step_read D W83781D_REG_TEMP2_HYST (by decide)
    (Issues.step_read D W83781D_REG_TEMP2_OVER (by decide)
    (Issues.step_read D W83781D_REG_TEMP2 (by decide)
    (Issues.step_read D W83781D_REG_TEMP_HYST (by decide)
    (Issues.step_read D W83781D_REG_TEMP_OVER (by decide)
    (Issues.step_read D W83781D_REG_TEMP (by decide) (Issues.refl c s.2)))))))))
  exact this.cast (by simp [temp_regs, List.flatMap])

theorem update_vid_fandiv_issues (D : Device σ) (c : i2c_client)
    (s : w83781d_data × World σ) :
    (update_vid_fandiv D c s).1.wchipid = s.1.wchipid ∧
    Issues c s.2 (update_vid_fandiv D c s).2
      ((vid_fandiv_regs s.1.wchipid).flatMap (read_accs c.is_isa)) := by
  unfold update_vid_fandiv vid_fandiv_regs
  have step := Issues.step_read D W83781D_REG_CHIPID (by decide)
    (Issues.step_read D W83781D_REG_VID_FANDIV (by decide) (Issues.refl c s.2))
  by_cases h : s.1.wchipid ≠ W83782D_WCHIPID
  · simp only [if_pos h]
    exact ⟨trivial, (Issues.step_read D W83781D_REG_PIN (by decide) step).cast
      (by simp [List.flatMap])⟩
  · simp only [if_neg h]
    exact ⟨trivial, step.cast (by simp [List.flatMap])⟩

theorem update_alarms_issues (D : Device σ) (c : i2c_client)
    (s : w83781d_data × World σ) :
    (update_alarms D c s).1.wchipid = s.1.wchipid ∧
    Issues c s.2 (update_alarms D c s).2
      ((alarm_regs s.1.wchipid).flatMap (read_accs c.is_isa)) := by
  unfold update_alarms alarm_regs
  have step := Issues.step_read D W83781D_REG_ALARM2 (by decide)
    (Issues.step_read D W83781D_REG_ALARM1 (by decide) (Issues.refl c s.2))
  by_cases h : s.1.wchipid = W83782D_WCHIPID
  · simp only [if_pos h]
    exact ⟨trivial, (Issues.step_read D W83781D_REG_ALARM3 (by decide) step).cast
      (by simp [List.flatMap])⟩
  · simp only [if_neg h]
    exact ⟨trivial, step.cast (by simp [List.flatMap])⟩

theorem update_beep_issues (D : Device σ) (c : i2c_client) (j : Nat)
    (s : w83781d_data × World σ) :
    (update_beep D c j s).1.wchipid = s.1.wchipid ∧
    (update_beep D c j s).1.valid = 1 ∧ (update_beep D c j s).1.last_updated = j ∧
    Issues c s.2 (update_beep D c j s).2 (beep_regs.flatMap (read_accs c.is_isa)) := by
  refine ⟨rfl, rfl, rfl, ?_⟩
  have := Issues.step_read D W83781D_REG_BEEP_INTS1 (by decide)
    (Issues.step_read D W83781D_REG_BEEP_INTS2 (by decide) (Issues.refl c s.2))
  exact this.cast (by simp [beep_regs, List.flatMap])

theorem update_client_issues (D : Device σ) (K : Kernel) (j : Nat) (c : i2c_client)
    (d : w83781d_data) (w : World σ) (hs : stale K j d) :
    (w83781d_update_client D K j c d w).1.wchipid = d.wchipid ∧
    (w83781d_update_client D K j c d w).1.valid = 1 ∧
    (w83781d_update_client D K j c d w).1.last_updated = j ∧
    Issues c w (w83781d_update_client D K j c d w).2
      ((refresh_regs d.wchipid c.is_isa).flatMap (read_accs c.is_isa)) := by
  unfold w83781d_update_client
  rw [if_pos hs]
  dsimp only
  have h1 := update_in_issues D c 10 0 (d, w)
  dsimp only at h1
  have h2 := update_fan_issues D c 4 1 (update_in D c 10 0 (d, w))
  generalize update_in D c 10 0 (d, w) = s1 at *
  generalize update_fan D c 4 1 s1 = s2 at *
  have e2 : s2.1.wchipid = d.wchipid := h2.1.trans h1.1
  have h3 : (if s2.1.wchipid ≠ W83781D_WCHIPID then update_pwm D c 5 1 s2 else s2).1.wchipid
        = d.wchipid ∧
      Issues c s2.2 (if s2.1.wchipid ≠ W83781D_WCHIPID then update_pwm D c 5 1 s2 else s2).2
        ((if d.wchipid ≠ W83781D_WCHIPID then pwm_loop_regs d.wchipid c.is_isa 5 1
          else []).flatMap (read_accs c.is_isa)) := by
    by_cases h : s2.1.wchipid ≠ W83781D_WCHIPID
    · rw [if_pos h, if_pos (e2 ▸ h)]
      have := update_pwm_issues D c 5 1 s2
      exact ⟨this.1.trans e2, e2 ▸ this.2⟩
    · rw [if_neg h, if_neg (e2 ▸ h)]
      exact ⟨e2, by simpa using Issues.refl c s2.2⟩
  generalize (if s2.1.wchipid ≠ W83781D_WCHIPID then update_pwm D c 5 1 s2 else s2) = s3 at *
  have h4 := update_temp_issues D c s3
  generalize update_temp D c s3 = s4 at *
  have h5 := update_vid_fandiv_issues D c s4
  generalize update_vid_fandiv D c s4 = s5 at *
  have h6 := update_alarms_issues D c s5
  generalize update_alarms D c s5 = s6 at *
  have h7 := update_beep_issues D c j s6
  have e4 : s4.1.wchipid = d.wchipid := h4.1.trans h3.1
  have e5 : s5.1.wchipid = d.wchipid := h5.1.trans e4
  have e6 : s6.1.wchipid = d.wchipid := h6.1.trans e5
  refine ⟨h7.1.trans e6, h7.2.1, h7.2.2.1, ?_⟩
  have := (((((h1.2.trans h2.2).trans h3.2).trans h4.2).trans h5.2).trans h6.2).trans h7.2.2.2
  rw [e4, e5] at this
  exact this.cast (by simp [refresh_regs, List.flatMap_append])

theorem Issues.step_write {c : i2c_client} {w w1 : World σ} {a : List BusOp} (D : Device σ)
    (reg value : Nat) (h : reg < 65536) (hne : reg % 256 ≠ 0x4E) (h1 : Issues c w w1 a) :
    Issues c w (w83781d_write_value D c reg value w1) (a ++ write_accs reg value) :=
  h1.trans (Issues.write_value D c reg value h hne w1)

theorem init_sens_issues (D : Device σ) (c : i2c_client) (tmp fuel : Nat) :
    ∀ (i : Nat) (s : w83781d_data × World σ),
      (init_sens D c tmp fuel i s).1.wchipid = s.1.wchipid ∧
      Issues c s.2 (init_sens D c tmp fuel i s).2
        ((sens_loop_regs s.1.wchipid tmp fuel i).flatMap (read_accs c.is_isa)) := by
  induction fuel with
  | zero => intro i s; exact ⟨rfl, by simpa [init_sens, sens_loop_regs] using Issues.refl c s.2⟩
  | succ n ih =>
    intro i s
    rw [init_sens, sens_loop_regs]
    by_cases h3 : i ≤ 3
    · rw [if_pos h3, if_pos h3]
      have key := fun s' => ih (i + 1) s'
      have step := Issues.step_read D W83781D_REG_TEMP (by decide) (Issues.refl c s.2)
      by_cases ht : tmp &&& BIT_SCFG1.getD (i - 1) 0 = 0
      · by_cases hb : s.1.wchipid = W83783S_WCHIPID ∧ i = 2
        · simp only [if_pos ht, if_pos hb]
          exact ⟨trivial, by simpa using Issues.refl c s.2⟩
        · simp only [if_pos ht, if_neg hb]
          exact ⟨(key _).1.trans rfl, (key (_, s.2)).2.cast (by simp)⟩
      · by_cases hr : (w83781d_read_value D c W83781D_REG_TEMP s.2).1 &&&
            BIT_SCFG2.getD (i - 1) 0 ≠ 0 <;>
        by_cases hb : s.1.wchipid = W83783S_WCHIPID ∧ i = 2
        · simp only [if_neg ht, if_pos hr, if_pos hb]
          exact ⟨trivial, step.cast (by simp [List.flatMap])⟩
        · simp only [if_neg ht, if_pos hr, if_neg hb]
          exact ⟨(key _).1.trans rfl, (step.trans (key _).2).cast (by simp [List.flatMap])⟩
        · simp only [if_neg ht, if_neg hr, if_pos hb]
          exact ⟨trivial, step.cast (by simp [List.flatMap])⟩
        · simp only [if_neg ht, if_neg hr, if_neg hb]
          exact ⟨(key _).1.trans rfl, (step.trans (key _).2).cast (by simp [List.flatMap])⟩
    · rw [if_neg h3, if_neg h3]
      exact ⟨rfl, by simpa using Issues.refl c s.2⟩

theorem run_calls_issues (D : Device σ) (c : i2c_client) (ks : List RegCall) :
    ∀ (w : World σ), (∀ k ∈ ks, k.ok) →
      Issues c w (run_calls D c ks w) (ks.flatMap (call_accs c.is_isa)) := by
  induction ks with
  | nil => intro w _; simpa [run_calls] using Issues.refl c w
  | cons k ks ih =>
    intro w hk
    have hks : ∀ k' ∈ ks, k'.ok := fun k' h => hk k' (List.mem_cons_of_mem _ h)
    have h0 : k.ok := hk k (List.mem_cons_self _ _)
    cases k with
    | rd reg =>
      exact ((Issues.read_value D c reg h0 w).trans (ih _ hks)).cast
        (by simp [call_accs, List.flatMap])
    | wr reg value =>
      exact ((Issues.write_value D c reg value h0.1 h0.2 w).trans (ih _ hks)).cast
        (by simp [call_accs, List.flatMap])

theorem run_calls_append (D : Device σ) (c : i2c_client) (ks1 ks2 : List RegCall) :
    ∀ (w : World σ), run_calls D c (ks1 ++ ks2) w = run_calls D c ks2 (run_calls D c ks1 w) := by
  induction ks1 with
  | nil => intro w; rfl
  | cons k ks ih => intro w; cases k <;> simp [run_calls, ih]

theorem init_in_eq (D : Device σ) (c : i2c_client) (wchipid : Nat) (vid : Int)
    (w : World σ) :
    init_in D c wchipid vid w = run_calls D c (init_in_calls wchipid vid) w := by
  unfold init_in init_in_calls
  dsimp only
  split_ifs <;> rfl

theorem init_in_calls_ok (wchipid : Nat) (vid : Int) : ∀ k ∈ init_in_calls wchipid vid, k.ok := by
  unfold init_in_calls
  split_ifs <;> simp [RegCall.ok, W83781D_REG_IN_MIN, W83781D_REG_IN_MAX]

theorem init_in_issues (D : Device σ) (c : i2c_client) (wchipid : Nat) (vid : Int)
    (w : World σ) :
    Issues c w (init_in D c wchipid vid w)
      ((init_in_calls wchipid vid).flatMap (call_accs c.is_isa)) := by
  rw [init_in_eq]
  exact run_calls_issues D c _ w (init_in_calls_ok wchipid vid)

theorem fan_to_reg_init : FAN_TO_REG 3000 2 = some 225 := by decide

theorem init_fan_issues (D : Device σ) (c : i2c_client) (w : World σ) :
    ∃ w', init_fan D c w = some w' ∧
      Issues c w w' (init_fan_calls.flatMap (call_accs c.is_isa)) := by
  refine ⟨run_calls D c init_fan_calls w, ?_, ?_⟩
  · simp [init_fan, W83781D_INIT_FAN_MIN_1, W83781D_INIT_FAN_MIN_2, W83781D_INIT_FAN_MIN_3,
      fan_to_reg_init, init_fan_calls, run_calls]
  · exact run_calls_issues D c _ w
      (by simp [init_fan_calls, RegCall.ok, W83781D_REG_FAN_MIN])

theorem init_temp_eq (D : Device σ) (c : i2c_client) (wchipid : Nat) (w : World σ) :
    init_temp D c wchipid w =
      w83781d_write_value D c W83781D_REG_CONFIG
        (((w83781d_read_value D c W83781D_REG_CONFIG
          (run_calls D c (init_temp_limit_calls wchipid) w)).1 &&& 0xf7) ||| 0x01)
        (w83781d_read_value D c W83781D_REG_CONFIG
          (run_calls D c (init_temp_limit_calls wchipid) w)).2 := by
  unfold init_temp init_temp_limit_calls
  dsimp only
  split_ifs <;> rfl

theorem init_temp_issues (D : Device σ) (c : i2c_client) (wchipid : Nat) (w : World σ) :
    ∃ cfg, Issues c w (init_temp D c wchipid w)
      ((init_temp_calls wchipid cfg).flatMap (call_accs c.is_isa)) := by
  rw [init_temp_eq]
  have h1 := run_calls_issues D c (init_temp_limit_calls wchipid) w (by
    unfold init_temp_limit_calls
    split_ifs <;> simp [RegCall.ok, W83781D_REG_TEMP_OVER, W83781D_REG_TEMP_HYST,
      W83781D_REG_TEMP_CONFIG, W83781D_REG_TEMP2_OVER, W83781D_REG_TEMP2_HYST,
      W83781D_REG_TEMP2_CONFIG, W83781D_REG_TEMP3_OVER, W83781D_REG_TEMP3_HYST,
      W83781D_REG_TEMP3_CONFIG])
  have h2 := Issues.step_read D W83781D_REG_CONFIG (by decide) h1
  have h3 := Issues.step_write D W83781D_REG_CONFIG
    (((w83781d_read_value D c W83781D_REG_CONFIG
      (run_calls D c (init_temp_limit_calls wchipid) w)).1 &&& 0xf7) ||| 0x01)
    (by decide) (by decide) h2
  exact ⟨(w83781d_read_value D c W83781D_REG_CONFIG
      (run_calls D c (init_temp_limit_calls wchipid) w)).1,
    h3.cast (by simp [init_temp_calls, call_accs, List.flatMap_append])⟩

theorem flatMap_rd (isa : Bool) (l : List Nat) :
    (l.map RegCall.rd).flatMap (call_accs isa) = l.flatMap (read_accs isa) := by
  induction l with
  | nil => rfl
  | cons x xs ih => simp [List.flatMap_cons, call_accs, ih]

theorem init_probe_issues (D : Device σ) (c : i2c_client) (d : w83781d_data) (w : World σ) :
    ∃ code tmp, (init_probe D c d w).1 = VID_FROM_REG code ∧
      (init_probe D c d w).2.1.wchipid = d.wchipid ∧
      Issues c w (init_probe D c d w).2.2
        ((init_probe_calls d.wchipid tmp).flatMap (call_accs c.is_isa)) := by
  have h1 := Issues.step_write D W83781D_REG_CONFIG 0x80 (by decide) (by decide)
    (Issues.refl c w)
  have h2 := Issues.step_read D W83781D_REG_VID_FANDIV (by decide) h1
  have h3 := Issues.step_read D W83781D_REG_CHIPID (by decide) h2
  have h4 := Issues.step_read D W83781D_REG_SCFG1 (by decide) h3
  unfold init_probe init_probe_calls
  dsimp only
  generalize w83781d_write_value D c W83781D_REG_CONFIG 0x80 w = w1 at *
  generalize w83781d_read_value D c W83781D_REG_VID_FANDIV w1 = r1 at *
  generalize w83781d_read_value D c W83781D_REG_CHIPID r1.2 = r2 at *
  generalize w83781d_read_value D c W83781D_REG_SCFG1 r2.2 = r3 at *
  by_cases hc : d.wchipid ≠ W83781D_WCHIPID
  · simp only [if_pos hc]
    refine ⟨_, r3.1 % 256, rfl, ?_, ?_⟩
    · exact (init_sens_issues D c _ 4 1 _).1
    · exact (h4.trans (init_sens_issues D c _ 4 1 _).2).cast
        (by simp [call_accs, List.flatMap_append, List.flatMap_cons, flatMap_rd])
  · simp only [if_neg hc]
    exact ⟨_, 0, rfl, trivial, h3.cast (by simp [call_accs, List.flatMap_cons])⟩

theorem init_client_issues (D : Device σ) (c : i2c_client) (d : w83781d_data) (w : World σ) :
    ∃ code tmp cfg r, w83781d_init_client D c d w = some r ∧ r.1.wchipid = d.wchipid ∧
      Issues c w r.2
        ((init_calls d.wchipid (VID_FROM_REG code) tmp cfg).flatMap (call_accs c.is_isa)) := by
  obtain ⟨code, tmp, hv, hw, hp⟩ := init_probe_issues D c d w
  generalize hp0 : init_probe D c d w = p at hv hw hp
  obtain ⟨v, d1, w1⟩ := p
  dsimp only at hv hw hp
  subst hv
  have hin := init_in_issues D c d.wchipid (VID_FROM_REG code) w1
  obtain ⟨w2, hf, hfan⟩ := init_fan_issues D c (init_in D c d.wchipid (VID_FROM_REG code) w1)
  obtain ⟨cfg, ht⟩ := init_temp_issues D c d.wchipid w2
  refine ⟨code, tmp, cfg, (d1, init_temp D c d.wchipid w2), ?_, hw, ?_⟩
  · unfold w83781d_init_client
    dsimp only
    rw [hp0]
    dsimp only
    rw [hf]
  · exact (((hp.trans hin).trans hfan).trans ht).cast
      (by simp [init_calls, List.flatMap_append])

theorem fan_to_reg_eq (rpm divisor p : Nat) (h0 : rpm ≠ 0) (hpe : rpm * divisor % 2 ^ 32 = p)
    (hp : p ≠ 0) :
    FAN_TO_REG rpm divisor =
      some ((if (1350000 + p / 2) % 2 ^ 32 / p > 255 then 255
        else (1350000 + p / 2) % 2 ^ 32 / p) % 256) := by
  unfold FAN_TO_REG
  rw [if_neg h0]
  dsimp only
  rw [hpe, if_neg hp]

theorem bus_ops_read (D : Device σ) (c : i2c_client) (reg : Nat) (w : World σ) :
    bus_ops c w (w83781d_read_value D c reg w).2 =
      bank_select reg ++ read_data c.is_isa reg ++ bank_restore reg := by
  obtain ⟨cyc, ht, hd⟩ := read_value_cycles D c reg w
  obtain ⟨l', e⟩ := hd 0 []
  simpa [bus_ops, issued_of_append ht, logical] using e

theorem bus_ops_write (D : Device σ) (c : i2c_client) (reg value : Nat) (w : World σ) :
    bus_ops c w (w83781d_write_value D c reg value w) =
      bank_select reg ++ write_data reg value ++ bank_restore reg := by
  obtain ⟨cyc, ht, hd⟩ := write_value_cycles D c reg value w
  obtain ⟨l', e⟩ := hd 0 []
  simpa [bus_ops, issued_of_append ht, logical] using e

theorem high_byte_ne_zero (reg : Nat) (h : reg < 65536) :
    reg &&& 0xff00 ≠ 0 ↔ reg >>> 8 ≠ 0 := by
  rw [and_0xff00, Nat.shiftRight_eq_div_pow]
  omega

theorem word_sized_spec (reg : Nat) (h : reg < 65536) :
    word_sized reg = true ↔
      (reg >>> 8 = 1 ∨ reg >>> 8 = 2) ∧
        (reg &&& 0xff = 0x50 ∨ reg &&& 0xff = 0x53 ∨ reg &&& 0xff = 0x55) := by
  rw [word_sized_iff, and_0xff, Nat.shiftRight_eq_div_pow]
  omega

theorem getLast_bracket (a b : BusOp) (l : List BusOp) :
    (a :: (l ++ [b])).getLast? = some b := by
  rw [← List.cons_append, List.getLast?_concat]

theorem Issues.issued_ne_nil {c : i2c_client} {w w' : World σ} {a : List BusOp}
    (h : Issues c w w' a) (ha : a ≠ []) : issued w w' ≠ [] := by
  obtain ⟨cyc, ht, hd⟩ := h
  rw [issued_of_append ht]
  intro hc
  subst hc
  obtain ⟨l', e⟩ := hd 0 []
  simp [logical, banked] at e
  exact ha e

theorem refresh_accs_ne_nil (wchipid : Nat) (isa : Bool) :
    (refresh_regs wchipid isa).flatMap (read_accs isa) ≠ [] := by
  have h : read_accs isa W83781D_REG_BEEP_INTS1 = [BusOp.read W83781D_REG_BEEP_INTS1] := by
    unfold read_accs
    rw [if_neg (by decide)]
  simp [refresh_regs, List.flatMap_append, beep_regs, List.flatMap_cons, h]

theorem update_client_fresh (D : Device σ) (K : Kernel) (j : Nat) (c : i2c_client)
    (d : w83781d_data) (w : World σ) (h : ¬ stale K j d) :
    w83781d_update_client D K j c d w = (d, w) := by
  unfold w83781d_update_client
  rw [if_neg h]

theorem issued_self (w : World σ) : issued w w = [] := by
  simp [issued]

theorem read_accs_reach (isa : Bool) (r : Nat) :
    ∀ op ∈ read_accs isa r, op.reg ∈ reach r := by
  intro op hop
  unfold read_accs at hop
  unfold reach
  by_cases hw : word_sized r = true
  · rw [if_pos hw] at hop ⊢
    cases isa <;> simp at hop <;> rcases hop with rfl | rfl <;> simp [BusOp.reg]
  · rw [if_neg hw] at hop ⊢
    simp at hop
    subst hop
    simp [BusOp.reg]

theorem write_accs_reach (r v : Nat) : ∀ op ∈ write_accs r v, op.reg ∈ reach r := by
  intro op hop
  unfold write_accs at hop
  unfold reach
  by_cases hw : word_sized r = true
  · rw [if_pos hw] at hop ⊢
    simp at hop
    rcases hop with rfl | rfl <;> simp [BusOp.reg]
  · rw [if_neg hw] at hop ⊢
    simp at hop
    subst hop
    simp [BusOp.reg]

theorem call_accs_reach (isa : Bool) (k : RegCall) :
    ∀ op ∈ call_accs isa k, op.reg ∈ reach k.reg := by
  cases k with
  | rd r => exact read_accs_reach isa r
  | wr r v => exact write_accs_reach r v

theorem sens_loop_regs_eq (wchipid tmp fuel : Nat) :
    ∀ i, ∀ r ∈ sens_loop_regs wchipid tmp fuel i, r = W83781D_REG_TEMP := by
  induction fuel with
  | zero => intro i r hr; simp [sens_loop_regs] at hr
  | succ n ih =>
    intro i r hr
    rw [sens_loop_regs] at hr
    split_ifs at hr <;> simp at hr
    all_goals first
      | exact hr
      | exact ih _ r hr
      | (rcases hr with hr | hr
         · exact hr
         · exact ih _ r hr)

theorem init_probe_calls_reg (wchipid tmp : Nat) :
    ∀ k ∈ init_probe_calls wchipid tmp, k.reg ∈ init_regs wchipid := by
  intro k hk
  unfold init_probe_calls at hk
  have hsub : ∀ r ∈ [W83781D_REG_CONFIG, W83781D_REG_VID_FANDIV, W83781D_REG_CHIPID,
      W83781D_REG_SCFG1, W83781D_REG_TEMP], r ∈ init_regs wchipid := by
    intro r hr
    unfold init_regs
    exact List.mem_append_left _ (List.mem_append_left _ (List.mem_append_left _ hr))
  apply hsub
  split_ifs at hk
  · simp only [List.mem_append, List.mem_cons, List.mem_map, List.mem_singleton,
      List.not_mem_nil, or_false] at hk
    rcases hk with (rfl | rfl | rfl) | rfl | ⟨r, hr, rfl⟩
    · simp [RegCall.reg]
    · simp [RegCall.reg]
    · simp [RegCall.reg]
    · simp [RegCall.reg]
    · simp [RegCall.reg, sens_loop_regs_eq _ _ _ _ r hr]
  · simp only [List.mem_append, List.mem_cons, List.mem_singleton,
      List.not_mem_nil, or_false] at hk
    rcases hk with rfl | rfl | rfl <;> simp [RegCall.reg]

theorem init_in_calls_reg (wchipid : Nat) (vid : Int) :
    (init_in_calls wchipid vid).map RegCall.reg = (init_in_calls wchipid 0).map RegCall.reg := by
  unfold init_in_calls
  split_ifs <;> rfl

theorem init_temp_calls_reg (wchipid cfg : Nat) :
    (init_temp_calls wchipid cfg).map RegCall.reg =
      (init_temp_calls wchipid 0).map RegCall.reg := by
  simp [init_temp_calls, RegCall.reg]

theorem init_calls_reg (wchipid : Nat) (vid : Int) (tmp cfg : Nat) :
    ∀ k ∈ init_calls wchipid vid tmp cfg, k.reg ∈ init_regs wchipid := by
  intro k hk
  unfold init_calls at hk
  simp only [List.mem_append] at hk
  rcases hk with ((hk | hk) | hk) | hk
  · exact init_probe_calls_reg wchipid tmp k hk
  · have := List.mem_map_of_mem RegCall.reg hk
    rw [init_in_calls_reg] at this
    unfold init_regs
    exact List.mem_append_left _ (List.mem_append_left _ (List.mem_append_right _ this))
  · have := List.mem_map_of_mem RegCall.reg hk
    unfold init_regs
    exact List.mem_append_left _ (List.mem_append_right _ this)
  · have := List.mem_map_of_mem RegCall.reg hk
    rw [init_temp_calls_reg] at this
    unfold init_regs
    exact List.mem_append_right _ this

theorem init_client_reaches (D : Device σ) (c : i2c_client) (d : w83781d_data)
    (w : World σ) :
    ∃ r, w83781d_init_client D c d w = some r ∧ r.1.wchipid = d.wchipid ∧
      ∀ op ∈ reg_accesses c w r.2, ∃ r0 ∈ init_regs d.wchipid, op.reg ∈ reach r0 := by
  obtain ⟨code, tmp, cfg, r, hr, hw, hi⟩ := init_client_issues D c d w
  refine ⟨r, hr, hw, ?_⟩
  rw [hi.accesses_eq]
  intro op hop
  obtain ⟨k, hk, hopk⟩ := List.mem_flatMap.mp hop
  exact ⟨k.reg, init_calls_reg _ _ _ _ k hk, call_accs_reach _ k op hopk⟩

theorem update_client_reaches (D : Device σ) (K : Kernel) (now : Nat) (c : i2c_client)
    (d : w83781d_data) (w : World σ) :
    ∀ op ∈ reg_accesses c w (w83781d_update_client D K now c d w).2,
      ∃ r0 ∈ refresh_regs d.wchipid c.is_isa, op.reg ∈ reach r0 := by
  by_cases hs : stale K now d
  · obtain ⟨_, _, _, hi⟩ := update_client_issues D K now c d w hs
    rw [hi.accesses_eq]
    intro op hop
    obtain ⟨r0, hr0, hopr⟩ := List.mem_flatMap.mp hop
    exact ⟨r0, hr0, read_accs_reach _ r0 op hopr⟩
  · rw [update_client_fresh D K now c d w hs]
    intro op hop
    simp [reg_accesses, bus_ops, issued_self, logical, banked] at hop

theorem refresh_regs_gated :
    ∀ wchipid ∈ [W83781D_WCHIPID, W83782D_WCHIPID, W83783S_WCHIPID], ∀ isa : Bool,
      ∀ r0 ∈ refresh_regs wchipid isa, ∀ r ∈ reach r0, voltage_gated wchipid r := by
  decide

theorem init_regs_gated :
    ∀ wchipid ∈ [W83781D_WCHIPID, W83782D_WCHIPID, W83783S_WCHIPID],
      ∀ r0 ∈ init_regs wchipid, ∀ r ∈ reach r0, voltage_gated wchipid r := by
  decide

theorem refresh_reads_temp3 :
    ∀ isa : Bool, BusOp.read 0x0250 ∈
      (refresh_regs W83783S_WCHIPID isa).flatMap (read_accs isa) := by
  decide

theorem init_regs_no_temp3 :
    ∀ r0 ∈ init_regs W83783S_WCHIPID, ∀ r ∈ reach r0, r ∉ temp3_regs := by
  decide

set_option maxRecDepth 100000 in
theorem fan_round_trip_all :
    ∀ r ∈ List.range 256, ∀ d ∈ [1, 2, 4, 8], r ≠ 0 →
      (FAN_FROM_REG (r : Nat) (d : Nat)).bind (fun rpm => FAN_TO_REG (to_unsigned rpm) d) =
        some r := by
  decide

theorem to_int_eq (x : Int) (h0 : 0 ≤ x) (h1 : x < 2 ^ 31) : to_int x = x := by
  unfold to_int
  norm_num at h1 ⊢
  omega

set_option maxRecDepth 100000 in
theorem fan_from_reg_some :
    ∀ val ∈ List.range 256, ∀ code ∈ List.range 4,
      (FAN_FROM_REG (val : Nat) (DIV_FROM_REG code)).isSome = true := by
  decide

set_option maxRecDepth 100000 in
theorem temp_round_trip_all :
    ∀ r ∈ List.range 256, TEMP_TO_REG (TEMP_FROM_REG (r : Nat)) = (r : Nat) := by
  decide

theorem read_value_byte (D : Device σ) (c : i2c_client) (reg : Nat) (w : World σ)
    (h : word_sized reg = false) : (w83781d_read_value D c reg w).1 < 256 := by
  unfold w83781d_read_value
  by_cases hisa : c.is_isa = true
  · simp only [hisa, h, if_true, Bool.false_eq_true, if_false]
    exact Nat.mod_lt _ (by decide)
  · simp only [hisa, h, Bool.false_eq_true, if_false]
    exact Nat.mod_lt _ (by decide)

theorem to_u8_lt (x : Int) : to_u8 x < 256 := by
  unfold to_u8
  have h1 : 0 ≤ x % 256 := Int.emod_nonneg x (by decide)
  have h2 : x % 256 < 256 := Int.emod_lt_of_pos x (by decide)
  omega

theorem in_limit_regs_ok (nr : Nat) (h : nr ≤ 8) :
    (W83781D_REG_IN_MIN nr < 65536 ∧ W83781D_REG_IN_MIN nr % 256 ≠ 0x4E ∧
      word_sized (W83781D_REG_IN_MIN nr) = false) ∧
    (W83781D_REG_IN_MAX nr < 65536 ∧ W83781D_REG_IN_MAX nr % 256 ≠ 0x4E ∧
      word_sized (W83781D_REG_IN_MAX nr) = false) := by
  interval_cases nr <;> decide

theorem write_accs_byte (reg value : Nat) (hw : word_sized reg = false)
    (hv : value < 256) : write_accs reg value = [BusOp.write reg value] := by
  unfold write_accs
  rw [hw, Nat.mod_eq_of_lt hv]
  rfl

theorem reg_accesses_self (c : i2c_client) (w : World σ) : reg_accesses c w w = [] := by
  simp [reg_accesses, bus_ops, issued_self, logical, banked]

theorem fan_write_traps (D : Device σ) (K : Kernel) (now : Nat) (c : i2c_client)
    (nr : Nat) (a : Sysctl σ) (h1 : a.nrels_mag ≥ 1)
    (h2 : FAN_TO_REG (to_unsigned (a.results 0))
      (to_unsigned (DIV_FROM_REG (a.data.fan_div (nr - 1)))) = none) :
    w83781d_fan D K now c Operation.SENSORS_PROC_REAL_WRITE nr a = none := by
  unfold w83781d_fan
  simp only [if_pos h1, h2]

theorem init_probe_vid (D : Device σ) (c : i2c_client) (d : w83781d_data) (w : World σ) :
    (init_probe D c d w).1 = VID_FROM_REG (vid_code D c w) := by
  unfold init_probe vid_code
  dsimp only
  split_ifs <;> rfl

theorem vid_code_lt (D : Device σ) (c : i2c_client) (w : World σ) : vid_code D c w < 32 := by
  unfold vid_code
  dsimp only
  apply Nat.or_lt_two_pow (n := 5)
  · exact lt_of_le_of_lt Nat.and_le_right (by decide)
  · have h : ∀ x : Nat, x &&& 1 ≤ 1 := fun x => Nat.and_le_right
    rw [Nat.shiftLeft_eq]
    have := h (w83781d_read_value D c W83781D_REG_CHIPID
      (w83781d_read_value D c W83781D_REG_VID_FANDIV
        (w83781d_write_value D c W83781D_REG_CONFIG 128 w)).2).1
    omega

theorem init_client_issues_vid (D : Device σ) (c : i2c_client) (d : w83781d_data)
    (w : World σ) :
    ∃ tmp cfg r, w83781d_init_client D c d w = some r ∧ r.1 = (init_probe D c d w).2.1 ∧
      Issues c w r.2
        ((init_calls d.wchipid (VID_FROM_REG (vid_code D c w)) tmp cfg).flatMap
          (call_accs c.is_isa)) := by
  obtain ⟨code, tmp, _, _, hp⟩ := init_probe_issues D c d w
  have hv := init_probe_vid D c d w
  generalize vid_code D c w = vc at hv
  generalize hp0 : init_probe D c d w = p at hv hp
  obtain ⟨v, d1, w1⟩ := p
  dsimp only at hv hp
  subst hv
  have hin := init_in_issues D c d.wchipid (VID_FROM_REG vc) w1
  obtain ⟨w2, hf, hfan⟩ := init_fan_issues D c (init_in D c d.wchipid (VID_FROM_REG vc) w1)
  obtain ⟨cfg, ht⟩ := init_temp_issues D c d.wchipid w2
  refine ⟨tmp, cfg, (d1, init_temp D c d.wchipid w2), ?_, rfl, ?_⟩
  · unfold w83781d_init_client
    dsimp only
    rw [hp0]
    dsimp only
    rw [hf]
  · exact (((hp.trans hin).trans hfan).trans ht).cast
      (by simp [init_calls, List.flatMap_append])

theorem init_in0_bytes :
    ∀ code ∈ List.range 32,
      ((to_u16 (IN_TO_REG (W83781D_INIT_IN_MIN_0 (VID_FROM_REG (code : Nat))) 0) % 256 : Nat)
          : Int) =
        IN_TO_REG ((if VID_FROM_REG (code : Nat) = 350 then 280 else VID_FROM_REG (code : Nat)) -
          (if VID_FROM_REG (code : Nat) = 350 then 280 else VID_FROM_REG (code : Nat)) *
            10 / 100) 0 ∧
      ((to_u16 (IN_TO_REG (W83781D_INIT_IN_MAX_0 (VID_FROM_REG (code : Nat))) 0) % 256 : Nat)
          : Int) =
        IN_TO_REG ((if VID_FROM_REG (code : Nat) = 350 then 280 else VID_FROM_REG (code : Nat)) +
          (if VID_FROM_REG (code : Nat) = 350 then 280 else VID_FROM_REG (code : Nat)) *
            10 / 100) 0 := by
  decide

theorem init_calls_in0 (isa : Bool) (vid : Int) (tmp cfg : Nat) :
    ((init_calls W83781D_WCHIPID vid tmp cfg).flatMap (call_accs isa)).filter
        (fun op => op.reg = 0x2B ∨ op.reg = 0x2C) =
      [BusOp.write 0x2C (to_u16 (IN_TO_REG (W83781D_INIT_IN_MIN_0 vid) 0) % 256),
        BusOp.write 0x2B (to_u16 (IN_TO_REG (W83781D_INIT_IN_MAX_0 vid) 0) % 256)] := by
  cases isa <;>
  simp [init_calls, init_probe_calls, init_in_calls, init_fan_calls, init_temp_calls,
    init_temp_limit_calls, call_accs, read_accs, write_accs, word_sized_iff,
    W83781D_WCHIPID, W83782D_WCHIPID, W83783S_WCHIPID, List.filter, BusOp.reg,
    W83781D_REG_CONFIG, W83781D_REG_VID_FANDIV, W83781D_REG_CHIPID, W83781D_REG_IN_MIN,
    W83781D_REG_IN_MAX, W83781D_REG_FAN_MIN, W83781D_REG_TEMP_OVER, W83781D_REG_TEMP_HYST,
    W83781D_REG_TEMP_CONFIG, W83781D_REG_TEMP2_OVER, W83781D_REG_TEMP2_HYST,
    W83781D_REG_TEMP2_CONFIG, W83781D_REG_TEMP3_OVER, W83781D_REG_TEMP3_HYST,
    W83781D_REG_TEMP3_CONFIG]

theorem init_in_calls_limits (wchipid : Nat) (vid : Int) :
    init_in_calls wchipid vid = (init_in_limits wchipid vid).flatMap limit_calls := by
  unfold init_in_calls init_in_limits
  split_ifs <;> rfl

set_option maxRecDepth 100000 in
theorem init_in_limits_bounds :
    ∀ wchipid ∈ [W83781D_WCHIPID, W83782D_WCHIPID, W83783S_WCHIPID],
      ∀ code ∈ List.range 32, ∀ t ∈ init_in_limits wchipid (VID_FROM_REG (code : Nat)),
        0 ≤ t.2.1 ∧ t.2.1 ≤ t.2.2 ∧ t.2.2 ≤ 255 := by
  decide

/-! ## The register addressing protocol -/

/-- C1 (defect located): reading the word-sized address `0x0150` on the ISA transport
issues bank-select 1, byte reads at `0x50` and `0x51`, bank-select 0; on the SMBus
transport the second byte read is issued at `0x50` again, never at `0x51`. -/
theorem read_value_word_0150 (D : Device σ) (isa_addr addr : Nat) (w : World σ) :
    bus_ops ⟨true, isa_addr, addr⟩ w
        (w83781d_read_value D ⟨true, isa_addr, addr⟩ 0x0150 w).2 =
      [BusOp.write 0x4E 1, BusOp.read 0x50, BusOp.read 0x51, BusOp.write 0x4E 0] ∧
    bus_ops ⟨false, isa_addr, addr⟩ w
        (w83781d_read_value D ⟨false, isa_addr, addr⟩ 0x0150 w).2 =
      [BusOp.write 0x4E 1, BusOp.read 0x50, BusOp.read 0x50, BusOp.write 0x4E 0] := by
  rw [bus_ops_read, bus_ops_read]
  constructor
  · show bank_select 0x0150 ++ read_data true 0x0150 ++ bank_restore 0x0150 = _
    decide
  · show bank_select 0x0150 ++ read_data false 0x0150 ++ bank_restore 0x0150 = _
    decide

/-- C2: for every 16-bit address `reg`, on either transport, for both access routines:
if the high byte of `reg` is non-zero the first operation writes `reg >> 8` to the
bank-select register `0x4E` and the last operation writes 0 to it; if the high byte is
zero the trace is exactly the single data access at the low-byte offset. -/
theorem bank_select_brackets (D : Device σ) (c : i2c_client) (reg value : Nat)
    (w : World σ) (hr : reg < 65536) :
    (reg >>> 8 ≠ 0 →
      (bus_ops c w (w83781d_read_value D c reg w).2).head? =
          some (BusOp.write W83781D_REG_BANK (reg >>> 8)) ∧
        (bus_ops c w (w83781d_read_value D c reg w).2).getLast? =
          some (BusOp.write W83781D_REG_BANK 0) ∧
        (bus_ops c w (w83781d_write_value D c reg value w)).head? =
          some (BusOp.write W83781D_REG_BANK (reg >>> 8)) ∧
        (bus_ops c w (w83781d_write_value D c reg value w)).getLast? =
          some (BusOp.write W83781D_REG_BANK 0)) ∧
    (reg >>> 8 = 0 →
      bus_ops c w (w83781d_read_value D c reg w).2 = [BusOp.read reg] ∧
        bus_ops c w (w83781d_write_value D c reg value w) =
          [BusOp.write reg (value &&& 0xff)]) := by
  rw [bus_ops_read, bus_ops_write]
  have hsh : reg >>> 8 % 256 = reg >>> 8 := by
    rw [Nat.shiftRight_eq_div_pow]
    omega
  constructor
  · intro hne
    have hb : reg &&& 0xff00 ≠ 0 := (high_byte_ne_zero reg hr).mpr hne
    simp [bank_select, bank_restore, hb, hsh, getLast_bracket]
  · intro hz
    have hb : ¬ reg &&& 0xff00 ≠ 0 := fun h => (high_byte_ne_zero reg hr).mp h hz
    have hw : word_sized reg = false := by
      cases hws : word_sized reg
      · rfl
      · have := (word_sized_spec reg hr).mp hws
        omega
    have hlow : reg % 256 = reg := by
      rw [Nat.shiftRight_eq_div_pow] at hz
      omega
    simp [bank_select, bank_restore, read_data, write_data, hb, hw, hlow, and_0xff]

/-- Witness of C2 at the banked address `0x0253` with value `0x1234`. -/
theorem bank_select_brackets_witness :
    ((0x0253 : Nat) >>> 8 ≠ 0 →
      (bus_ops ⟨true, 0x290, 0x2d⟩ ⟨(), []⟩
          (w83781d_read_value idle_device ⟨true, 0x290, 0x2d⟩ 0x0253 ⟨(), []⟩).2).head? =
          some (BusOp.write W83781D_REG_BANK (0x0253 >>> 8)) ∧
        (bus_ops ⟨true, 0x290, 0x2d⟩ ⟨(), []⟩
          (w83781d_read_value idle_device ⟨true, 0x290, 0x2d⟩ 0x0253 ⟨(), []⟩).2).getLast? =
          some (BusOp.write W83781D_REG_BANK 0) ∧
        (bus_ops ⟨true, 0x290, 0x2d⟩ ⟨(), []⟩
          (w83781d_write_value idle_device ⟨true, 0x290, 0x2d⟩ 0x0253 0x1234
            ⟨(), []⟩)).head? =
          some (BusOp.write W83781D_REG_BANK (0x0253 >>> 8)) ∧
        (bus_ops ⟨true, 0x290, 0x2d⟩ ⟨(), []⟩
          (w83781d_write_value idle_device ⟨true, 0x290, 0x2d⟩ 0x0253 0x1234
            ⟨(), []⟩)).getLast? =
          some (BusOp.write W83781D_REG_BANK 0)) ∧
    ((0x0253 : Nat) >>> 8 = 0 →
      bus_ops ⟨true, 0x290, 0x2d⟩ ⟨(), []⟩
          (w83781d_read_value idle_device ⟨true, 0x290, 0x2d⟩ 0x0253 ⟨(), []⟩).2 =
        [BusOp.read 0x0253] ∧
        bus_ops ⟨true, 0x290, 0x2d⟩ ⟨(), []⟩
          (w83781d_write_value idle_device ⟨true, 0x290, 0x2d⟩ 0x0253 0x1234 ⟨(), []⟩) =
          [BusOp.write 0x0253 (0x1234 &&& 0xff)]) :=
  bank_select_brackets idle_device ⟨true, 0x290, 0x2d⟩ 0x0253 0x1234 ⟨(), []⟩ (by decide)

/-- C3: for every 16-bit address and value, on either transport, the write routine
sends the high byte first: at a word-sized address (bank 1 or 2, offset `0x50`, `0x53`
or `0x55`) it writes `value >> 8` at the offset and then `value & 0xff` at the offset
plus one; at every other address it writes `value & 0xff` once.  The sequence does not
depend on the client, so the ISA and the SMBus paths issue the same one. -/
theorem write_value_high_byte_first (D : Device σ) (c : i2c_client) (reg value : Nat)
    (w : World σ) (hr : reg < 65536) (hv : value < 65536) :
    bus_ops c w (w83781d_write_value D c reg value w) =
      (if reg >>> 8 ≠ 0 then [BusOp.write W83781D_REG_BANK (reg >>> 8)] else []) ++
      (if (reg >>> 8 = 1 ∨ reg >>> 8 = 2) ∧
          (reg &&& 0xff = 0x50 ∨ reg &&& 0xff = 0x53 ∨ reg &&& 0xff = 0x55) then
        [BusOp.write (reg &&& 0xff) (value >>> 8),
          BusOp.write ((reg &&& 0xff) + 1) (value &&& 0xff)]
      else [BusOp.write (reg &&& 0xff) (value &&& 0xff)]) ++
      (if reg >>> 8 ≠ 0 then [BusOp.write W83781D_REG_BANK 0] else []) := by
  rw [bus_ops_write]
  have hsh : reg >>> 8 % 256 = reg >>> 8 := by
    rw [Nat.shiftRight_eq_div_pow]
    omega
  have hvs : value >>> 8 % 256 = value >>> 8 := by
    rw [Nat.shiftRight_eq_div_pow]
    omega
  unfold bank_select bank_restore write_data
  by_cases hb : reg >>> 8 ≠ 0
  · rw [if_pos ((high_byte_ne_zero reg hr).mpr hb), if_pos ((high_byte_ne_zero reg hr).mpr hb),
      if_pos hb, if_pos hb]
    by_cases hw : word_sized reg = true
    · have hs := (word_sized_spec reg hr).mp hw
      have ho : (reg + 1) % 256 = (reg &&& 0xff) + 1 := by
        have := hs.2
        rw [and_0xff] at this ⊢
        omega
      rw [if_pos hw, if_pos hs, hsh, hvs, ho, and_0xff, and_0xff]
    · have hs := fun h => hw ((word_sized_spec reg hr).mpr h)
      rw [if_neg hw, if_neg hs, hsh, and_0xff, and_0xff]
  · have hb' : ¬ reg &&& 0xff00 ≠ 0 := fun h => hb ((high_byte_ne_zero reg hr).mp h)
    rw [if_neg hb', if_neg hb', if_neg hb, if_neg hb]
    by_cases hw : word_sized reg = true
    · have hs := (word_sized_spec reg hr).mp hw
      have ho : (reg + 1) % 256 = (reg &&& 0xff) + 1 := by
        have := hs.2
        rw [and_0xff] at this ⊢
        omega
      rw [if_pos hw, if_pos hs, hvs, ho, and_0xff, and_0xff]
    · have hs := fun h => hw ((word_sized_spec reg hr).mpr h)
      rw [if_neg hw, if_neg hs, and_0xff, and_0xff]

/-- Witness of C3 at the word-sized address `0x0155` with value `0x1234` on SMBus. -/
theorem write_value_high_byte_first_witness :
    bus_ops ⟨false, 0x290, 0x2d⟩ ⟨(), []⟩
        (w83781d_write_value idle_device ⟨false, 0x290, 0x2d⟩ 0x0155 0x1234 ⟨(), []⟩) =
      (if (0x0155 : Nat) >>> 8 ≠ 0 then [BusOp.write W83781D_REG_BANK (0x0155 >>> 8)]
        else []) ++
      (if ((0x0155 : Nat) >>> 8 = 1 ∨ (0x0155 : Nat) >>> 8 = 2) ∧
          ((0x0155 : Nat) &&& 0xff = 0x50 ∨ (0x0155 : Nat) &&& 0xff = 0x53 ∨
            (0x0155 : Nat) &&& 0xff = 0x55) then
        [BusOp.write (0x0155 &&& 0xff) (0x1234 >>> 8),
          BusOp.write ((0x0155 &&& 0xff) + 1) (0x1234 &&& 0xff)]
      else [BusOp.write (0x0155 &&& 0xff) (0x1234 &&& 0xff)]) ++
      (if (0x0155 : Nat) >>> 8 ≠ 0 then [BusOp.write W83781D_REG_BANK 0] else []) :=
  write_value_high_byte_first idle_device ⟨false, 0x290, 0x2d⟩ 0x0155 0x1234 ⟨(), []⟩
    (by decide) (by decide)
/-! ## The snapshot refresh -/

/-- C4: after a call of `w83781d_update_client` at time `t` that performed a refresh, a
second call at a time `t'` with `0 ≤ t' - t ≤ HZ + HZ/2` issues no bus cycle and
returns the snapshot unchanged, `valid` and `last_updated` included. -/
theorem second_update_within_window (D : Device σ) (K : Kernel) (c : i2c_client)
    (d : w83781d_data) (w : World σ) (t t' : Nat) (hs : stale K t d) (h1 : t ≤ t')
    (h2 : t' - t ≤ K.HZ + K.HZ / 2) :
    w83781d_update_client D K t' c (w83781d_update_client D K t c d w).1
        (w83781d_update_client D K t c d w).2 = w83781d_update_client D K t c d w ∧
    issued (w83781d_update_client D K t c d w).2
      (w83781d_update_client D K t' c (w83781d_update_client D K t c d w).1
        (w83781d_update_client D K t c d w).2).2 = [] := by
  obtain ⟨_, hv, hl, _⟩ := update_client_issues D K t c d w hs
  have hf : ¬ stale K t' (w83781d_update_client D K t c d w).1 := by
    unfold stale
    rw [hv, hl]
    have e : t' + 2 ^ K.BITS_PER_LONG - t = t' - t + 2 ^ K.BITS_PER_LONG :=
      Nat.sub_add_comm h1
    rw [e, Nat.add_mod_right]
    have := Nat.mod_le (t' - t) (2 ^ K.BITS_PER_LONG)
    omega
  have e := update_client_fresh D K t' c _ (w83781d_update_client D K t c d w).2 hf
  rw [e]
  exact ⟨rfl, issued_self _⟩

/-- Witness of C4: a blank W83782D snapshot refreshed at tick 1000 and read again at
tick 1100, with `HZ = 100` on a 32-bit kernel. -/
theorem second_update_within_window_witness :
    w83781d_update_client idle_device ⟨100, 32⟩ 1100 ⟨true, 0x290, 0x2d⟩
        (w83781d_update_client idle_device ⟨100, 32⟩ 1000 ⟨true, 0x290, 0x2d⟩
          (blank_data W83782D_WCHIPID) ⟨(), []⟩).1
        (w83781d_update_client idle_device ⟨100, 32⟩ 1000 ⟨true, 0x290, 0x2d⟩
          (blank_data W83782D_WCHIPID) ⟨(), []⟩).2 =
      w83781d_update_client idle_device ⟨100, 32⟩ 1000 ⟨true, 0x290, 0x2d⟩
        (blank_data W83782D_WCHIPID) ⟨(), []⟩ ∧
    issued (w83781d_update_client idle_device ⟨100, 32⟩ 1000 ⟨true, 0x290, 0x2d⟩
        (blank_data W83782D_WCHIPID) ⟨(), []⟩).2
      (w83781d_update_client idle_device ⟨100, 32⟩ 1100 ⟨true, 0x290, 0x2d⟩
        (w83781d_update_client idle_device ⟨100, 32⟩ 1000 ⟨true, 0x290, 0x2d⟩
          (blank_data W83782D_WCHIPID) ⟨(), []⟩).1
        (w83781d_update_client idle_device ⟨100, 32⟩ 1000 ⟨true, 0x290, 0x2d⟩
          (blank_data W83782D_WCHIPID) ⟨(), []⟩).2).2 = [] :=
  second_update_within_window idle_device ⟨100, 32⟩ ⟨true, 0x290, 0x2d⟩
    (blank_data W83782D_WCHIPID) ⟨(), []⟩ 1000 1100 (Or.inr (Or.inr rfl)) (by decide)
    (by decide)

/-- C5: `w83781d_update_client` issues bus cycles exactly when the snapshot is invalid
(`valid == 0`), or the clock is behind the timestamp, or the unsigned difference
`now - last_updated` exceeds `HZ + HZ/2`; when it does, the register accesses are the
whole bulk read and it ends with `valid = 1` and `last_updated = now`. -/
theorem refresh_iff_stale (D : Device σ) (K : Kernel) (now : Nat) (c : i2c_client)
    (d : w83781d_data) (w : World σ) :
    (issued w (w83781d_update_client D K now c d w).2 ≠ [] ↔
      (d.valid = 0 ∨ now < d.last_updated ∨
        (now + 2 ^ K.BITS_PER_LONG - d.last_updated) % 2 ^ K.BITS_PER_LONG >
          K.HZ + K.HZ / 2)) ∧
    (issued w (w83781d_update_client D K now c d w).2 ≠ [] →
      reg_accesses c w (w83781d_update_client D K now c d w).2 =
          (refresh_regs d.wchipid c.is_isa).flatMap (read_accs c.is_isa) ∧
        (w83781d_update_client D K now c d w).1.valid = 1 ∧
        (w83781d_update_client D K now c d w).1.last_updated = now) := by
  by_cases hs : stale K now d
  · obtain ⟨_, hv, hl, hi⟩ := update_client_issues D K now c d w hs
    have hne := hi.issued_ne_nil (refresh_accs_ne_nil d.wchipid c.is_isa)
    refine ⟨⟨fun _ => ?_, fun _ => hne⟩, fun _ => ⟨hi.accesses_eq, hv, hl⟩⟩
    unfold stale at hs
    tauto
  · rw [update_client_fresh D K now c d w hs]
    have hnil : issued w w = [] := issued_self w
    refine ⟨⟨fun h => absurd hnil h, fun h => ?_⟩, fun h => absurd hnil h⟩
    exfalso
    apply hs
    unfold stale
    tauto
/-! ## Variant channel gating -/

/-- C6: on each of the three variants, every register a refresh
(`w83781d_update_client`) or an initialisation (`w83781d_init_client`) accesses respects
the voltage gating: a reading or limit register of channel `nr` is accessed only if the
variant declares `nr` (0..6 on the W83781D, 0 and 2..6 on the W83783S, 0..8 on the
W83782D), and the bank-5 registers `0x550..0x557` are accessed by the W83782D alone.
The initialisation returns. -/
theorem voltage_channel_gating (D : Device σ) (K : Kernel) (now : Nat) (c : i2c_client)
    (d : w83781d_data) (w : World σ)
    (hv : d.wchipid = W83781D_WCHIPID ∨ d.wchipid = W83783S_WCHIPID ∨
      d.wchipid = W83782D_WCHIPID) :
    (∀ op ∈ reg_accesses c w (w83781d_update_client D K now c d w).2,
      voltage_gated d.wchipid op.reg) ∧
    (∃ r, w83781d_init_client D c d w = some r ∧
      ∀ op ∈ reg_accesses c w r.2, voltage_gated d.wchipid op.reg) := by
  have hm : d.wchipid ∈ [W83781D_WCHIPID, W83782D_WCHIPID, W83783S_WCHIPID] := by
    rcases hv with h | h | h <;> simp [h]
  constructor
  · intro op hop
    obtain ⟨r0, hr0, hr⟩ := update_client_reaches D K now c d w op hop
    exact refresh_regs_gated _ hm _ r0 hr0 _ hr
  · obtain ⟨r, hr, _, hall⟩ := init_client_reaches D c d w
    refine ⟨r, hr, fun op hop => ?_⟩
    obtain ⟨r0, hr0, hreach⟩ := hall op hop
    exact init_regs_gated _ hm r0 hr0 _ hreach

/-- Witness of C6: a W83783S on the ISA bus, blank snapshot, tick 1000. -/
theorem voltage_channel_gating_witness :
    (∀ op ∈ reg_accesses ⟨true, 0x290, 0x2d⟩ ⟨(), []⟩
        (w83781d_update_client idle_device ⟨100, 32⟩ 1000 ⟨true, 0x290, 0x2d⟩
          (blank_data W83783S_WCHIPID) ⟨(), []⟩).2,
      voltage_gated (blank_data W83783S_WCHIPID).wchipid op.reg) ∧
    (∃ r, w83781d_init_client idle_device ⟨true, 0x290, 0x2d⟩
        (blank_data W83783S_WCHIPID) ⟨(), []⟩ = some r ∧
      ∀ op ∈ reg_accesses ⟨true, 0x290, 0x2d⟩ ⟨(), []⟩ r.2,
        voltage_gated (blank_data W83783S_WCHIPID).wchipid op.reg) :=
  voltage_channel_gating idle_device ⟨100, 32⟩ 1000 ⟨true, 0x290, 0x2d⟩
    (blank_data W83783S_WCHIPID) ⟨(), []⟩ (Or.inr (Or.inl rfl))

/-- C7 (defect located): a refresh of a W83783S whose snapshot is not valid reads the
temperature-3 register `0x0250`, on either transport and whatever the device answers;
the initialisation of the same chip returns and accesses none of `0x0250`, `0x0252`,
`0x0253`, `0x0255`. -/
theorem refresh_reads_temp3_on_w83783s (D : Device σ) (K : Kernel) (now : Nat)
    (c : i2c_client) (w : World σ) :
    BusOp.read 0x0250 ∈ reg_accesses c w
      (w83781d_update_client D K now c (blank_data W83783S_WCHIPID) w).2 ∧
    (∃ r, w83781d_init_client D c (blank_data W83783S_WCHIPID) w = some r ∧
      ∀ op ∈ reg_accesses c w r.2, op.reg ∉ temp3_regs) := by
  constructor
  · have hs : stale K now (blank_data W83783S_WCHIPID) := Or.inr (Or.inr rfl)
    obtain ⟨_, _, _, hi⟩ := update_client_issues D K now c _ w hs
    rw [hi.accesses_eq]
    exact refresh_reads_temp3 c.is_isa
  · obtain ⟨r, hr, _, hall⟩ := init_client_reaches D c (blank_data W83783S_WCHIPID) w
    refine ⟨r, hr, fun op hop => ?_⟩
    obtain ⟨r0, hr0, hreach⟩ := hall op hop
    exact init_regs_no_temp3 r0 hr0 _ hreach
/-! ## Conversions: the voltage pair and the fan pair -/

/-- C8: the voltage conversion pair round-trips.  For every raw value 0..255,
`IN_TO_REG (IN_FROM_REG raw) = raw`, and for every physical value `x` in 0..408,
`IN_FROM_REG (IN_TO_REG x)` differs from `x` by at most 1. -/
theorem in_round_trip (nr : Nat) :
    (∀ raw : Int, 0 ≤ raw → raw ≤ 255 → IN_TO_REG (IN_FROM_REG raw nr) nr = raw) ∧
    (∀ x : Int, 0 ≤ x → x ≤ 408 →
      IN_FROM_REG (IN_TO_REG x nr) nr - x ≤ 1 ∧ x - IN_FROM_REG (IN_TO_REG x nr) nr ≤ 1) := by
  constructor
  · intro raw h0 _
    unfold IN_TO_REG IN_FROM_REG
    have h1 : (raw * 16).tdiv 10 = raw * 16 / 10 :=
      Int.tdiv_eq_ediv (by omega) (by omega)
    rw [h1, Int.tdiv_eq_ediv (by omega) (by omega)]
    omega
  · intro x h0 _
    unfold IN_TO_REG IN_FROM_REG
    have h1 : (x * 10 + 8).tdiv 16 = (x * 10 + 8) / 16 :=
      Int.tdiv_eq_ediv (by omega) (by omega)
    rw [h1, Int.tdiv_eq_ediv (by omega) (by omega)]
    omega

/-- C9, as stated, fails: with raw value 4 and divisor `2 ^ 30` the `int` product wraps
to 0 and the division traps; with divisor `2 ^ 30 + 1` the product wraps to 4 and the
result is 337500, where `1350000 / (4 * (2 ^ 30 + 1))` is 0. -/
theorem fan_from_reg_product_wraps :
    ¬ (FAN_FROM_REG 4 0x40000000 = some (1350000 / (4 * 0x40000000))) ∧
    ¬ (FAN_FROM_REG 4 0x40000001 = some (1350000 / (4 * 0x40000001))) ∧
    FAN_FROM_REG 4 0x40000000 = none ∧ FAN_FROM_REG 4 0x40000001 = some 337500 := by
  decide

/-- C9, amended: for every divisor `e`, `FAN_FROM_REG 0 e = -1` and
`FAN_FROM_REG 255 e = 0`; for every raw value in 1..254 and divisor `d ≥ 1` whose product
`raw * d` fits an `int` (is below `2 ^ 31`), `FAN_FROM_REG raw d` returns the integer
quotient `1350000 / (raw * d)`. -/
theorem fan_from_reg_spec (e raw d : Int) (h1 : 1 ≤ raw) (h2 : raw ≤ 254) (hd : 1 ≤ d)
    (hp : raw * d < 2 ^ 31) :
    FAN_FROM_REG 0 e = some (-1) ∧ FAN_FROM_REG 255 e = some 0 ∧
      FAN_FROM_REG raw d = some (1350000 / (raw * d)) := by
  refine ⟨by simp [FAN_FROM_REG], by simp [FAN_FROM_REG], ?_⟩
  have hpos : 1 ≤ raw * d := by nlinarith
  unfold FAN_FROM_REG
  rw [if_neg (by omega), if_neg (by omega)]
  dsimp only
  rw [to_int_eq _ (by omega) hp, if_neg (by omega),
    Int.tdiv_eq_ediv (by decide) (by omega)]

/-- Witness of the amended C9 at raw value 100 and divisor 2 (6750 RPM), with divisor 8
for the two sentinels. -/
theorem fan_from_reg_spec_witness :
    FAN_FROM_REG 0 8 = some (-1) ∧ FAN_FROM_REG 255 8 = some 0 ∧
      FAN_FROM_REG 100 2 = some (1350000 / (100 * 2)) :=
  fan_from_reg_spec 8 100 2 (by decide) (by decide) (by decide) (by decide)

/-- C10, as stated, fails: 3000000 RPM with divisor 1 converts to the raw value 0,
which is outside 1..255 (the routine has no lower clamp). -/
theorem fan_to_reg_not_clamped_below :
    ¬ ∃ v, FAN_TO_REG 3000000 1 = some v ∧ 1 ≤ v ∧ v ≤ 255 := by
  have h : FAN_TO_REG 3000000 1 = some 0 := by decide
  rintro ⟨v, hv, h1, _⟩
  rw [h] at hv
  cases hv
  omega

/-- C10, amended: for every 32-bit `rpm` and every divisor in {1, 2, 4, 8} such that
`rpm` is 0 or the 32-bit product `p = rpm * divisor` is non-zero, `FAN_TO_REG`
returns a value in 0..255; it is 255 when `rpm` is 0 or when the rounded quotient
`(1350000 + p / 2) / p` exceeds 255, it is that quotient otherwise, and it is at least
1 whenever `p ≤ 2700000`. -/
theorem fan_to_reg_range (rpm divisor : Nat) (hr : rpm < 2 ^ 32)
    (hd : divisor = 1 ∨ divisor = 2 ∨ divisor = 4 ∨ divisor = 8)
    (hz : rpm = 0 ∨ rpm * divisor % 2 ^ 32 ≠ 0) :
    ∃ v, FAN_TO_REG rpm divisor = some v ∧ v ≤ 255 ∧
      (rpm = 0 → v = 255) ∧
      (rpm ≠ 0 →
        (255 < (1350000 + rpm * divisor % 2 ^ 32 / 2) / (rpm * divisor % 2 ^ 32) → v = 255) ∧
        ((1350000 + rpm * divisor % 2 ^ 32 / 2) / (rpm * divisor % 2 ^ 32) ≤ 255 →
          v = (1350000 + rpm * divisor % 2 ^ 32 / 2) / (rpm * divisor % 2 ^ 32)) ∧
        (rpm * divisor % 2 ^ 32 ≤ 2700000 → 1 ≤ v)) := by
  by_cases h0 : rpm = 0
  · subst h0
    exact ⟨255, by simp [FAN_TO_REG], le_refl _, fun _ => rfl, fun h => absurd rfl h⟩
  · have hp : rpm * divisor % 2 ^ 32 ≠ 0 := hz.resolve_left h0
    generalize hpe : rpm * divisor % 2 ^ 32 = p at hp
    have hplt : p < 2 ^ 32 := hpe ▸ Nat.mod_lt _ (by decide)
    have hmod : (1350000 + p / 2) % 2 ^ 32 = 1350000 + p / 2 :=
      Nat.mod_eq_of_lt (by norm_num at hplt ⊢; omega)
    have hpos : 0 < p := Nat.pos_of_ne_zero hp
    by_cases hq : 255 < (1350000 + p / 2) / p
    · refine ⟨255, ?_, le_refl _, fun _ => rfl, fun _ => ⟨fun _ => rfl, fun h => ?_, fun _ => by decide⟩⟩
      · rw [fan_to_reg_eq rpm divisor p h0 hpe hp, hmod, if_pos hq]
      · omega
    · refine ⟨(1350000 + p / 2) / p, ?_, by omega, fun h => absurd h h0,
        fun _ => ⟨fun h => absurd h hq, fun _ => rfl, fun hle => ?_⟩⟩
      · have hlt : (1350000 + p / 2) / p < 256 := by omega
        rw [fan_to_reg_eq rpm divisor p h0 hpe hp, hmod, if_neg hq, Nat.mod_eq_of_lt hlt]
      · exact (Nat.le_div_iff_mul_le hpos).mpr (by omega)

/-- Witness of the amended C10 at 3000 RPM with divisor 2, the initial fan limit. -/
theorem fan_to_reg_range_witness :
    ∃ v, FAN_TO_REG 3000 2 = some v ∧ v ≤ 255 ∧
      (3000 = 0 → v = 255) ∧
      (3000 ≠ 0 →
        (255 < (1350000 + 3000 * 2 % 2 ^ 32 / 2) / (3000 * 2 % 2 ^ 32) → v = 255) ∧
        ((1350000 + 3000 * 2 % 2 ^ 32 / 2) / (3000 * 2 % 2 ^ 32) ≤ 255 →
          v = (1350000 + 3000 * 2 % 2 ^ 32 / 2) / (3000 * 2 % 2 ^ 32)) ∧
        (3000 * 2 % 2 ^ 32 ≤ 2700000 → 1 ≤ v)) :=
  fan_to_reg_range 3000 2 (by decide) (by decide) (by decide)
/-! ## Conversions: fan round trip, temperatures, VID and divisors -/

/-- C11: the fan conversion pair round-trips on register values: for every raw value
in 1..255 and every divisor in {1, 2, 4, 8}, `FAN_FROM_REG raw d` returns and
`FAN_TO_REG (FAN_FROM_REG raw d) d = raw` (the `int` result passed as the `unsigned`
argument). -/
theorem fan_round_trip (raw d : Nat) (h1 : 1 ≤ raw) (h2 : raw ≤ 255)
    (hd : d = 1 ∨ d = 2 ∨ d = 4 ∨ d = 8) :
    (FAN_FROM_REG raw d).bind (fun rpm => FAN_TO_REG (to_unsigned rpm) d) = some raw := by
  refine fan_round_trip_all raw (List.mem_range.mpr (by omega)) d ?_ (by omega)
  rcases hd with h | h | h | h <;> simp [h]

/-- Witness of C11 at raw value 100 and divisor 2. -/
theorem fan_round_trip_witness :
    (FAN_FROM_REG (100 : Nat) (2 : Nat)).bind (fun rpm => FAN_TO_REG (to_unsigned rpm) 2) =
      some 100 :=
  fan_round_trip 100 2 (by decide) (by decide) (by decide)

/-- C12 (defect located): `TEMP_FROM_REG` compares with `0x80` strictly, so the raw
byte `0x80` converts to 1280 where signed two's complement gives -1280, although
`TEMP_TO_REG (-1280)` is `0x80`; every other byte converts as signed 8-bit times 10. -/
theorem temp_from_reg_at_0x80 :
    TEMP_FROM_REG 0x80 = 1280 ∧ TEMP_TO_REG (-1280) = 0x80 ∧
      ∀ raw : Int, 0 ≤ raw → raw ≤ 255 → raw ≠ 0x80 →
        TEMP_FROM_REG raw = (if raw > 127 then raw - 256 else raw) * 10 := by
  refine ⟨by decide, by decide, fun raw _ _ hne => ?_⟩
  unfold TEMP_FROM_REG
  by_cases h : raw > 127
  · rw [if_pos h, if_pos (by omega)]
  · rw [if_neg h, if_neg (by omega)]

/-- C13: the primary-temperature pair round-trips on register values: for every raw
byte 0..255, `TEMP_TO_REG (TEMP_FROM_REG raw) = raw`. -/
theorem temp_round_trip (raw : Int) (h0 : 0 ≤ raw) (h1 : raw ≤ 255) :
    TEMP_TO_REG (TEMP_FROM_REG raw) = raw := by
  have h := temp_round_trip_all raw.toNat (List.mem_range.mpr (by omega))
  rwa [Int.toNat_of_nonneg h0] at h

/-- Witness of C13 at the raw byte `0xF6` (-10 degrees). -/
theorem temp_round_trip_witness : TEMP_TO_REG (TEMP_FROM_REG 0xF6) = 0xF6 :=
  temp_round_trip 0xF6 (by decide) (by decide)

/-- C14 (defect located): `TEMP_ADD_TO_REG` adds the rounding bias `+2` whatever the
sign, so negative values are not rounded to the nearest multiple of 5: -5 converts to
0 (nearest: -1, register `0xff80`) and -640 to `0xc080` (nearest: -128, register
`0xc000`), while 5 converts to `1 << 7`. -/
theorem temp_add_to_reg_negative :
    TEMP_ADD_TO_REG (-5) = 0 ∧ TEMP_ADD_TO_REG (-640) = 0xc080 ∧ TEMP_ADD_TO_REG 5 = 0x80 := by
  decide

/-- C15: for every 5-bit code `c`, `VID_FROM_REG c` is 0 if `c = 0x1F`, `510 - 10 * c`
if `0x10 ≤ c < 0x1F`, 0 if `0x06 ≤ c ≤ 0x0F`, and `205 - 5 * c` if `c < 0x06`. -/
theorem vid_from_reg_piecewise (c : Int) (h0 : 0 ≤ c) (h1 : c ≤ 31) :
    (c = 0x1F → VID_FROM_REG c = 0) ∧
    (0x10 ≤ c → c < 0x1F → VID_FROM_REG c = 510 - 10 * c) ∧
    (0x06 ≤ c → c ≤ 0x0F → VID_FROM_REG c = 0) ∧
    (c < 0x06 → VID_FROM_REG c = 205 - 5 * c) := by
  unfold VID_FROM_REG
  refine ⟨fun h => ?_, fun h h' => ?_, fun h h' => ?_, fun h => ?_⟩
  · rw [if_pos h]
  · rw [if_neg (by omega), if_pos (by omega)]
    omega
  · rw [if_neg (by omega), if_neg (by omega), if_pos (by omega)]
  · rw [if_neg (by omega), if_neg (by omega), if_neg (by omega)]
    omega

/-- Witness of C15 at the code `0x12`. -/
theorem vid_from_reg_piecewise_witness :
    ((0x12 : Int) = 0x1F → VID_FROM_REG 0x12 = 0) ∧
    ((0x10 : Int) ≤ 0x12 → (0x12 : Int) < 0x1F → VID_FROM_REG 0x12 = 510 - 10 * 0x12) ∧
    ((0x06 : Int) ≤ 0x12 → (0x12 : Int) ≤ 0x0F → VID_FROM_REG 0x12 = 0) ∧
    ((0x12 : Int) < 0x06 → VID_FROM_REG 0x12 = 205 - 5 * 0x12) :=
  vid_from_reg_piecewise 0x12 (by decide) (by decide)

/-- C16, as stated, fails: the code `0x10` decodes to 350, not 410. -/
theorem vid_0x10_is_not_410 :
    ¬ (VID_FROM_REG 0x00 = 205 ∧ VID_FROM_REG 0x1F = 0 ∧ VID_FROM_REG 0x10 = 410) := by
  decide

/-- C16, amended: `VID_FROM_REG 0x00 = 205`, `VID_FROM_REG 0x1F = 0` and
`VID_FROM_REG 0x10 = 350`. -/
theorem vid_literals :
    VID_FROM_REG 0x00 = 205 ∧ VID_FROM_REG 0x1F = 0 ∧ VID_FROM_REG 0x10 = 350 := by
  decide

/-- C17: for every integer divisor `d`, `DIV_FROM_REG (DIV_TO_REG d)` is `d` when `d` is
1, 2, 4 or 8 (codes 0, 1, 2, 3) and 2 for every other `d`; and for every code `c` in
0..3, `DIV_TO_REG (DIV_FROM_REG c) = c`. -/
theorem div_round_trip :
    (∀ d : Int, DIV_FROM_REG (DIV_TO_REG d).toNat =
      if d = 1 ∨ d = 2 ∨ d = 4 ∨ d = 8 then d else 2) ∧
    (DIV_TO_REG 1 = 0 ∧ DIV_TO_REG 2 = 1 ∧ DIV_TO_REG 4 = 2 ∧ DIV_TO_REG 8 = 3) ∧
    (∀ c : Nat, c ≤ 3 → DIV_TO_REG (DIV_FROM_REG c) = c) := by
  refine ⟨fun d => ?_, by decide, fun c hc => ?_⟩
  · unfold DIV_TO_REG
    by_cases h8 : d = 8
    · subst h8; decide
    by_cases h4 : d = 4
    · subst h4; decide
    by_cases h1 : d = 1
    · subst h1; decide
    by_cases h2 : d = 2
    · subst h2; decide
    rw [if_neg h8, if_neg h4, if_neg h1, if_neg (by tauto)]
    decide
  · interval_cases c <;> decide
/-! ## The fan divisors in the snapshot -/

/-- C19: a voltage write for channel `nr` changes only what it is given.  With no value
it changes nothing and issues no bus cycle; with one value it sets only `in_min[nr]` and
writes only `IN_MIN(nr)`; with two or more values it also sets `in_max[nr]` and writes
`IN_MAX(nr)`, depending on the first two values only.  `valid`, `last_updated` and all
other fields of the record are as before. -/
theorem in_write_frame (D : Device σ) (K : Kernel) (now : Nat) (c : i2c_client)
    (nr : Nat) (a : Sysctl σ) (hnr : nr ≤ 8) :
    let r := w83781d_in D K now c Operation.SENSORS_PROC_REAL_WRITE nr a
    let lo := to_u8 (IN_TO_REG (a.results 0) nr)
    let hi := to_u8 (IN_TO_REG (a.results 1) nr)
    (a.nrels_mag ≤ 0 → r.data = a.data ∧ r.world = a.world) ∧
    (a.nrels_mag = 1 →
      r.data = { a.data with in_min := Function.update a.data.in_min nr lo } ∧
        reg_accesses c a.world r.world = [BusOp.write (W83781D_REG_IN_MIN nr) lo]) ∧
    (2 ≤ a.nrels_mag →
      r.data = { a.data with
          in_min := Function.update a.data.in_min nr lo
          in_max := Function.update a.data.in_max nr hi } ∧
        reg_accesses c a.world r.world =
          [BusOp.write (W83781D_REG_IN_MIN nr) lo, BusOp.write (W83781D_REG_IN_MAX nr) hi]) := by
  intro r lo hi
  obtain ⟨⟨l1, n1, w1⟩, ⟨l2, n2, w2⟩⟩ := in_limit_regs_ok nr hnr
  have hlo : lo < 256 := to_u8_lt _
  have hhi : hi < 256 := to_u8_lt _
  have i1 := Issues.step_write D (W83781D_REG_IN_MIN nr) lo l1 n1 (Issues.refl c a.world)
  have i2 := Issues.step_write D (W83781D_REG_IN_MAX nr) hi l2 n2 i1
  rw [write_accs_byte _ _ w1 hlo] at i1 i2
  rw [write_accs_byte _ _ w2 hhi] at i2
  refine ⟨fun h0 => ?_, fun h1 => ?_, fun h2 => ?_⟩
  · have e : r = a := by
      show w83781d_in D K now c Operation.SENSORS_PROC_REAL_WRITE nr a = a
      unfold w83781d_in
      dsimp only
      rw [if_neg (show ¬ a.nrels_mag ≥ 1 by omega), if_neg (show ¬ a.nrels_mag ≥ 2 by omega)]
    rw [e]
    exact ⟨rfl, rfl⟩
  · have e : r = { a with
        data := { a.data with in_min := Function.update a.data.in_min nr lo }
        world := w83781d_write_value D c (W83781D_REG_IN_MIN nr) lo a.world } := by
      show w83781d_in D K now c Operation.SENSORS_PROC_REAL_WRITE nr a = _
      unfold w83781d_in
      dsimp only
      rw [if_pos (show a.nrels_mag ≥ 1 by omega), if_neg (show ¬ a.nrels_mag ≥ 2 by omega),
        Function.update_same]
    rw [e]
    exact ⟨rfl, by simpa using i1.accesses_eq⟩
  · have e : r = { a with
        data := { a.data with
          in_min := Function.update a.data.in_min nr lo
          in_max := Function.update a.data.in_max nr hi }
        world := w83781d_write_value D c (W83781D_REG_IN_MAX nr) hi
          (w83781d_write_value D c (W83781D_REG_IN_MIN nr) lo a.world) } := by
      show w83781d_in D K now c Operation.SENSORS_PROC_REAL_WRITE nr a = _
      unfold w83781d_in
      dsimp only
      rw [if_pos (show a.nrels_mag ≥ 1 by omega), if_pos (show a.nrels_mag ≥ 2 by omega),
        Function.update_same, Function.update_same]
    rw [e]
    exact ⟨rfl, by simpa using i2.accesses_eq⟩

/-- Witness of C19: one value, 300, written to channel 2 of a blank W83781D. -/
theorem in_write_frame_witness :
    let a : Sysctl Unit := ⟨1, fun _ => 300, blank_data W83781D_WCHIPID, ⟨(), []⟩⟩
    let r := w83781d_in idle_device ⟨100, 32⟩ 1000 ⟨true, 0x290, 0x2d⟩
      Operation.SENSORS_PROC_REAL_WRITE 2 a
    let lo := to_u8 (IN_TO_REG (a.results 0) 2)
    let hi := to_u8 (IN_TO_REG (a.results 1) 2)
    (a.nrels_mag ≤ 0 → r.data = a.data ∧ r.world = a.world) ∧
    (a.nrels_mag = 1 →
      r.data = { a.data with in_min := Function.update a.data.in_min 2 lo } ∧
        reg_accesses ⟨true, 0x290, 0x2d⟩ a.world r.world =
          [BusOp.write (W83781D_REG_IN_MIN 2) lo]) ∧
    (2 ≤ a.nrels_mag →
      r.data = { a.data with
          in_min := Function.update a.data.in_min 2 lo
          in_max := Function.update a.data.in_max 2 hi } ∧
        reg_accesses ⟨true, 0x290, 0x2d⟩ a.world r.world =
          [BusOp.write (W83781D_REG_IN_MIN 2) lo, BusOp.write (W83781D_REG_IN_MAX 2) hi]) :=
  in_write_frame idle_device ⟨100, 32⟩ 1000 ⟨true, 0x290, 0x2d⟩ 2
    ⟨1, fun _ => 300, blank_data W83781D_WCHIPID, ⟨(), []⟩⟩ (by decide)

/-- C20 (defect located): a beep write with exactly one value reads register
`BEEP_INTS1` (`0x56`), not `BEEP_INTS2`, and writes to `BEEP_INTS2` (`0x57`) the low
seven bits of that byte under the enable bit: the low seven bits written are those
`0x56` held, whatever `0x57` held.  `BEEP_INTS1` is not written and the record changes
in `beep_enable` only. -/
theorem beep_enable_write_reads_ints1 (D : Device σ) (K : Kernel) (now : Nat)
    (c : i2c_client) (a : Sysctl σ) :
    reg_accesses c a.world
        (w83781d_beep D K now c Operation.SENSORS_PROC_REAL_WRITE
          { a with nrels_mag := 1 }).world =
      [BusOp.read W83781D_REG_BEEP_INTS1,
        BusOp.write W83781D_REG_BEEP_INTS2
          ((((w83781d_read_value D c W83781D_REG_BEEP_INTS1 a.world).1 &&& 0x7f) |||
            (to_u8 (a.results 0) <<< 7)) % 256)] ∧
    (w83781d_beep D K now c Operation.SENSORS_PROC_REAL_WRITE
        { a with nrels_mag := 1 }).data =
      { a.data with beep_enable := to_u8 (a.results 0) } := by
  have i1 := Issues.step_read D W83781D_REG_BEEP_INTS1 (by decide) (Issues.refl c a.world)
  have i2 := Issues.step_write D W83781D_REG_BEEP_INTS2
    ((((w83781d_read_value D c W83781D_REG_BEEP_INTS1 a.world).1 &&& 0x7f) |||
      (to_u8 (a.results 0) <<< 7)) % 65536) (by decide) (by decide) i1
  have hr : read_accs c.is_isa W83781D_REG_BEEP_INTS1 =
      [BusOp.read W83781D_REG_BEEP_INTS1] := by
    unfold read_accs
    rw [if_neg (by decide)]
  have hw : ∀ v, write_accs W83781D_REG_BEEP_INTS2 v =
      [BusOp.write W83781D_REG_BEEP_INTS2 (v % 256)] := by
    intro v
    unfold write_accs
    rw [if_neg (by decide)]
  rw [hr, hw, Nat.mod_mod_of_dvd _ (by decide)] at i2
  constructor
  · exact i2.accesses_eq
  · rfl
/-! ## Group reads, validation and the hardware image of writes -/

/-- C21, as stated, fails for the primary temperature: on a fresh snapshot with
`temp_over = 60` and `temp_hyst = 50` a read returns 600 first and 500 second, that is
(upper limit, hysteresis), not (hysteresis, upper limit). -/
theorem temp_read_is_not_hyst_first :
    ¬ ((w83781d_temp idle_device ⟨100, 32⟩ 1000 ⟨true, 0x290, 0x2d⟩
          Operation.SENSORS_PROC_REAL_READ ⟨0, fun _ => 0, sample_data, ⟨(), []⟩⟩).results 0 =
        TEMP_FROM_REG sample_data.temp_hyst ∧
      (w83781d_temp idle_device ⟨100, 32⟩ 1000 ⟨true, 0x290, 0x2d⟩
          Operation.SENSORS_PROC_REAL_READ ⟨0, fun _ => 0, sample_data, ⟨(), []⟩⟩).results 1 =
        TEMP_FROM_REG sample_data.temp_over) := by
  decide

/-- C21, amended: a voltage read returns three values, `IN_FROM_REG` of `in_min`, `in_max`
and `in`; a primary-temperature read returns three values, `TEMP_FROM_REG` of `temp_over`,
`temp_hyst` and `temp` (upper limit, hysteresis, current); a fan read returns two,
`FAN_FROM_REG` of `fan_min` and of `fan`, in that order, and it does return whenever the
two fan bytes are bytes and the divisor code is one of 0..3.  All are taken from the
snapshot as `w83781d_update_client` leaves it. -/
theorem group_read_order (D : Device σ) (K : Kernel) (now : Nat) (c : i2c_client)
    (nr : Nat) (a : Sysctl σ) :
    let u := w83781d_update_client D K now c a.data a.world
    let ri := w83781d_in D K now c Operation.SENSORS_PROC_REAL_READ nr a
    let rt := w83781d_temp D K now c Operation.SENSORS_PROC_REAL_READ a
    (ri.nrels_mag = 3 ∧ ri.results 0 = IN_FROM_REG (u.1.in_min nr) nr ∧
      ri.results 1 = IN_FROM_REG (u.1.in_max nr) nr ∧
      ri.results 2 = IN_FROM_REG (u.1.in_ nr) nr) ∧
    (rt.nrels_mag = 3 ∧ rt.results 0 = TEMP_FROM_REG u.1.temp_over ∧
      rt.results 1 = TEMP_FROM_REG u.1.temp_hyst ∧
      rt.results 2 = TEMP_FROM_REG u.1.temp) ∧
    (w83781d_fan D K now c Operation.SENSORS_PROC_REAL_READ nr a =
      (FAN_FROM_REG (u.1.fan_min (nr - 1)) (DIV_FROM_REG (u.1.fan_div (nr - 1)))).bind
        fun x0 =>
      (FAN_FROM_REG (u.1.fan (nr - 1)) (DIV_FROM_REG (u.1.fan_div (nr - 1)))).bind
        fun x1 =>
      some ⟨2, Function.update (Function.update a.results 0 x0) 1 x1, u.1, u.2⟩) ∧
    (u.1.fan_min (nr - 1) ≤ 255 → u.1.fan (nr - 1) ≤ 255 → u.1.fan_div (nr - 1) ≤ 3 →
      ∃ rf, w83781d_fan D K now c Operation.SENSORS_PROC_REAL_READ nr a = some rf ∧
        rf.nrels_mag = 2 ∧
        FAN_FROM_REG (u.1.fan_min (nr - 1)) (DIV_FROM_REG (u.1.fan_div (nr - 1))) =
          some (rf.results 0) ∧
        FAN_FROM_REG (u.1.fan (nr - 1)) (DIV_FROM_REG (u.1.fan_div (nr - 1))) =
          some (rf.results 1)) := by
  intro u ri rt
  have hfan : w83781d_fan D K now c Operation.SENSORS_PROC_REAL_READ nr a =
      (FAN_FROM_REG (u.1.fan_min (nr - 1)) (DIV_FROM_REG (u.1.fan_div (nr - 1)))).bind
        fun x0 =>
      (FAN_FROM_REG (u.1.fan (nr - 1)) (DIV_FROM_REG (u.1.fan_div (nr - 1)))).bind
        fun x1 =>
      some ⟨2, Function.update (Function.update a.results 0 x0) 1 x1, u.1, u.2⟩ := rfl
  refine ⟨⟨rfl, ?_, ?_, ?_⟩, ⟨rfl, ?_, ?_, ?_⟩, hfan, fun hmin hcur hdiv => ?_⟩
  iterate 6 simp [ri, rt, u, w83781d_in, w83781d_temp, Function.update]
  obtain ⟨x0, h0⟩ := Option.isSome_iff_exists.mp
    (fan_from_reg_some _ (List.mem_range.mpr (Nat.lt_succ_of_le hmin)) _
      (List.mem_range.mpr (Nat.lt_succ_of_le hdiv)))
  obtain ⟨x1, h1⟩ := Option.isSome_iff_exists.mp
    (fan_from_reg_some _ (List.mem_range.mpr (Nat.lt_succ_of_le hcur)) _
      (List.mem_range.mpr (Nat.lt_succ_of_le hdiv)))
  refine ⟨⟨2, Function.update (Function.update a.results 0 x0) 1 x1, u.1, u.2⟩, ?_, rfl, ?_, ?_⟩
  · rw [hfan, h0, h1]
    rfl
  · rw [h0]
    simp [Function.update]
  · rw [h1]
    simp [Function.update]

/-- C26 (defect located): `FAN_TO_REG` guards `rpm == 0` only.  For `rpm = 0x80000000`
and divisor 2 the product wraps to 0 modulo `2 ^ 32` and the division traps; a fan
limit write of that value with divisor code 1 reaches it. -/
theorem fan_to_reg_divides_by_zero (D : Device σ) (K : Kernel) (now : Nat)
    (c : i2c_client) (w : World σ) :
    (0x80000000 * 2) % 2 ^ 32 = 0 ∧ FAN_TO_REG 0x80000000 2 = none ∧
    w83781d_fan D K now c Operation.SENSORS_PROC_REAL_WRITE 1
      ⟨1, fun _ => 0x80000000, { blank_data W83782D_WCHIPID with fan_div := fun _ => 1 }, w⟩ =
      none := by
  exact ⟨by decide, by decide, fan_write_traps D K now c 1 _ (show (1 : Int) ≥ 1 by decide)
    (show FAN_TO_REG (to_unsigned 0x80000000) (to_unsigned (DIV_FROM_REG 1)) = none by
      decide)⟩

/-- C30: the register map is injective.  The banked byte addresses of the voltage
registers `IN`, `IN_MIN`, `IN_MAX` (channels 0..8), `FAN` and `FAN_MIN` (1..3), `TEMP`,
`TEMP_OVER`, `TEMP_HYST`, `PWM` (1..4) and both bytes of the word-sized value, hysteresis
and over registers of temperature 2 and 3 are pairwise distinct; none of the former is
classified word-sized, each of the latter registers is. -/
theorem register_map_injective :
    (byte_regs ++ word_regs).Nodup ∧
    (∀ r ∈ byte_regs, word_sized r = false) ∧
    (∀ r ∈ [W83781D_REG_TEMP2, W83781D_REG_TEMP2_HYST, W83781D_REG_TEMP2_OVER,
      W83781D_REG_TEMP3, W83781D_REG_TEMP3_HYST, W83781D_REG_TEMP3_OVER],
      word_sized r = true) := by
  decide
/-- C22: a sensor-type write with a value accepts exactly the codes 1, 2 and 3435.  For
every other value the whole state is as before: the snapshot is unchanged and no bus
cycle is issued.  For an accepted value `v` it sets `sens[nr-1] = v` and changes no other
field of the snapshot. -/
theorem sens_write_validates (D : Device σ) (c : i2c_client) (nr : Nat) (a : Sysctl σ)
    (h : a.nrels_mag ≥ 1) :
    let r := w83781d_sens D c Operation.SENSORS_PROC_REAL_WRITE nr a
    ((a.results 0 ≠ 1 ∧ a.results 0 ≠ 2 ∧ a.results 0 ≠ 3435) → r = a) ∧
    ((a.results 0 = 1 ∨ a.results 0 = 2 ∨ a.results 0 = 3435) →
      ((r.data.sens (nr - 1) : Nat) : Int) = a.results 0 ∧
        r.data = { a.data with
          sens := Function.update a.data.sens (nr - 1) (r.data.sens (nr - 1)) }) := by
  intro r
  have hr : r = { a with
      data := (sens_switch D c nr (a.results 0) (a.data, a.world)).1
      world := (sens_switch D c nr (a.results 0) (a.data, a.world)).2 } := by
    show w83781d_sens D c Operation.SENSORS_PROC_REAL_WRITE nr a = _
    unfold w83781d_sens
    simp only [if_pos h]
  constructor
  · rintro ⟨h1, h2, h3⟩
    have hs : sens_switch D c nr (a.results 0) (a.data, a.world) = (a.data, a.world) := by
      unfold sens_switch
      simp only [if_neg h1, if_neg h2, W83781D_DEFAULT_BETA]
      rw [if_neg (by simpa using h3)]
    rw [hr, hs]
  · intro hv
    rw [hr]
    rcases hv with h1 | h1 | h1
    · have hs : (sens_switch D c nr (a.results 0) (a.data, a.world)).1 =
          { a.data with sens := Function.update a.data.sens (nr - 1) 1 } := by
        unfold sens_switch
        simp only [if_pos h1, h1]
        rfl
      simp only [h1] at hs ⊢
      simp only [hs, Function.update_same]
      exact ⟨rfl, trivial⟩
    · have hs : (sens_switch D c nr (a.results 0) (a.data, a.world)).1 =
          { a.data with sens := Function.update a.data.sens (nr - 1) 2 } := by
        unfold sens_switch
        rw [if_neg (by omega), if_pos h1]
        simp only [h1]
        rfl
      simp only [h1] at hs ⊢
      simp only [hs, Function.update_same]
      exact ⟨rfl, trivial⟩
    · have hs : (sens_switch D c nr (a.results 0) (a.data, a.world)).1 =
          { a.data with sens := Function.update a.data.sens (nr - 1) 3435 } := by
        unfold sens_switch
        rw [if_neg (by omega), if_neg (by omega), if_pos (by simpa [W83781D_DEFAULT_BETA] using h1)]
        simp only [h1]
        rfl
      simp only [h1] at hs ⊢
      simp only [hs, Function.update_same]
      exact ⟨rfl, trivial⟩

/-- Witness of C22: the value 7 offered for sensor 2 of a blank W83782D. -/
theorem sens_write_validates_witness :
    let a : Sysctl Unit := ⟨1, fun _ => 7, blank_data W83782D_WCHIPID, ⟨(), []⟩⟩
    let r := w83781d_sens idle_device ⟨true, 0x290, 0x2d⟩
      Operation.SENSORS_PROC_REAL_WRITE 2 a
    ((a.results 0 ≠ 1 ∧ a.results 0 ≠ 2 ∧ a.results 0 ≠ 3435) → r = a) ∧
    ((a.results 0 = 1 ∨ a.results 0 = 2 ∨ a.results 0 = 3435) →
      ((r.data.sens (2 - 1) : Nat) : Int) = a.results 0 ∧
        r.data = { a.data with
          sens := Function.update a.data.sens (2 - 1) (r.data.sens (2 - 1)) }) :=
  sens_write_validates idle_device ⟨true, 0x290, 0x2d⟩ 2
    ⟨1, fun _ => 7, blank_data W83782D_WCHIPID, ⟨(), []⟩⟩ (by decide)

/-- C25: a fan-divisor write with three or more values reads register `0x47`, writes it
back with the two new divisor codes, reads register PIN (`0x4B`) and writes to PIN the
very byte it has just read, whatever `results[2]` is; the snapshot field `fan_div[2]`
becomes `DIV_TO_REG(results[2])`.  The new channel-3 code does not reach the hardware. -/
theorem fan_div_write_pin_unchanged (D : Device σ) (K : Kernel) (now : Nat)
    (c : i2c_client) (a : Sysctl σ) (h : 3 ≤ a.nrels_mag) :
    let r47 := w83781d_read_value D c W83781D_REG_VID_FANDIV a.world
    let old := (((r47.1 &&& 0x3f) ||| (to_u8 (DIV_TO_REG (a.results 1)) <<< 6)) &&& 0xcf) |||
      (to_u8 (DIV_TO_REG (a.results 0)) <<< 4)
    let w1 := w83781d_write_value D c W83781D_REG_VID_FANDIV (old % 65536) r47.2
    let rp := w83781d_read_value D c W83781D_REG_PIN w1
    let r := w83781d_fan_div D K now c Operation.SENSORS_PROC_REAL_WRITE a
    r.world = w83781d_write_value D c W83781D_REG_PIN rp.1 rp.2 ∧
    reg_accesses c a.world r.world =
      [BusOp.read W83781D_REG_VID_FANDIV, BusOp.write W83781D_REG_VID_FANDIV (old % 256),
        BusOp.read W83781D_REG_PIN, BusOp.write W83781D_REG_PIN rp.1] ∧
    r.data.fan_div 2 = to_u8 (DIV_TO_REG (a.results 2)) := by
  intro r47 old w1 rp r
  have hw : r.world = w83781d_write_value D c W83781D_REG_PIN rp.1 rp.2 ∧
      r.data.fan_div 2 = to_u8 (DIV_TO_REG (a.results 2)) := by
    show (w83781d_fan_div D K now c Operation.SENSORS_PROC_REAL_WRITE a).world = _ ∧
      (w83781d_fan_div D K now c Operation.SENSORS_PROC_REAL_WRITE a).data.fan_div 2 = _
    unfold w83781d_fan_div
    simp only [if_pos (show a.nrels_mag ≥ 2 by omega), if_pos (show a.nrels_mag ≥ 1 by omega),
      if_pos (show a.nrels_mag ≥ 3 by omega), Function.update_same]
    exact ⟨trivial, trivial⟩
  refine ⟨hw.1, ?_, hw.2⟩
  rw [hw.1]
  have hrd : ∀ reg, word_sized reg = false →
      read_accs c.is_isa reg = [BusOp.read reg] := by
    intro reg hreg
    unfold read_accs
    rw [hreg]
    rfl
  have hwr : ∀ reg v, word_sized reg = false →
      write_accs reg v = [BusOp.write reg (v % 256)] := by
    intro reg v hreg
    unfold write_accs
    rw [hreg]
    rfl
  have hbyte : rp.1 % 256 = rp.1 :=
    Nat.mod_eq_of_lt (read_value_byte D c W83781D_REG_PIN w1 (by decide))
  have i1 := Issues.step_read D W83781D_REG_VID_FANDIV (by decide) (Issues.refl c a.world)
  have i2 := Issues.step_write D W83781D_REG_VID_FANDIV (old % 65536) (by decide) (by decide) i1
  have i3 := Issues.step_read D W83781D_REG_PIN (by decide) i2
  have i4 := Issues.step_write D W83781D_REG_PIN rp.1 (by decide) (by decide) i3
  rw [hrd _ (by decide), hwr _ _ (by decide), hrd _ (by decide), hwr _ _ (by decide),
    Nat.mod_mod_of_dvd _ (by decide), hbyte] at i4
  exact i4.accesses_eq

/-- Witness of C25: the divisors 2, 4, 8 written to a blank W83781D. -/
theorem fan_div_write_pin_unchanged_witness :
    let a : Sysctl Unit :=
      ⟨3, fun i => if i = 0 then 2 else if i = 1 then 4 else 8, blank_data W83781D_WCHIPID,
        ⟨(), []⟩⟩
    let r47 := w83781d_read_value idle_device ⟨true, 0x290, 0x2d⟩ W83781D_REG_VID_FANDIV
      a.world
    let old := (((r47.1 &&& 0x3f) ||| (to_u8 (DIV_TO_REG (a.results 1)) <<< 6)) &&& 0xcf) |||
      (to_u8 (DIV_TO_REG (a.results 0)) <<< 4)
    let w1 := w83781d_write_value idle_device ⟨true, 0x290, 0x2d⟩ W83781D_REG_VID_FANDIV
      (old % 65536) r47.2
    let rp := w83781d_read_value idle_device ⟨true, 0x290, 0x2d⟩ W83781D_REG_PIN w1
    let r := w83781d_fan_div idle_device ⟨100, 32⟩ 1000 ⟨true, 0x290, 0x2d⟩
      Operation.SENSORS_PROC_REAL_WRITE a
    r.world = w83781d_write_value idle_device ⟨true, 0x290, 0x2d⟩ W83781D_REG_PIN rp.1 rp.2 ∧
    reg_accesses ⟨true, 0x290, 0x2d⟩ a.world r.world =
      [BusOp.read W83781D_REG_VID_FANDIV, BusOp.write W83781D_REG_VID_FANDIV (old % 256),
        BusOp.read W83781D_REG_PIN, BusOp.write W83781D_REG_PIN rp.1] ∧
    r.data.fan_div 2 = to_u8 (DIV_TO_REG (a.results 2)) :=
  fan_div_write_pin_unchanged idle_device ⟨100, 32⟩ 1000 ⟨true, 0x290, 0x2d⟩
    ⟨3, fun i => if i = 0 then 2 else if i = 1 then 4 else 8, blank_data W83781D_WCHIPID,
      ⟨(), []⟩⟩ (by decide)
/-- C29 (defect located): a beep write with two values sends `(beeps >> 8) |
(beep_enable << 7)` to `BEEP_INTS2` without masking either part.  With `e = 2`, `m = 0`
the byte written is `0x00`, enable bit clear, although `e` is non-zero and
`BEEP_ENABLE_FROM_REG(beep_enable)` reports 1; with `e = 0`, `m = 0x8000` the byte is
`0x80`, enable bit set, although `e` is zero. -/
theorem beep_enable_bit_disagrees (D : Device σ) (K : Kernel) (now : Nat)
    (c : i2c_client) (d : w83781d_data) (w : World σ) :
    (reg_accesses c w
        (w83781d_beep D K now c Operation.SENSORS_PROC_REAL_WRITE
          ⟨2, fun i => if i = 0 then 2 else 0, d, w⟩).world =
      [BusOp.write W83781D_REG_BEEP_INTS1 0x00, BusOp.write W83781D_REG_BEEP_INTS2 0x00] ∧
      BEEP_ENABLE_FROM_REG
        (w83781d_beep D K now c Operation.SENSORS_PROC_REAL_WRITE
          ⟨2, fun i => if i = 0 then 2 else 0, d, w⟩).data.beep_enable = 1) ∧
    (reg_accesses c w
        (w83781d_beep D K now c Operation.SENSORS_PROC_REAL_WRITE
          ⟨2, fun i => if i = 0 then 0 else 0x8000, d, w⟩).world =
      [BusOp.write W83781D_REG_BEEP_INTS1 0x00, BusOp.write W83781D_REG_BEEP_INTS2 0x80] ∧
      BEEP_ENABLE_FROM_REG
        (w83781d_beep D K now c Operation.SENSORS_PROC_REAL_WRITE
          ⟨2, fun i => if i = 0 then 0 else 0x8000, d, w⟩).data.beep_enable = 0) := by
  have hw : ∀ reg v, word_sized reg = false →
      write_accs reg v = [BusOp.write reg (v % 256)] := by
    intro reg v hreg
    unfold write_accs
    rw [hreg]
    rfl
  have key : ∀ e m : Int,
      reg_accesses c w
        (w83781d_beep D K now c Operation.SENSORS_PROC_REAL_WRITE
          ⟨2, fun i => if i = 0 then e else m, d, w⟩).world =
      [BusOp.write W83781D_REG_BEEP_INTS1 ((to_u16 (BEEPS_TO_REG m) &&& 0xff) % 256),
        BusOp.write W83781D_REG_BEEP_INTS2
          ((((to_u16 (BEEPS_TO_REG m) >>> 8) |||
            (to_u8 (BEEP_ENABLE_TO_REG e) <<< 7)) % 65536) % 256)] := by
    intro e m
    have i1 := Issues.step_write D W83781D_REG_BEEP_INTS1 (to_u16 (BEEPS_TO_REG m) &&& 0xff)
      (by decide) (by decide) (Issues.refl c w)
    have i2 := Issues.step_write D W83781D_REG_BEEP_INTS2
      (((to_u16 (BEEPS_TO_REG m) >>> 8) ||| (to_u8 (BEEP_ENABLE_TO_REG e) <<< 7)) % 65536)
      (by decide) (by decide) i1
    rw [hw _ _ (by decide), hw _ _ (by decide)] at i2
    exact i2.accesses_eq
  have key2 : ∀ e m : Int,
      (w83781d_beep D K now c Operation.SENSORS_PROC_REAL_WRITE
        ⟨2, fun i => if i = 0 then e else m, d, w⟩).data.beep_enable =
      to_u8 (BEEP_ENABLE_TO_REG e) := fun _ _ => rfl
  refine ⟨⟨?_, ?_⟩, ⟨?_, ?_⟩⟩
  · rw [key 2 0]
    decide
  · rw [key2 2 0]
    decide
  · rw [key 0 0x8000]
    decide
  · rw [key2 0 0x8000]
    decide
/-! ## The initial voltage limits -/

/-- C23: initialising a W83781D writes the channel-0 voltage limits from the decoded
VID.  With `code` the 5-bit code read from the chip and `v = VID_FROM_REG(code)`, replaced
by 280 when it is 350, the only accesses to `0x2C` (`IN_MIN(0)`) and `0x2B` (`IN_MAX(0)`)
are one write of `IN_TO_REG(v - v*10/100)` and one write of `IN_TO_REG(v + v*10/100)`;
for a VID of 350 these are 158 and 193. -/
theorem init_in0_limits_from_vid (D : Device σ) (c : i2c_client) (d : w83781d_data)
    (w : World σ) (hw : d.wchipid = W83781D_WCHIPID) :
    let code := vid_code D c w
    let v : Int := if VID_FROM_REG code = 350 then 280 else VID_FROM_REG code
    code < 32 ∧
    ∃ r lo hi, w83781d_init_client D c d w = some r ∧
      (reg_accesses c w r.2).filter (fun op => op.reg = 0x2B ∨ op.reg = 0x2C) =
        [BusOp.write 0x2C lo, BusOp.write 0x2B hi] ∧
      (lo : Int) = IN_TO_REG (v - v * 10 / 100) 0 ∧
      (hi : Int) = IN_TO_REG (v + v * 10 / 100) 0 ∧
      (VID_FROM_REG code = 350 → lo = 158 ∧ hi = 193) := by
  intro code v
  have hlt : code < 32 := vid_code_lt D c w
  obtain ⟨tmp, cfg, r, hr, _, hi⟩ := init_client_issues_vid D c d w
  obtain ⟨h1, h2⟩ := init_in0_bytes code (List.mem_range.mpr hlt)
  refine ⟨hlt, r, _, _, hr, ?_, h1, h2, fun h350 => ?_⟩
  · rw [hi.accesses_eq, hw]
    exact init_calls_in0 c.is_isa _ tmp cfg
  · rw [show (if VID_FROM_REG (code : Nat) = 350 then (280 : Int)
      else VID_FROM_REG (code : Nat)) = 280 from if_pos h350] at h1 h2
    have a1 : IN_TO_REG (280 - 280 * 10 / 100) 0 = 158 := by decide
    have a2 : IN_TO_REG (280 + 280 * 10 / 100) 0 = 193 := by decide
    rw [a1] at h1
    rw [a2] at h2
    exact ⟨by exact_mod_cast h1, by exact_mod_cast h2⟩

/-- Witness of C23: a W83781D behind a device that answers 0 to every read (VID code 0,
205 in the units of `VID_FROM_REG`). -/
theorem init_in0_limits_from_vid_witness :
    let code := vid_code idle_device ⟨true, 0x290, 0x2d⟩ ⟨(), []⟩
    let v : Int := if VID_FROM_REG code = 350 then 280 else VID_FROM_REG code
    code < 32 ∧
    ∃ r lo hi, w83781d_init_client idle_device ⟨true, 0x290, 0x2d⟩
        (blank_data W83781D_WCHIPID) ⟨(), []⟩ = some r ∧
      (reg_accesses ⟨true, 0x290, 0x2d⟩ ⟨(), []⟩ r.2).filter
          (fun op => op.reg = 0x2B ∨ op.reg = 0x2C) =
        [BusOp.write 0x2C lo, BusOp.write 0x2B hi] ∧
      (lo : Int) = IN_TO_REG (v - v * 10 / 100) 0 ∧
      (hi : Int) = IN_TO_REG (v + v * 10 / 100) 0 ∧
      (VID_FROM_REG code = 350 → lo = 158 ∧ hi = 193) :=
  init_in0_limits_from_vid idle_device ⟨true, 0x290, 0x2d⟩ (blank_data W83781D_WCHIPID)
    ⟨(), []⟩ rfl
/-- C27: on each of the three variants and for the 5-bit VID code read from the chip,
`w83781d_init_client` returns, its register accesses are those of the probe, of one
`IN_MIN`/`IN_MAX` pair of writes per listed voltage channel, of the fan limits and of the
temperature set-up, and every pair satisfies `0 ≤ min ≤ max ≤ 255` before it is stored:
no value is truncated, the level-shifted channels 5 and 6 included. -/
theorem init_limits_ordered (D : Device σ) (c : i2c_client) (d : w83781d_data)
    (w : World σ)
    (hv : d.wchipid = W83781D_WCHIPID ∨ d.wchipid = W83782D_WCHIPID ∨
      d.wchipid = W83783S_WCHIPID) :
    vid_code D c w < 32 ∧
    ∃ tmp cfg r, w83781d_init_client D c d w = some r ∧
      reg_accesses c w r.2 =
        (init_probe_calls d.wchipid tmp ++
          (init_in_limits d.wchipid (VID_FROM_REG (vid_code D c w))).flatMap limit_calls ++
          init_fan_calls ++ init_temp_calls d.wchipid cfg).flatMap (call_accs c.is_isa) ∧
      ∀ t ∈ init_in_limits d.wchipid (VID_FROM_REG (vid_code D c w)),
        0 ≤ t.2.1 ∧ t.2.1 ≤ t.2.2 ∧ t.2.2 ≤ 255 := by
  have hlt := vid_code_lt D c w
  obtain ⟨tmp, cfg, r, hr, _, hi⟩ := init_client_issues_vid D c d w
  refine ⟨hlt, tmp, cfg, r, hr, ?_, ?_⟩
  · rw [hi.accesses_eq, init_calls, init_in_calls_limits]
  · have hm : d.wchipid ∈ [W83781D_WCHIPID, W83782D_WCHIPID, W83783S_WCHIPID] := by
      rcases hv with h | h | h <;> simp [h]
    exact init_in_limits_bounds _ hm _ (List.mem_range.mpr hlt)

/-- Witness of C27: a W83783S behind a device that answers `0xFF` to every read (VID
code `0x1F`). -/
theorem init_limits_ordered_witness :
    vid_code ones_device ⟨false, 0x290, 0x2d⟩ ⟨(), []⟩ < 32 ∧
    ∃ tmp cfg r, w83781d_init_client ones_device ⟨false, 0x290, 0x2d⟩
        (blank_data W83783S_WCHIPID) ⟨(), []⟩ = some r ∧
      reg_accesses ⟨false, 0x290, 0x2d⟩ ⟨(), []⟩ r.2 =
        (init_probe_calls (blank_data W83783S_WCHIPID).wchipid tmp ++
          (init_in_limits (blank_data W83783S_WCHIPID).wchipid
            (VID_FROM_REG (vid_code ones_device ⟨false, 0x290, 0x2d⟩ ⟨(), []⟩))).flatMap
              limit_calls ++
          init_fan_calls ++ init_temp_calls (blank_data W83783S_WCHIPID).wchipid cfg).flatMap
            (call_accs false) ∧
      ∀ t ∈ init_in_limits (blank_data W83783S_WCHIPID).wchipid
          (VID_FROM_REG (vid_code ones_device ⟨false, 0x290, 0x2d⟩ ⟨(), []⟩)),
        0 ≤ t.2.1 ∧ t.2.1 ≤ t.2.2 ∧ t.2.2 ≤ 255 :=
  init_limits_ordered ones_device ⟨false, 0x290, 0x2d⟩ (blank_data W83783S_WCHIPID)
    ⟨(), []⟩ (Or.inr (Or.inr rfl))
/-- C28 (defect located): over a cleared register file, on a W83782D, writing sensor
type 1 (diode) for sensor 1 and initialising decodes `sens[0] = 3435` (thermistor): the
write sets `BIT_SCFG2[0] = 0x10` in register `0x5D` where the decoding tests
`BIT_SCFG1[0] = 0x02`.  Writing type 1 for sensor 2 decodes `sens[1] = 2`: the decoding
takes the diode kind from register `0x27`, not from `0x59`.  The same holds on both
transports. -/
theorem sens_write_decode_disagree :
    sens_write_then_decode ⟨false, 0x290, 0x2d⟩ 1 1 = some 3435 ∧
    sens_write_then_decode ⟨false, 0x290, 0x2d⟩ 2 1 = some 2 ∧
    sens_write_then_decode ⟨true, 0x290, 0x2d⟩ 1 1 = some 3435 ∧
    sens_write_then_decode ⟨true, 0x290, 0x2d⟩ 2 1 = some 2 := by
  decide

end W83781D
